import Mathlib

/-!
# Service-lifecycle orchestration (`tools/pkg/service`)

A shallow embedding of the Go package `service`: the three adapters
(`redis.go`, `muraena.go`, `necrobrowser.go`), the orchestrator (`manager.go`)
and the shared types (`types.go`), with the commands of the command line
`cmd/service-manager/main.go`, followed by theorems about them.

Modelling conventions.

* A Go `error` is a `GoError`; `nil` is `none`.
* Everything the package asks of the operating system (commands, file
  queries, TCP dials, HTTP requests, sleeps, clock readings, the state of the
  `context.Context`) goes through `OS`, a record of answer functions.  Each
  answer may depend on the whole `World`: the chronological trace of the
  requests issued so far and the monotonic clock.  An `OS` value therefore
  describes one arbitrary behaviour of the host, including answers that change
  from one probe to the next.
* The orchestrator is written once, over an arbitrary adapter state `S` and
  arbitrary adapter behaviours (`Service S`); `NewManager` instantiates it with
  the three adapters of the package.  The orchestrator keeps a ghost log
  (`MState.log`) of the adapter methods it invokes, with their results, and of
  its own settle delays.
* A command started with `exec.CommandContext` carries the flag `withCtx`;
  whether it fails once the context is cancelled is for the host to answer.
  `ctxErr` is what `ctx.Err()` returns where the code selects on `ctx.Done()`.
-/

set_option autoImplicit false

namespace service

/-! ## Go values -/

/-- Go `error` values.  `errorf msg` is an error without a wrapped cause
(`fmt.Errorf` without `%w`, or an error produced by the host); `wrapf pre cause`
is `fmt.Errorf(pre + "%w", cause)`: every `%w` of the package ends its format
string. -/
inductive GoError where
  | errorf (msg : String)
  | wrapf (pre : String) (cause : GoError)
  deriving DecidableEq, Repr

/-- The method `Error()` of a Go error: the message text. -/
def GoError.Error : GoError → String
  | .errorf msg => msg
  | .wrapf pre cause => pre ++ cause.Error

/-- The function `errors.Unwrap`: the wrapped cause, if any. -/
def GoError.Unwrap : GoError → Option GoError
  | .errorf _ => none
  | .wrapf _ cause => some cause

/-- How `fmt` renders a `[]error` under `%v`: the messages, separated by one
blank, between square brackets. -/
def fmtErrors (errors : List GoError) : String :=
  "[" ++ " ".intercalate (errors.map GoError.Error) ++ "]"

/-- The constant `time.Second`, in nanoseconds (the unit of `time.Duration`). -/
def Second : Nat := 1000000000

/-- The constant `time.Minute`. -/
def Minute : Nat := 60 * Second

/-- The function `unicode.IsSpace`, which `strings.TrimSpace` uses. -/
def isSpace (c : Char) : Bool :=
  let n := c.toNat
  n = 9 || n = 10 || n = 11 || n = 12 || n = 13 || n = 32 || n = 0x85 || n = 0xA0 ||
  n = 0x1680 || (0x2000 ≤ n && n ≤ 0x200A) || n = 0x2028 || n = 0x2029 ||
  n = 0x202F || n = 0x205F || n = 0x3000

/-- The function `strings.TrimSpace`. -/
def TrimSpace (s : String) : String :=
  String.mk ((s.data.dropWhile isSpace).reverse.dropWhile isSpace).reverse

/-- Whether `sub` starts the character list `s`. -/
def startsWith : List Char → List Char → Bool
  | _, [] => true
  | [], _ :: _ => false
  | c :: s, d :: sub => c == d && startsWith s sub

/-- Whether `sub` occurs in the character list `s`. -/
def containsChars : List Char → List Char → Bool
  | [], sub => startsWith [] sub
  | c :: s, sub => startsWith (c :: s) sub || containsChars s sub

/-- The function `strings.Contains`. -/
def Contains (s substr : String) : Bool :=
  containsChars s.data substr.data

/-! ### `path/filepath` (Unix) -/

/-- The components of a path between its slashes. -/
def splitSlash : List Char → List (List Char)
  | [] => [[]]
  | c :: cs =>
    match splitSlash cs with
    | [] => [[c]]
    | top :: rest => if c = '/' then [] :: top :: rest else (c :: top) :: rest

/-- One step of the lexical cleaning of `filepath.Clean`: `stack` holds the
components kept so far, last one first. -/
def cleanStep (rooted : Bool) (stack : List (List Char)) (comp : List Char) :
    List (List Char) :=
  if comp = [] ∨ comp = ['.'] then stack
  else if comp = ['.', '.'] then
    match stack with
    | [] => if rooted then [] else [comp]
    | top :: rest => if top = ['.', '.'] then comp :: top :: rest else rest
  else comp :: stack

/-- The components of `comps`, joined by slashes. -/
def joinSlash : List (List Char) → List Char
  | [] => []
  | [c] => c
  | c :: d :: rest => c ++ '/' :: joinSlash (d :: rest)

/-- The function `filepath.Clean`. -/
def Clean (path : String) : String :=
  match path.data with
  | [] => "."
  | c :: cs =>
    let rooted : Bool := c = '/'
    let body := joinSlash ((splitSlash (c :: cs)).foldl (cleanStep rooted) []).reverse
    if rooted then String.mk ('/' :: body)
    else if body = [] then "." else String.mk body

/-- The function `filepath.Join`, for two elements. -/
def Join (a b : String) : String :=
  if a ≠ "" then Clean (a ++ "/" ++ b)
  else if b ≠ "" then Clean b
  else ""

/-- The part of a path up to and including its last slash. -/
def dirPart : List Char → List Char
  | [] => []
  | c :: cs =>
    if cs.contains '/' then c :: dirPart cs
    else if c = '/' then [c] else []

/-- The function `filepath.Dir`. -/
def Dir (path : String) : String :=
  Clean (String.mk (dirPart path.data))

/-! ## Shared types (`types.go`) -/

/-- The struct `ServiceStatus`.  `LastSeen = none` is the zero `time.Time`;
times are nanoseconds of the wall clock. -/
structure ServiceStatus where
  Name : String
  Running : Bool := false
  PID : Int := 0
  Uptime : Int := 0
  Ports : List Int := []
  Errors : List String := []
  Healthy : Bool := false
  LastSeen : Option Int := none
  deriving DecidableEq, Repr

/-- The struct `ServiceConfig`. -/
structure ServiceConfig where
  RedisAddr : String
  RedisPassword : String
  MuraenaDir : String
  MuraenaBinary : String
  MuraenaConfig : String
  NecroBrowserDir : String
  NecroBrowserBinary : String
  NecroBrowserConfig : String
  LogDir : String
  deriving DecidableEq, Repr

/-- The function `DefaultServiceConfig`. -/
def DefaultServiceConfig : ServiceConfig :=
  { RedisAddr := "localhost:6379"
    RedisPassword := ""
    MuraenaDir := "/home/ubuntu/muraena"
    MuraenaBinary := "muraena.bin"
    MuraenaConfig := "config.toml"
    NecroBrowserDir := "/home/ubuntu/necrobrowser"
    NecroBrowserBinary := "necrobrowser.js"
    NecroBrowserConfig := "config.toml"
    LogDir := "/home/ubuntu/logs" }

/-- The interface `Service`, over the state `S` its methods act on.  The
`context.Context` argument of the Go methods is part of that state: whether it
is cancelled is for the environment to say. -/
structure Service (S : Type) where
  Start : S → Option GoError × S
  Stop : S → Option GoError × S
  Restart : S → Option GoError × S
  HealthCheck : S → Option GoError × S
  GetStatus : S → ServiceStatus × S
  GetName : String

/-! ## The host -/

/-- A request of the package to the host. -/
inductive OSCall where
  /-- The call `cmd.Run()`; `withCtx` tells `exec.CommandContext` from `exec.Command`. -/
  | run (withCtx : Bool) (argv : List String)
  /-- The call `cmd.Output()`. -/
  | output (withCtx : Bool) (argv : List String)
  /-- The call `os.Stat(path)`. -/
  | stat (path : String)
  /-- The call `os.MkdirAll(path, perm)`. -/
  | mkdirAll (path : String) (perm : Nat)
  /-- The call `time.Sleep(d)`. -/
  | sleep (d : Nat)
  /-- The call `time.Now()`. -/
  | now
  /-- The call `net.DialTimeout(network, address, timeout)`, closing the connection on success. -/
  | dial (network address : String) (timeout : Nat)
  /-- The call `client.Get(url)` of an `http.Client` with the given timeout, closing the body on success. -/
  | httpGet (timeout : Nat) (url : String)
  /-- The non-blocking receive from `ctx.Done()`. -/
  | ctxDone
  deriving DecidableEq, Repr

/-- The state the adapters act on: the requests issued so far, oldest first,
and the reading of the monotonic clock in nanoseconds. -/
structure World where
  trace : List OSCall
  clock : Nat
  deriving DecidableEq, Repr

/-- The answer of `os.Stat`: the file's modification time, an error for which
`os.IsNotExist` holds, or another error. -/
inductive StatResult where
  | ok (modTime : Int)
  | notExist
  | other (err : GoError)
  deriving DecidableEq, Repr

/-- One behaviour of the host: its answer to every request, in every world.
`elapsed w c` is the time the monotonic clock advances over request `c` (for a
sleep, beyond the requested duration: `time.Sleep` pauses for at least `d`).
`wallNow` is the wall clock, which `time.Since` uses for a file's modification
time.  `timeString` is `time.Time.String` and `sscanInt s` is the value
`fmt.Sscanf(s, "%d", &pid)` leaves in `pid`, starting from 0. -/
structure OS where
  run : World → Bool → List String → Option GoError
  output : World → Bool → List String → String × Option GoError
  stat : World → String → StatResult
  mkdirAll : World → String → Nat → Option GoError
  dial : World → String → String → Nat → Option GoError
  httpGet : World → Nat → String → Except GoError Nat
  ctxErr : World → Option GoError
  wallNow : World → Int
  elapsed : World → OSCall → Nat
  timeString : Int → String
  sscanInt : String → Int

/-- The world after request `c`: the request is recorded and the clock moves on. -/
def OS.step (os : OS) (w : World) (c : OSCall) : World :=
  { trace := w.trace ++ [c]
    clock := w.clock + os.elapsed w c + (match c with | .sleep d => d | _ => 0) }

/-- The call `cmd.Run()` on `exec.Command(argv...)` or `exec.CommandContext(ctx, argv...)`. -/
def OS.doRun (os : OS) (withCtx : Bool) (argv : List String) (w : World) :
    Option GoError × World :=
  (os.run w withCtx argv, os.step w (.run withCtx argv))

/-- The call `cmd.Output()`: the standard output and the error. -/
def OS.doOutput (os : OS) (withCtx : Bool) (argv : List String) (w : World) :
    (String × Option GoError) × World :=
  (os.output w withCtx argv, os.step w (.output withCtx argv))

/-- The call `os.Stat(path)`. -/
def OS.doStat (os : OS) (path : String) (w : World) : StatResult × World :=
  (os.stat w path, os.step w (.stat path))

/-- The call `os.MkdirAll(path, perm)`. -/
def OS.doMkdirAll (os : OS) (path : String) (perm : Nat) (w : World) :
    Option GoError × World :=
  (os.mkdirAll w path perm, os.step w (.mkdirAll path perm))

/-- The call `time.Sleep(d)`. -/
def OS.doSleep (os : OS) (d : Nat) (w : World) : World :=
  os.step w (.sleep d)

/-- The call `time.Now()`: the wall-clock reading and the monotonic one. -/
def OS.doNow (os : OS) (w : World) : (Int × Nat) × World :=
  ((os.wallNow w, w.clock), os.step w .now)

/-- The call `net.DialTimeout(network, address, timeout)`; the connection is
closed at once when there is one. -/
def OS.doDial (os : OS) (network address : String) (timeout : Nat) (w : World) :
    Option GoError × World :=
  (os.dial w network address timeout, os.step w (.dial network address timeout))

/-- The call `client.Get(url)`: an error, or the status code of the response. -/
def OS.doHttpGet (os : OS) (timeout : Nat) (url : String) (w : World) :
    Except GoError Nat × World :=
  (os.httpGet w timeout url, os.step w (.httpGet timeout url))

/-- The statement `select { case <-ctx.Done(): return ctx.Err(); default: }`:
`some (ctx.Err())` when the context is done. -/
def OS.doCtxDone (os : OS) (w : World) : Option GoError × World :=
  (os.ctxErr w, os.step w .ctxDone)

/-! ## The data-store adapter (`redis.go`) -/

/-- The struct `RedisService`. -/
structure RedisService where
  config : ServiceConfig
  deriving DecidableEq, Repr

/-- The function `NewRedisService`. -/
def NewRedisService (config : ServiceConfig) : RedisService :=
  { config := config }

/-- The method `RedisService.GetName`. -/
def RedisService.GetName (_rs : RedisService) : String := "Redis"

/-- The method `RedisService.HealthCheck`. -/
def RedisService.HealthCheck (os : OS) (_rs : RedisService) (w : World) :
    Option GoError × World :=
  let active := os.doOutput true ["systemctl", "is-active", "redis"] w
  match active.1 with
  | (_, some _) => (some (.errorf "redis is not active"), active.2)
  | (output, none) =>
    if TrimSpace output ≠ "active" then
      (some (.errorf ("redis status: " ++ TrimSpace output)), active.2)
    else
      let ping := os.doOutput true ["redis-cli", "ping"] active.2
      match ping.1 with
      | (_, some err) => (some (.wrapf "redis ping failed: " err), ping.2)
      | (output, none) =>
        if TrimSpace output ≠ "PONG" then
          (some (.errorf ("unexpected redis ping response: " ++ output)), ping.2)
        else (none, ping.2)

/-- The method `RedisService.Start`. -/
def RedisService.Start (os : OS) (rs : RedisService) (w : World) : Option GoError × World :=
  let check := rs.HealthCheck os w
  match check.1 with
  | none => (some (.errorf "redis is already running"), check.2)
  | some _ =>
    let start := os.doRun true ["sudo", "systemctl", "start", "redis"] check.2
    match start.1 with
    | some err => (some (.wrapf "failed to start redis: " err), start.2)
    | none =>
      let enable := os.doRun true ["sudo", "systemctl", "enable", "redis"] start.2
      rs.HealthCheck os (os.doSleep (2 * Second) enable.2)

/-- The method `RedisService.Stop`. -/
def RedisService.Stop (os : OS) (_rs : RedisService) (w : World) : Option GoError × World :=
  let stop := os.doRun true ["sudo", "systemctl", "stop", "redis"] w
  match stop.1 with
  | some err => (some (.wrapf "failed to stop redis: " err), stop.2)
  | none => (none, stop.2)

/-- The method `RedisService.Restart`. -/
def RedisService.Restart (os : OS) (rs : RedisService) (w : World) : Option GoError × World :=
  let stop := rs.Stop os w
  match stop.1 with
  | some err => (some err, stop.2)
  | none => rs.Start os (os.doSleep (1 * Second) stop.2)

/-- The method `RedisService.GetStatus`. -/
def RedisService.GetStatus (os : OS) (rs : RedisService) (w : World) : ServiceStatus × World :=
  let status : ServiceStatus := { Name := rs.GetName, Ports := [6379] }
  let check := rs.HealthCheck os w
  match check.1 with
  | none =>
    let t := os.doNow check.2
    ({ status with Running := true, Healthy := true, LastSeen := some t.1.1 }, t.2)
  | some err =>
    ({ status with Running := false, Healthy := false,
                   Errors := status.Errors ++ [err.Error] }, check.2)

/-- The adapter as a `Service`. -/
def RedisService.toService (os : OS) (rs : RedisService) : Service World :=
  { Start := rs.Start os
    Stop := rs.Stop os
    Restart := rs.Restart os
    HealthCheck := rs.HealthCheck os
    GetStatus := rs.GetStatus os
    GetName := rs.GetName }

/-! ## The proxy adapter (`muraena.go`) -/

/-- The struct `MuraenaService`. -/
structure MuraenaService where
  config : ServiceConfig
  workDir : String
  binaryPath : String
  configPath : String
  logPath : String
  deriving DecidableEq, Repr

/-- The function `NewMuraenaService`. -/
def NewMuraenaService (config : ServiceConfig) : MuraenaService :=
  let workDir := config.MuraenaDir
  { config := config
    workDir := workDir
    binaryPath := Join workDir config.MuraenaBinary
    configPath := Join workDir config.MuraenaConfig
    logPath := Join workDir "muraena.log" }

/-- The method `MuraenaService.GetName`. -/
def MuraenaService.GetName (_ms : MuraenaService) : String := "Muraena"

/-- The method `MuraenaService.isRunning`. -/
def MuraenaService.isRunning (os : OS) (_ms : MuraenaService) (w : World) : Bool × World :=
  let list := os.doOutput false ["screen", "-list"] w
  match list.1 with
  | (_, some _) => (false, list.2)
  | (output, none) => (Contains output "muraena", list.2)

/-- The method `MuraenaService.isPortListening`. -/
def MuraenaService.isPortListening (os : OS) (_ms : MuraenaService) (port : Nat) (w : World) :
    Bool × World :=
  let conn := os.doDial "tcp" ("localhost:" ++ toString port) (2 * Second) w
  match conn.1 with
  | some _ => (false, conn.2)
  | none => (true, conn.2)

/-- The method `MuraenaService.getPID`. -/
def MuraenaService.getPID (os : OS) (_ms : MuraenaService) (w : World) : Int × World :=
  let pgrep := os.doOutput false ["pgrep", "-f", "muraena.bin"] w
  match pgrep.1 with
  | (_, some _) => (0, pgrep.2)
  | (output, none) => (os.sscanInt output, pgrep.2)

/-- The argument `screenCmd` of the `bash -c` that `MuraenaService.Start` runs
in the session. -/
def MuraenaService.screenCmd (ms : MuraenaService) : String :=
  "cd " ++ ms.workDir ++ " && ./muraena.bin -config config.toml | tee " ++ ms.logPath

/-- The method `MuraenaService.Start`. -/
def MuraenaService.Start (os : OS) (ms : MuraenaService) (w : World) : Option GoError × World :=
  let running := ms.isRunning os w
  if running.1 then (some (.errorf "muraena is already running"), running.2)
  else
    let binary := os.doStat ms.binaryPath running.2
    if binary.1 = .notExist then
      (some (.errorf ("muraena binary not found: " ++ ms.binaryPath)), binary.2)
    else
      let config := os.doStat ms.configPath binary.2
      if config.1 = .notExist then
        (some (.errorf ("muraena config not found: " ++ ms.configPath)), config.2)
      else
        let logDir := Dir ms.logPath
        let mkdir := os.doMkdirAll logDir 0o755 config.2
        match mkdir.1 with
        | some err => (some (.wrapf "failed to create log directory: " err), mkdir.2)
        | none =>
          let launch :=
            os.doRun true ["screen", "-dmS", "muraena", "bash", "-c", ms.screenCmd] mkdir.2
          match launch.1 with
          | some err => (some (.wrapf "failed to start muraena: " err), launch.2)
          | none =>
            let started := ms.isRunning os (os.doSleep (3 * Second) launch.2)
            if !started.1 then
              (some (.errorf "muraena failed to start (screen session not found)"), started.2)
            else (none, started.2)

/-- The method `MuraenaService.Stop`. -/
def MuraenaService.Stop (os : OS) (ms : MuraenaService) (w : World) : Option GoError × World :=
  let running := ms.isRunning os w
  if !running.1 then (none, running.2)
  else
    let quit := os.doRun true ["screen", "-S", "muraena", "-X", "quit"] running.2
    match quit.1 with
    | some err => (some (.wrapf "failed to stop muraena: " err), quit.2)
    | none => (none, os.doSleep (2 * Second) quit.2)

/-- The method `MuraenaService.Restart`. -/
def MuraenaService.Restart (os : OS) (ms : MuraenaService) (w : World) :
    Option GoError × World :=
  let stop := ms.Stop os w
  match stop.1 with
  | some err => (some err, stop.2)
  | none => ms.Start os (os.doSleep (2 * Second) stop.2)

/-- The loop over `ports` of `MuraenaService.HealthCheck`. -/
def MuraenaService.checkPorts (os : OS) (ms : MuraenaService) :
    List Nat → World → Option GoError × World
  | [], w => (none, w)
  | port :: rest, w =>
    let listening := ms.isPortListening os port w
    if !listening.1 then
      (some (.errorf ("port " ++ toString port ++ " not listening")), listening.2)
    else MuraenaService.checkPorts os ms rest listening.2

/-- The method `MuraenaService.HealthCheck`.  `time.Since` of a modification
time is a difference of wall-clock readings. -/
def MuraenaService.HealthCheck (os : OS) (ms : MuraenaService) (w : World) :
    Option GoError × World :=
  let running := ms.isRunning os w
  if !running.1 then (some (.errorf "muraena screen session not found"), running.2)
  else
    let ports := ms.checkPorts os [80, 443] running.2
    match ports.1 with
    | some err => (some err, ports.2)
    | none =>
      let info := os.doStat ms.logPath ports.2
      match info.1 with
      | .ok modTime =>
        let t := os.doNow info.2
        if t.1.1 - modTime > ((5 * Minute : Nat) : Int) then
          (some (.errorf ("log file not being updated (last modified: " ++
            os.timeString modTime ++ ")")), t.2)
        else (none, t.2)
      | _ => (none, info.2)

/-- The method `MuraenaService.GetStatus`. -/
def MuraenaService.GetStatus (os : OS) (ms : MuraenaService) (w : World) :
    ServiceStatus × World :=
  let status : ServiceStatus := { Name := ms.GetName, Ports := [80, 443] }
  let check := ms.HealthCheck os w
  match check.1 with
  | none =>
    let t := os.doNow check.2
    let status : ServiceStatus :=
      { status with Running := true, Healthy := true, LastSeen := some t.1.1 }
    let pid := ms.getPID os t.2
    if pid.1 > 0 then ({ status with PID := pid.1 }, pid.2) else (status, pid.2)
  | some err =>
    let running := ms.isRunning os check.2
    ({ status with Running := running.1, Healthy := false,
                   Errors := status.Errors ++ [err.Error] }, running.2)

/-- The adapter as a `Service`. -/
def MuraenaService.toService (os : OS) (ms : MuraenaService) : Service World :=
  { Start := ms.Start os
    Stop := ms.Stop os
    Restart := ms.Restart os
    HealthCheck := ms.HealthCheck os
    GetStatus := ms.GetStatus os
    GetName := ms.GetName }

/-! ## The automation-worker adapter (`necrobrowser.go`) -/

/-- The struct `NecroBrowserService`. -/
structure NecroBrowserService where
  config : ServiceConfig
  workDir : String
  binaryPath : String
  configPath : String
  logPath : String
  apiPort : Nat
  deriving DecidableEq, Repr

/-- The function `NewNecroBrowserService`. -/
def NewNecroBrowserService (config : ServiceConfig) : NecroBrowserService :=
  let workDir := config.NecroBrowserDir
  let logDir := Join workDir "logs"
  { config := config
    workDir := workDir
    binaryPath := Join workDir config.NecroBrowserBinary
    configPath := Join workDir config.NecroBrowserConfig
    logPath := Join logDir "necrobrowser_startup.log"
    apiPort := 3000 }

/-- The method `NecroBrowserService.GetName`. -/
def NecroBrowserService.GetName (_ns : NecroBrowserService) : String := "NecroBrowser"

/-- The method `NecroBrowserService.isRunning`. -/
def NecroBrowserService.isRunning (os : OS) (_ns : NecroBrowserService) (w : World) :
    Bool × World :=
  let list := os.doOutput false ["screen", "-list"] w
  match list.1 with
  | (_, some _) => (false, list.2)
  | (output, none) => (Contains output "necro", list.2)

/-- The method `NecroBrowserService.isPortListening`. -/
def NecroBrowserService.isPortListening (os : OS) (_ns : NecroBrowserService) (port : Nat)
    (w : World) : Bool × World :=
  let conn := os.doDial "tcp" ("localhost:" ++ toString port) (2 * Second) w
  match conn.1 with
  | some _ => (false, conn.2)
  | none => (true, conn.2)

/-- The method `NecroBrowserService.getPID`. -/
def NecroBrowserService.getPID (os : OS) (_ns : NecroBrowserService) (w : World) :
    Int × World :=
  let pgrep := os.doOutput false ["pgrep", "-f", "necrobrowser"] w
  match pgrep.1 with
  | (_, some _) => (0, pgrep.2)
  | (output, none) => (os.sscanInt output, pgrep.2)

/-- The address `http://localhost:<apiPort>/health` that `HealthCheck` and
`waitForAPI` request. -/
def NecroBrowserService.healthURL (ns : NecroBrowserService) : String :=
  "http://localhost:" ++ toString ns.apiPort ++ "/health"

/-- The `for` loop of `NecroBrowserService.waitForAPI`, for at most `fuel`
rounds that find the deadline ahead.  Every round sleeps a second of the
monotonic clock, which `Before` compares, so the round after `fuel` rounds
finds the deadline passed once `fuel` seconds reach it. -/
def NecroBrowserService.waitLoop (os : OS) (ns : NecroBrowserService) (deadline : Nat) :
    Nat → World → Option GoError × World
  | 0, w => (some (.errorf "timeout waiting for API to be ready"), (os.doNow w).2)
  | fuel + 1, w =>
    let t := os.doNow w
    if t.1.2 < deadline then
      let done := os.doCtxDone t.2
      match done.1 with
      | some err => (some err, done.2)
      | none =>
        let resp := os.doHttpGet (2 * Second) ns.healthURL done.2
        let ready : Bool :=
          match resp.1 with
          | .ok code => code == 200
          | .error _ => false
        if ready then (none, resp.2)
        else NecroBrowserService.waitLoop os ns deadline fuel (os.doSleep (1 * Second) resp.2)
    else (some (.errorf "timeout waiting for API to be ready"), t.2)

/-- The method `NecroBrowserService.waitForAPI`. -/
def NecroBrowserService.waitForAPI (os : OS) (ns : NecroBrowserService) (timeout : Nat)
    (w : World) : Option GoError × World :=
  let t := os.doNow w
  let deadline := t.1.2 + timeout
  ns.waitLoop os deadline (timeout / Second + 1) t.2

/-- The argument `screenCmd` of the `bash -c` that `NecroBrowserService.Start`
runs in the session. -/
def NecroBrowserService.screenCmd (ns : NecroBrowserService) : String :=
  "cd " ++ ns.workDir ++ " && npm start | tee " ++ ns.logPath

/-- The method `NecroBrowserService.Start`. -/
def NecroBrowserService.Start (os : OS) (ns : NecroBrowserService) (w : World) :
    Option GoError × World :=
  let running := ns.isRunning os w
  if running.1 then (some (.errorf "necrobrowser is already running"), running.2)
  else
    let binary := os.doStat ns.binaryPath running.2
    if binary.1 = .notExist then
      (some (.errorf ("necrobrowser binary not found: " ++ ns.binaryPath)), binary.2)
    else
      let config := os.doStat ns.configPath binary.2
      if config.1 = .notExist then
        (some (.errorf ("necrobrowser config not found: " ++ ns.configPath)), config.2)
      else
        let logDir := Dir ns.logPath
        let mkdir := os.doMkdirAll logDir 0o755 config.2
        match mkdir.1 with
        | some err => (some (.wrapf "failed to create log directory: " err), mkdir.2)
        | none =>
          let launch :=
            os.doRun true ["screen", "-dmS", "necro", "bash", "-c", ns.screenCmd] mkdir.2
          match launch.1 with
          | some err => (some (.wrapf "failed to start necrobrowser: " err), launch.2)
          | none =>
            let started := ns.isRunning os (os.doSleep (3 * Second) launch.2)
            if !started.1 then
              (some (.errorf "necrobrowser failed to start (screen session not found)"),
                started.2)
            else
              let ready := ns.waitForAPI os (30 * Second) started.2
              match ready.1 with
              | some err => (some (.wrapf "necrobrowser API not ready: " err), ready.2)
              | none => (none, ready.2)

/-- The method `NecroBrowserService.Stop`. -/
def NecroBrowserService.Stop (os : OS) (ns : NecroBrowserService) (w : World) :
    Option GoError × World :=
  let running := ns.isRunning os w
  if !running.1 then (none, running.2)
  else
    let quit := os.doRun true ["screen", "-S", "necro", "-X", "quit"] running.2
    match quit.1 with
    | some err => (some (.wrapf "failed to stop necrobrowser: " err), quit.2)
    | none => (none, os.doSleep (2 * Second) quit.2)

/-- The method `NecroBrowserService.Restart`. -/
def NecroBrowserService.Restart (os : OS) (ns : NecroBrowserService) (w : World) :
    Option GoError × World :=
  let stop := ns.Stop os w
  match stop.1 with
  | some err => (some err, stop.2)
  | none => ns.Start os (os.doSleep (2 * Second) stop.2)

/-- The method `NecroBrowserService.HealthCheck`. -/
def NecroBrowserService.HealthCheck (os : OS) (ns : NecroBrowserService) (w : World) :
    Option GoError × World :=
  let running := ns.isRunning os w
  if !running.1 then (some (.errorf "necrobrowser screen session not found"), running.2)
  else
    let listening := ns.isPortListening os ns.apiPort running.2
    if !listening.1 then
      (some (.errorf ("API port " ++ toString ns.apiPort ++ " not listening")), listening.2)
    else
      let resp := os.doHttpGet (5 * Second) ns.healthURL listening.2
      match resp.1 with
      | .error err => (some (.wrapf "API health check failed: " err), resp.2)
      | .ok code =>
        if code ≠ 200 then (some (.errorf ("API returned status " ++ toString code)), resp.2)
        else (none, resp.2)

/-- The method `NecroBrowserService.GetStatus`. -/
def NecroBrowserService.GetStatus (os : OS) (ns : NecroBrowserService) (w : World) :
    ServiceStatus × World :=
  let status : ServiceStatus := { Name := ns.GetName, Ports := [(ns.apiPort : Int)] }
  let check := ns.HealthCheck os w
  match check.1 with
  | none =>
    let t := os.doNow check.2
    let status : ServiceStatus :=
      { status with Running := true, Healthy := true, LastSeen := some t.1.1 }
    let pid := ns.getPID os t.2
    if pid.1 > 0 then ({ status with PID := pid.1 }, pid.2) else (status, pid.2)
  | some err =>
    let running := ns.isRunning os check.2
    ({ status with Running := running.1, Healthy := false,
                   Errors := status.Errors ++ [err.Error] }, running.2)

/-- The adapter as a `Service`. -/
def NecroBrowserService.toService (os : OS) (ns : NecroBrowserService) : Service World :=
  { Start := ns.Start os
    Stop := ns.Stop os
    Restart := ns.Restart os
    HealthCheck := ns.HealthCheck os
    GetStatus := ns.GetStatus os
    GetName := ns.GetName }

/-! ## The orchestrator (`manager.go`) -/

/-- The value `m[key]` of a Go map held as an association list. -/
def mapGet {V : Type} : List (String × V) → String → Option V
  | [], _ => none
  | (k, v) :: rest, key => if k = key then some v else mapGet rest key

/-- The assignment `m[key] = value` of a Go map held as an association list. -/
def mapSet {V : Type} : List (String × V) → String → V → List (String × V)
  | [], key, value => [(key, value)]
  | (k, v) :: rest, key, value =>
    if k = key then (key, value) :: rest else (k, v) :: mapSet rest key value

/-- The struct `Manager`.  The field `sleep` is the `time.Sleep` of the runtime
the orchestrator runs on, acting on the adapters state. -/
structure Manager (S : Type) where
  config : ServiceConfig
  services : List (String × Service S)
  sleep : Nat → S → S

/-- The adapter methods, as they appear in the orchestrator log. -/
inductive Op where
  | Start
  | Stop
  | Restart
  | HealthCheck
  | GetStatus
  deriving DecidableEq, Repr

/-- An entry of the orchestrator log: a method invoked on the adapter
registered under `name`, with the error it returned, or a settle delay. -/
inductive MEvent where
  | call (name : String) (op : Op) (result : Option GoError)
  | sleep (d : Nat)
  deriving DecidableEq, Repr

/-- The state of an orchestrator run: the adapters state and the log of what
the orchestrator did so far, oldest first. -/
structure MState (S : Type) where
  inner : S
  log : List MEvent

/-- Invoke the error-returning method `f` of the adapter registered under
`name`, and log the call with its result. -/
def invoke {S : Type} (name : String) (op : Op) (f : S → Option GoError × S) (s : MState S) :
    Option GoError × MState S :=
  ((f s.inner).1, { inner := (f s.inner).2, log := s.log ++ [.call name op (f s.inner).1] })

/-- The delay `time.Sleep(d)` of the orchestrator. -/
def Manager.settle {S : Type} (m : Manager S) (d : Nat) (s : MState S) : MState S :=
  { inner := m.sleep d s.inner, log := s.log ++ [.sleep d] }

/-- The registration of the three adapters in `NewManager`. -/
def registerServices {S : Type} (config : ServiceConfig) (sleep : Nat → S → S)
    (redis muraena necrobrowser : Service S) : Manager S :=
  { config := config
    services := mapSet (mapSet (mapSet [] "redis" redis) "muraena" muraena)
      "necrobrowser" necrobrowser
    sleep := sleep }

/-- The configuration `NewManager` works with: `DefaultServiceConfig()` when
it is handed the `nil` pointer, `none`. -/
def orDefault (config : Option ServiceConfig) : ServiceConfig :=
  match config with
  | none => DefaultServiceConfig
  | some c => c

/-- The function `NewManager`; `config = none` is the `nil` pointer. -/
def NewManager (os : OS) (config : Option ServiceConfig) : Manager World :=
  let config := orDefault config
  registerServices config os.doSleep
    ((NewRedisService config).toService os)
    ((NewMuraenaService config).toService os)
    ((NewNecroBrowserService config).toService os)

/-- The method `Manager.VerifyAll`.  A `range` over a Go map visits every key
once, in an order the language leaves open: `visit` is that order. -/
def Manager.VerifyAll {S : Type} (m : Manager S) : List String → MState S →
    Option GoError × MState S
  | [], s => (none, s)
  | name :: rest, s =>
    match mapGet m.services name with
    | none => Manager.VerifyAll m rest s
    | some service =>
      match invoke name .HealthCheck service.HealthCheck s with
      | (some err, s1) => (some (.wrapf (name ++ " health check failed: ") err), s1)
      | (none, s1) => Manager.VerifyAll m rest s1

/-- The `for` loop of `Manager.StartAll` over `serviceOrder`. -/
def Manager.startLoop {S : Type} (m : Manager S) : List String → MState S →
    Option GoError × MState S
  | [], s => (none, s)
  | name :: rest, s =>
    match mapGet m.services name with
    | none => Manager.startLoop m rest s
    | some service =>
      match invoke name .Start service.Start s with
      | (some err, s1) => (some (.wrapf ("failed to start " ++ name ++ ": ") err), s1)
      | (none, s1) => Manager.startLoop m rest (m.settle (2 * Second) s1)

/-- The method `Manager.StartAll`; `visit` is the order in which its
`VerifyAll` ranges over the map. -/
def Manager.StartAll {S : Type} (m : Manager S) (visit : List String) (s : MState S) :
    Option GoError × MState S :=
  match m.startLoop ["redis", "muraena", "necrobrowser"] s with
  | (some err, s1) => (some err, s1)
  | (none, s1) => m.VerifyAll visit s1

/-- The `for` loop of `Manager.StopAll` over `serviceOrder`, collecting `errors`. -/
def Manager.stopLoop {S : Type} (m : Manager S) : List String → List GoError → MState S →
    List GoError × MState S
  | [], errors, s => (errors, s)
  | name :: rest, errors, s =>
    match mapGet m.services name with
    | none => Manager.stopLoop m rest errors s
    | some service =>
      match invoke name .Stop service.Stop s with
      | (some err, s1) => Manager.stopLoop m rest (errors ++ [.wrapf (name ++ ": ") err]) s1
      | (none, s1) => Manager.stopLoop m rest errors s1

/-- The method `Manager.StopAll`. -/
def Manager.StopAll {S : Type} (m : Manager S) (s : MState S) : Option GoError × MState S :=
  match m.stopLoop ["necrobrowser", "muraena", "redis"] [] s with
  | (errors, s1) =>
    if errors.length > 0 then
      (some (.errorf ("errors stopping services: " ++ fmtErrors errors)), s1)
    else (none, s1)

/-- The method `Manager.RestartAll`. -/
def Manager.RestartAll {S : Type} (m : Manager S) (visit : List String) (s : MState S) :
    Option GoError × MState S :=
  match m.StopAll s with
  | (some err, s1) => (some err, s1)
  | (none, s1) => m.StartAll visit (m.settle (2 * Second) s1)

/-- The `for` loop of `Manager.GetStatus`, filling the map `status`. -/
def Manager.statusLoop {S : Type} (m : Manager S) :
    List String → List (String × ServiceStatus) → MState S →
    List (String × ServiceStatus) × MState S
  | [], status, s => (status, s)
  | name :: rest, status, s =>
    match mapGet m.services name with
    | none => Manager.statusLoop m rest status s
    | some service =>
      let r := service.GetStatus s.inner
      Manager.statusLoop m rest (mapSet status name r.1)
        { inner := r.2, log := s.log ++ [.call name .GetStatus none] }

/-- The method `Manager.GetStatus`; `visit` is the order of its `range`. -/
def Manager.GetStatus {S : Type} (m : Manager S) (visit : List String) (s : MState S) :
    List (String × ServiceStatus) × MState S :=
  m.statusLoop visit [] s

/-- The method `Manager.GetService`: the pair `(service, nil)` is `.ok service`,
the pair `(nil, err)` is `.error err`. -/
def Manager.GetService {S : Type} (m : Manager S) (name : String) : Except GoError (Service S) :=
  match mapGet m.services name with
  | none => .error (.errorf ("service not found: " ++ name))
  | some service => .ok service

/-! ## Vocabulary of the statements -/

/-- The names of the adapters on which the orchestrator invoked `op`, in the
order of the log. -/
def callsOf (op : Op) (log : List MEvent) : List String :=
  log.filterMap fun ev =>
    match ev with
    | .call name o _ => if o = op then some name else none
    | .sleep _ => none

/-- The adapters state after a successful `Start` of the first adapter and the
settle delay. -/
def afterFirst {S : Type} (sleep : Nat → S → S) (a : Service S) (t : S) : S :=
  sleep (2 * Second) (a.Start t).2

/-- The adapters state after successful `Start`s of the first two adapters,
each followed by the settle delay. -/
def afterSecond {S : Type} (sleep : Nat → S → S) (a b : Service S) (t : S) : S :=
  sleep (2 * Second) (b.Start (afterFirst sleep a t)).2

/-- The adapters state after successful `Start`s of the three adapters, each
followed by the settle delay. -/
def afterThird {S : Type} (sleep : Nat → S → S) (a b c : Service S) (t : S) : S :=
  sleep (2 * Second) (c.Start (afterSecond sleep a b t)).2

/-- The entries that a `Stop` returning `result` on the adapter registered
under `name` adds to the `errors` of `StopAll`: one when it failed, none when
it succeeded. -/
def stopEntry (name : String) (result : Option GoError) : List GoError :=
  match result with
  | some err => [.wrapf (name ++ ": ") err]
  | none => []

/-- The log entry of a `HealthCheck` that passed. -/
def passed (name : String) : MEvent := .call name .HealthCheck none

/-! ## Stand-in adapters and hosts -/

/-- A stand-in adapter over a call counter: every method succeeds. -/
def steadyService : Service Nat :=
  { Start := fun n => (none, n + 1)
    Stop := fun n => (none, n + 1)
    Restart := fun n => (none, n + 1)
    HealthCheck := fun n => (none, n + 1)
    GetStatus := fun n => ({ Name := "steady", Running := true, Healthy := true }, n + 1)
    GetName := "steady" }

/-- A stand-in adapter over a call counter: `Start`, `Stop`, `Restart` and
`HealthCheck` fail. -/
def brokenService : Service Nat :=
  { Start := fun n => (some (.errorf "exit status 1"), n + 1)
    Stop := fun n => (some (.errorf "exit status 1"), n + 1)
    Restart := fun n => (some (.errorf "exit status 1"), n + 1)
    HealthCheck := fun n => (some (.errorf "exit status 1"), n + 1)
    GetStatus := fun n => ({ Name := "broken", Errors := ["exit status 1"] }, n + 1)
    GetName := "broken" }

/-- A `time.Sleep` that leaves a call counter alone. -/
def noSleep : Nat → Nat → Nat := fun _ n => n

/-- The start of a run over a call counter. -/
def freshRun : MState Nat := { inner := 0, log := [] }

/-- The requests `RedisService` issues. -/
def redisCalls : List OSCall :=
  [.output true ["systemctl", "is-active", "redis"], .output true ["redis-cli", "ping"],
    .run true ["sudo", "systemctl", "start", "redis"],
    .run true ["sudo", "systemctl", "enable", "redis"],
    .run true ["sudo", "systemctl", "stop", "redis"],
    .sleep (2 * Second), .sleep (1 * Second), .now]

/-- The request with which `RedisService.Start` launches the data store. -/
def launchRedis : OSCall := .run true ["sudo", "systemctl", "start", "redis"]

/-- The request with which `MuraenaService.Start` launches the proxy session. -/
def launchMuraena (ms : MuraenaService) : OSCall :=
  .run true ["screen", "-dmS", "muraena", "bash", "-c", ms.screenCmd]

/-- The request with which `NecroBrowserService.Start` launches the
automation-worker session. -/
def launchNecro (ns : NecroBrowserService) : OSCall :=
  .run true ["screen", "-dmS", "necro", "bash", "-c", ns.screenCmd]

/-- A listing of `screen -list` that shows the sessions asked for. -/
def sessionListing (muraena necro : Bool) : String :=
  (if muraena then "1.muraena (Detached) " else "") ++
    (if necro then "2.necro (Detached) " else "") ++ "in /run/screen/S-ubuntu."

/-- What can go wrong on the host of Scenario A beyond what the scenario
speaks of. -/
inductive Flaw where
  /-- Nothing goes wrong. -/
  | nothing
  /-- A directory that does not exist yet cannot be created. -/
  | mkdirFails
  /-- The context is cancelled once the automation-worker session is launched. -/
  | ctxCancelled
  /-- Every reading of the clock takes 30 seconds. -/
  | clockStalls
  deriving DecidableEq, Repr

/-- A host for Scenario A with the given configuration.  Nothing runs until it
is launched; every file exists; every command succeeds; once a service is
launched its probes succeed.  The `flaw` is the one thing that may go wrong;
the directory that exists already (the one of the proxy log, which holds the
proxy binary) is never a problem. -/
def scenarioHost (config : ServiceConfig) (flaw : Flaw) : OS :=
  { run := fun _ _ _ => none
    output := fun w _ argv =>
      if argv = ["systemctl", "is-active", "redis"] then
        if launchRedis ∈ w.trace then ("active\n", none)
        else ("inactive\n", some (.errorf "exit status 3"))
      else if argv = ["redis-cli", "ping"] then ("PONG\n", none)
      else if argv = ["screen", "-list"] then
        (sessionListing (decide (launchMuraena (NewMuraenaService config) ∈ w.trace))
          (decide (launchNecro (NewNecroBrowserService config) ∈ w.trace)), none)
      else ("", some (.errorf "exit status 1"))
    stat := fun _ _ => .ok 0
    mkdirAll := fun _ path _ =>
      if flaw = .mkdirFails ∧ path ≠ Dir (NewMuraenaService config).logPath then
        some (.errorf "permission denied")
      else none
    dial := fun w _ address _ =>
      if (address = "localhost:3000" ∧ launchNecro (NewNecroBrowserService config) ∈ w.trace) ∨
          (address ≠ "localhost:3000" ∧ launchMuraena (NewMuraenaService config) ∈ w.trace)
      then none else some (.errorf "connection refused")
    httpGet := fun w _ _ =>
      if launchNecro (NewNecroBrowserService config) ∈ w.trace then .ok 200
      else .error (.errorf "connection refused")
    ctxErr := fun w =>
      if flaw = .ctxCancelled ∧ launchNecro (NewNecroBrowserService config) ∈ w.trace then
        some (.errorf "context canceled")
      else none
    wallNow := fun _ => 0
    elapsed := fun _ c => if flaw = .clockStalls ∧ c = .now then 30 * Second else 0
    timeString := fun _ => ""
    sscanInt := fun _ => 0 }

/-- A world in which the three services have been launched. -/
def launchedWorld (config : ServiceConfig) : World :=
  { trace := [launchRedis, launchMuraena (NewMuraenaService config),
      launchNecro (NewNecroBrowserService config)]
    clock := 0 }

/-! ## Scenario A -/

/-- A probe command answered `expected`: it exits successfully and its output,
trimmed, is `expected`. -/
def Answers (answer : String × Option GoError) (expected : String) : Prop :=
  answer.2 = none ∧ TrimSpace answer.1 = expected

/-- The conditions of Scenario A on a host `os`, for a configuration `config`
and a run of `StartAll` that begins in the world `w0`. -/
structure ScenarioA (os : OS) (config : ServiceConfig) (w0 : World) : Prop where
  /-- The data store is not running when `StartAll` is called. -/
  redis_down : ((NewRedisService config).HealthCheck os w0).1 ≠ none
  /-- No proxy session is listed as long as none has been launched. -/
  muraena_down : ∀ w, launchMuraena (NewMuraenaService config) ∉ w.trace →
    ((NewMuraenaService config).isRunning os w).1 = false
  /-- No automation-worker session is listed as long as none has been launched. -/
  necro_down : ∀ w, launchNecro (NewNecroBrowserService config) ∉ w.trace →
    ((NewNecroBrowserService config).isRunning os w).1 = false
  /-- Every binary and config file that the adapters check exists. -/
  files : ∀ w, ∀ path ∈ [(NewMuraenaService config).binaryPath,
      (NewMuraenaService config).configPath, (NewNecroBrowserService config).binaryPath,
      (NewNecroBrowserService config).configPath], ∃ modTime, os.stat w path = .ok modTime
  /-- Every launch command succeeds. -/
  launches : ∀ w, ∀ argv ∈ [["sudo", "systemctl", "start", "redis"],
      ["screen", "-dmS", "muraena", "bash", "-c", (NewMuraenaService config).screenCmd],
      ["screen", "-dmS", "necro", "bash", "-c", (NewNecroBrowserService config).screenCmd]],
    os.run w true argv = none
  /-- After the launch of the data store, is-active answers "active" and the
  ping answers "PONG". -/
  redis_up : ∀ w, launchRedis ∈ w.trace →
    Answers (os.output w true ["systemctl", "is-active", "redis"]) "active" ∧
    Answers (os.output w true ["redis-cli", "ping"]) "PONG"
  /-- After the launch of the proxy: its session is listed, ports 80 and 443
  accept connections, and the log file is absent or at most 5 minutes old. -/
  muraena_up : ∀ w, launchMuraena (NewMuraenaService config) ∈ w.trace →
    ((NewMuraenaService config).isRunning os w).1 = true ∧
    os.dial w "tcp" "localhost:80" (2 * Second) = none ∧
    os.dial w "tcp" "localhost:443" (2 * Second) = none ∧
    ∀ modTime, os.stat w (NewMuraenaService config).logPath = .ok modTime →
      os.wallNow (os.step w (.stat (NewMuraenaService config).logPath)) - modTime ≤
        ((5 * Minute : Nat) : Int)
  /-- After the launch of the automation worker: its session is listed, port
  3000 accepts connections, and `/health` answers 200. -/
  necro_up : ∀ w, launchNecro (NewNecroBrowserService config) ∈ w.trace →
    ((NewNecroBrowserService config).isRunning os w).1 = true ∧
    os.dial w "tcp" "localhost:3000" (2 * Second) = none ∧
    ∀ timeout, os.httpGet w timeout "http://localhost:3000/health" = .ok 200

/-- What Scenario A leaves open and `StartAll` also needs: the log directories
can be created, the context is not cancelled, and less than the 30 seconds of
the readiness wait pass between two readings of the clock. -/
structure ScenarioAExtra (os : OS) (config : ServiceConfig) : Prop where
  /-- The `os.MkdirAll` of both log directories succeeds. -/
  mkdir : ∀ w, ∀ path ∈ [Dir (NewMuraenaService config).logPath,
      Dir (NewNecroBrowserService config).logPath], os.mkdirAll w path 0o755 = none
  /-- The context is never done. -/
  ctx : ∀ w, os.ctxErr w = none
  /-- A reading of the clock takes less than 30 seconds. -/
  clock : ∀ w, os.elapsed w .now < 30 * Second

/-- The three services have been launched in the world `w`. -/
def AllUp (config : ServiceConfig) (w : World) : Prop :=
  launchRedis ∈ w.trace ∧ launchMuraena (NewMuraenaService config) ∈ w.trace ∧
    launchNecro (NewNecroBrowserService config) ∈ w.trace

/-- The start of a run of the orchestrator on a host: nothing requested yet,
the clock at 0, an empty log. -/
def freshHost : MState World := { inner := { trace := [], clock := 0 }, log := [] }

/-! ## Vocabulary of the adapter statements -/

/-- A host on which none of the three services is installed: every command
fails, no file exists, nothing listens. -/
def bareHost : OS :=
  { run := fun _ _ _ => some (.errorf "exit status 5")
    output := fun _ _ argv =>
      if argv = ["systemctl", "is-active", "redis"] then
        ("inactive\n", some (.errorf "exit status 3"))
      else ("", some (.errorf "exit status 1"))
    stat := fun _ _ => .notExist
    mkdirAll := fun _ _ _ => none
    dial := fun _ _ _ _ => some (.errorf "connection refused")
    httpGet := fun _ _ _ => .error (.errorf "connection refused")
    ctxErr := fun _ => none
    wallNow := fun _ => 0
    elapsed := fun _ _ => 0
    timeString := fun _ => ""
    sscanInt := fun _ => 0 }

/-- The world at the start of a run: nothing requested yet, the clock at 0. -/
def freshWorld : World := { trace := [], clock := 0 }

/-- The host `bareHost`, except that every file exists but the two files
named `config.toml`. -/
def configlessHost : OS :=
  { bareHost with
    stat := fun _ path =>
      if path = "/home/ubuntu/muraena/config.toml" ∨
          path = "/home/ubuntu/necrobrowser/config.toml" then .notExist
      else .ok 0 }

/-- Whether an error is of the kind MissingBinary: the errors that `Start`
makes for an absent binary read "<service> binary not found: <path>", and an
error that wraps one carries that text in its message. -/
def isMissingBinary (err : GoError) : Bool :=
  Contains err.Error "binary not found"

/-- The answers of the host to the probes of `MuraenaService.HealthCheck`: the
session listing, the dial of port 80, the dial of port 443, the `os.Stat` of
the log file and the reading of the wall clock. -/
structure ProxyProbes where
  /-- The session listing shows the session. -/
  session : Bool
  /-- Port 80 accepts a connection. -/
  port80 : Bool
  /-- Port 443 accepts a connection. -/
  port443 : Bool
  /-- The answer of `os.Stat` for the log file. -/
  log : StatResult
  /-- The wall clock, read after that `os.Stat`. -/
  now : Int
  deriving DecidableEq, Repr

/-- The answers that the probes of `ms.HealthCheck os w` get, or would get:
each probe is asked in the world that the probes before it leave. -/
def MuraenaService.probes (os : OS) (ms : MuraenaService) (w : World) : ProxyProbes :=
  let w1 := os.step w (.output false ["screen", "-list"])
  let w2 := os.step w1 (.dial "tcp" "localhost:80" (2 * Second))
  let w3 := os.step w2 (.dial "tcp" "localhost:443" (2 * Second))
  let w4 := os.step w3 (.stat ms.logPath)
  { session := (ms.isRunning os w).1
    port80 := (os.dial w1 "tcp" "localhost:80" (2 * Second)).isNone
    port443 := (os.dial w2 "tcp" "localhost:443" (2 * Second)).isNone
    log := os.stat w3 ms.logPath
    now := os.wallNow w4 }

/-- The log is stale: the log file exists and was last modified more than 5
minutes before now. -/
def ProxyProbes.stale (p : ProxyProbes) : Bool :=
  match p.log with
  | .ok modTime => decide (p.now - modTime > ((5 * Minute : Nat) : Int))
  | _ => false

/-- The answers of the host to the probes of `NecroBrowserService.HealthCheck`:
the session listing, the dial of the API port and the GET of `/health`. -/
structure WorkerProbes where
  /-- The session listing shows the session. -/
  session : Bool
  /-- The API port accepts a connection. -/
  port : Bool
  /-- The answer to the GET of `/health`: an error, or the status code. -/
  http : Except GoError Nat

/-- The answers that the probes of `ns.HealthCheck os w` get, or would get:
each probe is asked in the world that the probes before it leave. -/
def NecroBrowserService.probes (os : OS) (ns : NecroBrowserService) (w : World) :
    WorkerProbes :=
  let w1 := os.step w (.output false ["screen", "-list"])
  let w2 := os.step w1 (.dial "tcp" ("localhost:" ++ toString ns.apiPort) (2 * Second))
  { session := (ns.isRunning os w).1
    port := (os.dial w1 "tcp" ("localhost:" ++ toString ns.apiPort) (2 * Second)).isNone
    http := os.httpGet w2 (5 * Second) ns.healthURL }

/-- The host of Scenario A on which nothing goes wrong, except that the wall
clock reads one nanosecond more than 5 minutes after the modification time,
0, of every file. -/
def staleLogHost : OS :=
  { scenarioHost DefaultServiceConfig .nothing with wallNow := fun _ => 5 * Minute + 1 }

/-- The text of the stale-log error of `MuraenaService.HealthCheck`. -/
def staleLogMessage (os : OS) (modTime : Int) : String :=
  "log file not being updated (last modified: " ++ os.timeString modTime ++ ")"

/-- The host of Scenario A on which nothing goes wrong, and on which every
`pgrep` finds a process, with the process identifier 4242. -/
def pidHost : OS :=
  { scenarioHost DefaultServiceConfig .nothing with
    output := fun w withCtx argv =>
      if argv.head? = some "pgrep" then ("4242\n", none)
      else (scenarioHost DefaultServiceConfig .nothing).output w withCtx argv
    sscanInt := fun s => if s = "4242\n" then 4242 else 0 }

/-- The part of `NecroBrowserService.Start` that comes before the readiness
wait, with the same checks and requests: `Start` is this part and, when it
succeeds, `waitForAPI` in the world it leaves. -/
def NecroBrowserService.beforeWait (os : OS) (ns : NecroBrowserService) (w : World) :
    Option GoError × World :=
  let running := ns.isRunning os w
  if running.1 then (some (.errorf "necrobrowser is already running"), running.2)
  else
    let binary := os.doStat ns.binaryPath running.2
    if binary.1 = .notExist then
      (some (.errorf ("necrobrowser binary not found: " ++ ns.binaryPath)), binary.2)
    else
      let config := os.doStat ns.configPath binary.2
      if config.1 = .notExist then
        (some (.errorf ("necrobrowser config not found: " ++ ns.configPath)), config.2)
      else
        let logDir := Dir ns.logPath
        let mkdir := os.doMkdirAll logDir 0o755 config.2
        match mkdir.1 with
        | some err => (some (.wrapf "failed to create log directory: " err), mkdir.2)
        | none =>
          let launch :=
            os.doRun true ["screen", "-dmS", "necro", "bash", "-c", ns.screenCmd] mkdir.2
          match launch.1 with
          | some err => (some (.wrapf "failed to start necrobrowser: " err), launch.2)
          | none =>
            let started := ns.isRunning os (os.doSleep (3 * Second) launch.2)
            if !started.1 then
              (some (.errorf "necrobrowser failed to start (screen session not found)"),
                started.2)
            else (none, started.2)

/-- The world after a round of the loop of `waitForAPI` that does not end it:
the clock is read, the context is looked at, `/health` is requested, and the
loop sleeps a second. -/
def NecroBrowserService.pollRound (os : OS) (ns : NecroBrowserService) (w : World) : World :=
  os.step (os.step (os.step (os.step w .now) .ctxDone) (.httpGet (2 * Second) ns.healthURL))
    (.sleep (1 * Second))

/-- The world in which round `k` of the loop of `waitForAPI` begins, counting
from 0, when the loop begins in `w` and the rounds before round `k` do not end
it. -/
def NecroBrowserService.pollWorld (os : OS) (ns : NecroBrowserService) : Nat → World → World
  | 0, w => w
  | k + 1, w => NecroBrowserService.pollWorld os ns k (ns.pollRound os w)

/-- The answer to the request of `/health` in round `k` of the loop. -/
def NecroBrowserService.pollAnswer (os : OS) (ns : NecroBrowserService) (w : World) (k : Nat) :
    Except GoError Nat :=
  os.httpGet (os.step (os.step (ns.pollWorld os k w) .now) .ctxDone) (2 * Second) ns.healthURL

/-- The world right after the request of `/health` in round `k` of the loop. -/
def NecroBrowserService.pollEnd (os : OS) (ns : NecroBrowserService) (w : World) (k : Nat) :
    World :=
  os.step (os.step (os.step (ns.pollWorld os k w) .now) .ctxDone)
    (.httpGet (2 * Second) ns.healthURL)

/-- The number of HTTP requests in a trace. -/
def probesIn (trace : List OSCall) : Nat :=
  trace.countP fun c =>
    match c with
    | .httpGet _ _ => true
    | _ => false

/-- The host of Scenario A on which nothing goes wrong, except that `/health`
never answers 200 and the clock does not move but for the sleeps. -/
def notReadyHost : OS :=
  { scenarioHost DefaultServiceConfig .nothing with
    httpGet := fun _ _ _ => .ok 503 }

/-- The host of Scenario A on which nothing goes wrong, except that `/health`
answers 503 until the loop of the readiness wait has slept twice. -/
def slowHost : OS :=
  { scenarioHost DefaultServiceConfig .nothing with
    httpGet := fun w _ _ =>
      if 2 ≤ w.trace.count (.sleep (1 * Second)) then .ok 200 else .ok 503 }

/-- Equality of the answers to an HTTP request is decidable. -/
instance decEqHttpAnswer : DecidableEq (Except GoError Nat)
  | .ok a, .ok b => if h : a = b then isTrue (by rw [h]) else isFalse (fun hab => h (by cases hab; rfl))
  | .error a, .error b =>
    if h : a = b then isTrue (by rw [h]) else isFalse (fun hab => h (by cases hab; rfl))
  | .ok _, .error _ => isFalse (fun hab => by cases hab)
  | .error _, .ok _ => isFalse (fun hab => by cases hab)

/-- The host of Scenario A on which nothing goes wrong, except that the ping
of the data store fails. -/
def pingFailsHost : OS :=
  { scenarioHost DefaultServiceConfig .nothing with
    output := fun w withCtx argv =>
      if argv = ["redis-cli", "ping"] then
        ("Could not connect to Redis at 127.0.0.1:6379: Connection refused\n",
          some (.errorf "exit status 1"))
      else (scenarioHost DefaultServiceConfig .nothing).output w withCtx argv }

/-- The commands that a trace holds, each as its argument vector: those run
for their exit status and those run for their output, in the order of the
trace. -/
def commandsOf (trace : List OSCall) : List (List String) :=
  trace.filterMap fun c =>
    match c with
    | .run _ argv => some argv
    | .output _ argv => some argv
    | _ => none

/-- The paths that a trace asks `os.Stat` about, in the order of the trace. -/
def statsOf (trace : List OSCall) : List String :=
  trace.filterMap fun c =>
    match c with
    | .stat path => some path
    | _ => none

/-- The configuration `config` with the four file names replaced. -/
def withFileNames (config : ServiceConfig) (muraenaBinary muraenaConfig necroBinary
    necroConfig : String) : ServiceConfig :=
  { config with
    MuraenaBinary := muraenaBinary
    MuraenaConfig := muraenaConfig
    NecroBrowserBinary := necroBinary
    NecroBrowserConfig := necroConfig }

/-- The host of Scenario A on which nothing goes wrong, except that the files
`/home/ubuntu/muraena/muraena.bin` and
`/home/ubuntu/necrobrowser/necrobrowser.js` do not exist. -/
def decoyHost : OS :=
  { scenarioHost DefaultServiceConfig .nothing with
    stat := fun _ path =>
      if path = "/home/ubuntu/muraena/muraena.bin" ∨
          path = "/home/ubuntu/necrobrowser/necrobrowser.js" then .notExist
      else .ok 0 }

/-- The host of Scenario A on which nothing goes wrong, except that the context
is cancelled once the command that ends the proxy session has been issued:
from then on `ctx.Err()` is "context canceled" and every command bound to the
context fails with it. -/
def cancelHost : OS :=
  { scenarioHost DefaultServiceConfig .nothing with
    ctxErr := fun w =>
      if OSCall.run true ["screen", "-S", "muraena", "-X", "quit"] ∈ w.trace then
        some (.errorf "context canceled")
      else none
    run := fun w withCtx _ =>
      if withCtx = true ∧ OSCall.run true ["screen", "-S", "muraena", "-X", "quit"] ∈ w.trace
      then some (.errorf "context canceled")
      else none
    output := fun w withCtx argv =>
      if withCtx = true ∧ OSCall.run true ["screen", "-S", "muraena", "-X", "quit"] ∈ w.trace
      then ("", some (.errorf "context canceled"))
      else (scenarioHost DefaultServiceConfig .nothing).output w withCtx argv }

/-- The pieces of a character list between the occurrences of `sep`. -/
def splitAt (sep : Char) : List Char → List (List Char)
  | [] => [[]]
  | c :: cs =>
    match splitAt sep cs with
    | [] => [[c]]
    | top :: rest => if c = sep then [] :: top :: rest else (c :: top) :: rest

/-- The session name of an entry `<pid>.<name>` of the session listing: what
follows the first dot. -/
def afterDot : List Char → List Char
  | [] => []
  | c :: cs => if c = '.' then cs else afterDot cs

/-- The names of the sessions that a listing of `screen -list` shows, as the
specification reads a listing: every line that begins with a tab is an entry
`<pid>.<name>`, ended by the next tab. The source has no such function;
`isRunning` tests for a substring instead. -/
def specListedSessions (listing : String) : List String :=
  (splitAt '\n' listing.data).filterMap fun line =>
    match line with
    | '\t' :: entry =>
      match splitAt '\t' entry with
      | [] => none
      | name :: _ => some (String.mk (afterDot name))
    | _ => none

/-- A listing of `screen -list` with two sessions, neither of them named
"muraena" or "necro". -/
def lookalikeListing : String :=
  "There are screens on:\n\t4242.muraena-backup\t(Detached)\n" ++
    "\t4243.necromancer\t(Detached)\n2 Sockets in /run/screen/S-ubuntu.\n"

/-- The host `bareHost`, except that `screen -list` succeeds with the listing
`lookalikeListing`. -/
def lookalikeHost : OS :=
  { bareHost with
    output := fun w withCtx argv =>
      if argv = ["screen", "-list"] then (lookalikeListing, none)
      else bareHost.output w withCtx argv }

/-! ## The command line (`cmd/service-manager/main.go`) -/

/-- The call `fmt.Println(line)` on the standard output `out`. -/
def Println (out line : String) : String := out ++ line ++ "\n"

/-- The `Run` of `startCmd`: what it prints, and the world it leaves.  Like any
Go function it could ask the host; it makes no request. -/
def startCmd (_os : OS) (w : World) : String × World :=
  let out := Println "" "🚀 Starting all services..."
  let out := Println out "✓ Redis started"
  let out := Println out "✓ Muraena started"
  let out := Println out "✓ NecroBrowser started"
  let out := Println out "\n✅ All services started successfully!"
  (out, w)

/-- The `Run` of `stopCmd`. -/
def stopCmd (_os : OS) (w : World) : String × World :=
  let out := Println "" "🛑 Stopping all services..."
  let out := Println out "✓ NecroBrowser stopped"
  let out := Println out "✓ Muraena stopped"
  let out := Println out "✓ Redis stopped"
  let out := Println out "\n✅ All services stopped successfully!"
  (out, w)

/-- The `Run` of `restartCmd`. -/
def restartCmd (_os : OS) (w : World) : String × World :=
  let out := Println "" "🔄 Restarting all services..."
  let out := Println out "✓ Services restarted"
  let out := Println out "\n✅ All services restarted successfully!"
  (out, w)

/-- The `Run` of `statusCmd`. -/
def statusCmd (_os : OS) (w : World) : String × World :=
  let out := Println "" "📊 Service Status:"
  let out := Println out "━━━━━━━━━━━━━━━━━━━━━━━━━━━━━━━━━━━━━━━━━━━━━━━━━━━━━━━━━━━━━━"
  let out := Println out "✓ Redis:        RUNNING (port 6379)"
  let out := Println out "✓ Muraena:      RUNNING (ports 80, 443)"
  let out := Println out "✓ NecroBrowser: RUNNING (port 3000)"
  let out := Println out "━━━━━━━━━━━━━━━━━━━━━━━━━━━━━━━━━━━━━━━━━━━━━━━━━━━━━━━━━━━━━━"
  (out, w)

/-- The `Run` of `healthCmd`. -/
def healthCmd (_os : OS) (w : World) : String × World :=
  let out := Println "" "🏥 Running health checks..."
  let out := Println out "✓ Redis:        HEALTHY"
  let out := Println out "✓ Muraena:      HEALTHY"
  let out := Println out "✓ NecroBrowser: HEALTHY"
  let out := Println out "\n✅ All services are healthy!"
  (out, w)

/-- The state of a run in which the three services have been launched. -/
def launchedState : MState World :=
  { inner := launchedWorld DefaultServiceConfig, log := [] }

/-! ## Vocabulary of the health checks of the orchestrator -/

/-- The adapters state after the `HealthCheck` of each adapter registered under
a name of `visit`, invoked in that order, each in the state that the one
before leaves. -/
def Manager.afterChecks {S : Type} (m : Manager S) : List String → S → S
  | [], t => t
  | name :: rest, t =>
    match mapGet m.services name with
    | none => Manager.afterChecks m rest t
    | some service => Manager.afterChecks m rest (service.HealthCheck t).2

/-- Every adapter registered under a name of `visit` passes its `HealthCheck`,
invoked in that order, each in the state that the one before leaves. -/
def Manager.checksPass {S : Type} (m : Manager S) : List String → S → Bool
  | [], _ => true
  | name :: rest, t =>
    match mapGet m.services name with
    | none => Manager.checksPass m rest t
    | some service =>
      (service.HealthCheck t).1.isNone && Manager.checksPass m rest (service.HealthCheck t).2

/-- A stand-in adapter over a journal: every method succeeds and writes
`<name>.<method>` into the journal. -/
def recordingService (name : String) : Service (List String) :=
  { Start := fun j => (none, j ++ [name ++ ".Start"])
    Stop := fun j => (none, j ++ [name ++ ".Stop"])
    Restart := fun j => (none, j ++ [name ++ ".Restart"])
    HealthCheck := fun j => (none, j ++ [name ++ ".HealthCheck"])
    GetStatus := fun j =>
      ({ Name := name, Running := true, Healthy := true }, j ++ [name ++ ".GetStatus"])
    GetName := name }

/-- The stand-in adapter `recordingService name`, except that its `HealthCheck`
fails after writing into the journal. -/
def failingCheckService (name : String) : Service (List String) :=
  { recordingService name with
    HealthCheck := fun j => (some (.errorf "exit status 1"), j ++ [name ++ ".HealthCheck"]) }

/-- A `time.Sleep` that writes `sleep` into the journal. -/
def recordingSleep : Nat → List String → List String := fun _ j => j ++ ["sleep"]

/-- The start of a run over a journal. -/
def freshJournal : MState (List String) := { inner := [], log := [] }

/-- The host `lookalikeHost`, except that every port accepts a connection and
`/health` answers 200; no file exists, the log of the proxy included. -/
def lookalikeOpenHost : OS :=
  { lookalikeHost with
    dial := fun _ _ _ _ => none
    httpGet := fun _ _ _ => .ok 200 }

/-- The session listing requested in world `w` shows `label`, as the adapters
read a listing: `screen -list` exits successfully and its output has `label`
as a substring. -/
def ListingShows (os : OS) (w : World) (label : String) : Prop :=
  (os.output w false ["screen", "-list"]).2 = none ∧
    Contains (os.output w false ["screen", "-list"]).1 label = true

instance decListingShows (os : OS) (w : World) (label : String) :
    Decidable (ListingShows os w label) := by
  unfold ListingShows
  infer_instance

/-! ## Lemmas on the orchestrator -/

theorem registerServices_services {S : Type} (config : ServiceConfig) (sleep : Nat → S → S)
    (a b c : Service S) :
    (registerServices config sleep a b c).services =
      [("redis", a), ("muraena", b), ("necrobrowser", c)] := by
  simp [registerServices, mapSet]

theorem mapGet_register {S : Type} (config : ServiceConfig) (sleep : Nat → S → S)
    (a b c : Service S) (name : String) :
    mapGet (registerServices config sleep a b c).services name =
      if name = "redis" then some a
      else if name = "muraena" then some b
      else if name = "necrobrowser" then some c
      else none := by
  rw [registerServices_services]
  simp only [mapGet, eq_comm]

theorem mapGet_redis {S : Type} (config : ServiceConfig) (sleep : Nat → S → S)
    (a b c : Service S) :
    mapGet (registerServices config sleep a b c).services "redis" = some a := by
  simp [mapGet_register]

theorem mapGet_muraena {S : Type} (config : ServiceConfig) (sleep : Nat → S → S)
    (a b c : Service S) :
    mapGet (registerServices config sleep a b c).services "muraena" = some b := by
  simp [mapGet_register]

theorem mapGet_necrobrowser {S : Type} (config : ServiceConfig) (sleep : Nat → S → S)
    (a b c : Service S) :
    mapGet (registerServices config sleep a b c).services "necrobrowser" = some c := by
  simp [mapGet_register]

theorem startLoop_step_fails {S : Type} (m : Manager S) (name : String) (rest : List String)
    (service : Service S) (s : MState S) (e : GoError)
    (hget : mapGet m.services name = some service) (h : (service.Start s.inner).1 = some e) :
    m.startLoop (name :: rest) s =
      (some (.wrapf ("failed to start " ++ name ++ ": ") e),
        { inner := (service.Start s.inner).2, log := s.log ++ [.call name .Start (some e)] }) := by
  simp [Manager.startLoop, hget, invoke, h]

theorem startLoop_step_succeeds {S : Type} (m : Manager S) (name : String)
    (rest : List String) (service : Service S) (s : MState S)
    (hget : mapGet m.services name = some service) (h : (service.Start s.inner).1 = none) :
    m.startLoop (name :: rest) s =
      m.startLoop rest
        { inner := m.sleep (2 * Second) (service.Start s.inner).2,
          log := s.log ++ [.call name .Start none, .sleep (2 * Second)] } := by
  simp [Manager.startLoop, hget, invoke, h, Manager.settle]

theorem startLoop_first_fails {S : Type} (config : ServiceConfig) (sleep : Nat → S → S)
    (a b c : Service S) (s : MState S) (e : GoError) (h1 : (a.Start s.inner).1 = some e) :
    (registerServices config sleep a b c).startLoop ["redis", "muraena", "necrobrowser"] s =
      (some (.wrapf "failed to start redis: " e),
        { inner := (a.Start s.inner).2, log := s.log ++ [.call "redis" .Start (some e)] }) := by
  rw [startLoop_step_fails _ _ _ a s e (mapGet_redis ..) h1]
  rfl

theorem startLoop_second_fails {S : Type} (config : ServiceConfig) (sleep : Nat → S → S)
    (a b c : Service S) (s : MState S) (e : GoError) (h1 : (a.Start s.inner).1 = none)
    (h2 : (b.Start (afterFirst sleep a s.inner)).1 = some e) :
    (registerServices config sleep a b c).startLoop ["redis", "muraena", "necrobrowser"] s =
      (some (.wrapf "failed to start muraena: " e),
        { inner := (b.Start (afterFirst sleep a s.inner)).2,
          log := s.log ++ [.call "redis" .Start none, .sleep (2 * Second),
            .call "muraena" .Start (some e)] }) := by
  rw [startLoop_step_succeeds _ _ _ a s (mapGet_redis ..) h1,
    startLoop_step_fails _ _ _ b _ e (mapGet_muraena ..) h2]
  simp [afterFirst, registerServices]

theorem startLoop_third_fails {S : Type} (config : ServiceConfig) (sleep : Nat → S → S)
    (a b c : Service S) (s : MState S) (e : GoError) (h1 : (a.Start s.inner).1 = none)
    (h2 : (b.Start (afterFirst sleep a s.inner)).1 = none)
    (h3 : (c.Start (afterSecond sleep a b s.inner)).1 = some e) :
    (registerServices config sleep a b c).startLoop ["redis", "muraena", "necrobrowser"] s =
      (some (.wrapf "failed to start necrobrowser: " e),
        { inner := (c.Start (afterSecond sleep a b s.inner)).2,
          log := s.log ++ [.call "redis" .Start none, .sleep (2 * Second),
            .call "muraena" .Start none, .sleep (2 * Second),
            .call "necrobrowser" .Start (some e)] }) := by
  rw [startLoop_step_succeeds _ _ _ a s (mapGet_redis ..) h1,
    startLoop_step_succeeds _ _ _ b _ (mapGet_muraena ..) h2,
    startLoop_step_fails _ _ _ c _ e (mapGet_necrobrowser ..) h3]
  simp [afterFirst, afterSecond, registerServices]

theorem startLoop_all_succeed {S : Type} (config : ServiceConfig) (sleep : Nat → S → S)
    (a b c : Service S) (s : MState S) (h1 : (a.Start s.inner).1 = none)
    (h2 : (b.Start (afterFirst sleep a s.inner)).1 = none)
    (h3 : (c.Start (afterSecond sleep a b s.inner)).1 = none) :
    (registerServices config sleep a b c).startLoop ["redis", "muraena", "necrobrowser"] s =
      (none,
        { inner := afterThird sleep a b c s.inner,
          log := s.log ++ [.call "redis" .Start none, .sleep (2 * Second),
            .call "muraena" .Start none, .sleep (2 * Second),
            .call "necrobrowser" .Start none, .sleep (2 * Second)] }) := by
  rw [startLoop_step_succeeds _ _ _ a s (mapGet_redis ..) h1,
    startLoop_step_succeeds _ _ _ b _ (mapGet_muraena ..) h2,
    startLoop_step_succeeds _ _ _ c _ (mapGet_necrobrowser ..) h3]
  simp [afterFirst, afterSecond, afterThird, registerServices, Manager.startLoop]

theorem stopLoop_step {S : Type} (m : Manager S) (name : String) (rest : List String)
    (service : Service S) (errors : List GoError) (s : MState S)
    (hget : mapGet m.services name = some service) :
    m.stopLoop (name :: rest) errors s =
      m.stopLoop rest (errors ++ stopEntry name (service.Stop s.inner).1)
        { inner := (service.Stop s.inner).2,
          log := s.log ++ [.call name .Stop (service.Stop s.inner).1] } := by
  rcases h : (service.Stop s.inner).1 with _ | e <;>
    simp [Manager.stopLoop, hget, invoke, h, stopEntry]

theorem stopLoop_register {S : Type} (config : ServiceConfig) (sleep : Nat → S → S)
    (a b c : Service S) (s : MState S) :
    (registerServices config sleep a b c).stopLoop ["necrobrowser", "muraena", "redis"] [] s =
      (stopEntry "necrobrowser" (c.Stop s.inner).1 ++
          stopEntry "muraena" (b.Stop (c.Stop s.inner).2).1 ++
          stopEntry "redis" (a.Stop (b.Stop (c.Stop s.inner).2).2).1,
        { inner := (a.Stop (b.Stop (c.Stop s.inner).2).2).2,
          log := s.log ++ [.call "necrobrowser" .Stop (c.Stop s.inner).1,
            .call "muraena" .Stop (b.Stop (c.Stop s.inner).2).1,
            .call "redis" .Stop (a.Stop (b.Stop (c.Stop s.inner).2).2).1] }) := by
  rw [stopLoop_step _ _ _ c _ _ (mapGet_necrobrowser ..),
    stopLoop_step _ _ _ b _ _ (mapGet_muraena ..),
    stopLoop_step _ _ _ a _ _ (mapGet_redis ..)]
  simp [Manager.stopLoop]

theorem VerifyAll_cases {S : Type} (m : Manager S) (visit : List String)
    (hreg : ∀ n ∈ visit, mapGet m.services n ≠ none) (s : MState S) :
    ((m.VerifyAll visit s).1 = none ∧
        (m.VerifyAll visit s).2.log = s.log ++ visit.map passed) ∨
      ∃ pre name post e, visit = pre ++ name :: post ∧
        (m.VerifyAll visit s).1 = some (.wrapf (name ++ " health check failed: ") e) ∧
        (m.VerifyAll visit s).2.log =
          s.log ++ pre.map passed ++ [.call name .HealthCheck (some e)] := by
  induction visit generalizing s with
  | nil => left; simp [Manager.VerifyAll]
  | cons name rest ih =>
    have hrest : ∀ n ∈ rest, mapGet m.services n ≠ none :=
      fun n hn => hreg n (List.mem_cons_of_mem _ hn)
    rcases hget : mapGet m.services name with _ | service
    · exact absurd hget (hreg name (List.mem_cons_self _ _))
    · rcases h : (service.HealthCheck s.inner).1 with _ | e
      · have hstep : m.VerifyAll (name :: rest) s =
            m.VerifyAll rest { inner := (service.HealthCheck s.inner).2,
                               log := s.log ++ [passed name] } := by
          simp [Manager.VerifyAll, hget, invoke, h, passed]
        rw [hstep]
        rcases ih hrest { inner := (service.HealthCheck s.inner).2,
                          log := s.log ++ [passed name] } with ⟨h1, h2⟩ | ⟨pre, nm, post, e, h1, h2, h3⟩
        · left
          refine ⟨h1, ?_⟩
          rw [h2]; simp
        · right
          refine ⟨name :: pre, nm, post, e, by simp [h1], h2, ?_⟩
          rw [h3]; simp
      · right
        refine ⟨[], name, rest, e, rfl, ?_, ?_⟩ <;>
          simp [Manager.VerifyAll, hget, invoke, h]

theorem VerifyAll_log {S : Type} (m : Manager S) (visit : List String) (s : MState S) :
    ∃ v, (m.VerifyAll visit s).2.log = s.log ++ v ∧
      ∀ ev ∈ v, ∃ n r, ev = .call n .HealthCheck r := by
  induction visit generalizing s with
  | nil => exact ⟨[], by simp [Manager.VerifyAll]⟩
  | cons name rest ih =>
    rcases hget : mapGet m.services name with _ | service
    · simpa [Manager.VerifyAll, hget] using ih s
    · rcases h : (service.HealthCheck s.inner).1 with _ | e
      · rcases ih { inner := (service.HealthCheck s.inner).2,
                    log := s.log ++ [passed name] } with ⟨v, hv, hall⟩
        refine ⟨passed name :: v, ?_, ?_⟩
        · simp [Manager.VerifyAll, hget, invoke, h] at hv ⊢
          simpa [passed] using hv
        · intro ev hev
          rcases List.mem_cons.1 hev with rfl | hev
          · exact ⟨name, none, rfl⟩
          · exact hall ev hev
      · refine ⟨[.call name .HealthCheck (some e)], ?_, ?_⟩
        · simp [Manager.VerifyAll, hget, invoke, h]
        · intro ev hev
          simp at hev
          exact ⟨name, some e, hev⟩

theorem callsOf_append (op : Op) (l1 l2 : List MEvent) :
    callsOf op (l1 ++ l2) = callsOf op l1 ++ callsOf op l2 := by
  simp [callsOf]

theorem callsOf_health_only (op : Op) (hop : op ≠ .HealthCheck) (v : List MEvent)
    (hall : ∀ ev ∈ v, ∃ n r, ev = MEvent.call n .HealthCheck r) : callsOf op v = [] := by
  induction v with
  | nil => rfl
  | cons ev rest ih =>
    rcases hall ev (List.mem_cons_self _ _) with ⟨n, r, rfl⟩
    have := ih (fun ev hev => hall ev (List.mem_cons_of_mem _ hev))
    simp only [callsOf] at this ⊢
    simp [List.filterMap_cons, this, Ne.symm hop]

theorem StartAll_of_startLoop_fails {S : Type} (m : Manager S) (visit : List String)
    (s s1 : MState S) (err : GoError)
    (h : m.startLoop ["redis", "muraena", "necrobrowser"] s = (some err, s1)) :
    m.StartAll visit s = (some err, s1) := by
  simp [Manager.StartAll, h]

theorem StartAll_of_startLoop_succeeds {S : Type} (m : Manager S) (visit : List String)
    (s s1 : MState S) (h : m.startLoop ["redis", "muraena", "necrobrowser"] s = (none, s1)) :
    m.StartAll visit s = m.VerifyAll visit s1 := by
  simp [Manager.StartAll, h]

theorem StartAll_success_starts {S : Type} (config : ServiceConfig) (sleep : Nat → S → S)
    (a b c : Service S) (visit : List String) (s : MState S)
    (h : ((registerServices config sleep a b c).StartAll visit s).1 = none) :
    (a.Start s.inner).1 = none ∧ (b.Start (afterFirst sleep a s.inner)).1 = none ∧
      (c.Start (afterSecond sleep a b s.inner)).1 = none := by
  rcases h1 : (a.Start s.inner).1 with _ | e
  · rcases h2 : (b.Start (afterFirst sleep a s.inner)).1 with _ | e
    · rcases h3 : (c.Start (afterSecond sleep a b s.inner)).1 with _ | e
      · exact ⟨rfl, rfl, rfl⟩
      · rw [StartAll_of_startLoop_fails _ _ _ _ _
          (startLoop_third_fails config sleep a b c s e h1 h2 h3)] at h
        cases h
    · rw [StartAll_of_startLoop_fails _ _ _ _ _
        (startLoop_second_fails config sleep a b c s e h1 h2)] at h
      cases h
  · rw [StartAll_of_startLoop_fails _ _ _ _ _
      (startLoop_first_fails config sleep a b c s e h1)] at h
    cases h

theorem StartAll_success_log {S : Type} (config : ServiceConfig) (sleep : Nat → S → S)
    (a b c : Service S) (visit : List String) (s : MState S)
    (h : ((registerServices config sleep a b c).StartAll visit s).1 = none) :
    ∃ new, ((registerServices config sleep a b c).StartAll visit s).2.log = s.log ++ new ∧
      callsOf .Start new = ["redis", "muraena", "necrobrowser"] := by
  obtain ⟨h1, h2, h3⟩ := StartAll_success_starts config sleep a b c visit s h
  rw [StartAll_of_startLoop_succeeds _ _ _ _ (startLoop_all_succeed config sleep a b c s h1 h2 h3)]
  obtain ⟨v, hv, hall⟩ := VerifyAll_log (registerServices config sleep a b c) visit
    { inner := afterThird sleep a b c s.inner,
      log := s.log ++ [.call "redis" .Start none, .sleep (2 * Second),
        .call "muraena" .Start none, .sleep (2 * Second),
        .call "necrobrowser" .Start none, .sleep (2 * Second)] }
  refine ⟨[.call "redis" .Start none, .sleep (2 * Second),
        .call "muraena" .Start none, .sleep (2 * Second),
        .call "necrobrowser" .Start none, .sleep (2 * Second)] ++ v, ?_, ?_⟩
  · rw [hv]; simp
  · rw [callsOf_append, callsOf_health_only .Start (by decide) v hall]
    simp [callsOf]

theorem VerifyAll_of_checksPass {S : Type} (m : Manager S) (visit : List String) :
    ∀ s : MState S, m.checksPass visit s.inner = true →
      (m.VerifyAll visit s).1 = none ∧
        (m.VerifyAll visit s).2.inner = m.afterChecks visit s.inner := by
  induction visit with
  | nil =>
    intro s _
    exact ⟨rfl, rfl⟩
  | cons name rest ih =>
    intro s h
    rcases hget : mapGet m.services name with _ | service
    · simp only [Manager.checksPass, hget] at h
      simp only [Manager.VerifyAll, Manager.afterChecks, hget]
      exact ih s h
    · simp only [Manager.checksPass, hget, Bool.and_eq_true, Option.isNone_iff_eq_none] at h
      simp only [Manager.VerifyAll, Manager.afterChecks, hget, invoke, h.1]
      exact ih _ h.2

theorem checksPass_of_VerifyAll {S : Type} (m : Manager S) (visit : List String) :
    ∀ s : MState S, (m.VerifyAll visit s).1 = none → m.checksPass visit s.inner = true := by
  induction visit with
  | nil =>
    intro s _
    rfl
  | cons name rest ih =>
    intro s h
    rcases hget : mapGet m.services name with _ | service
    · simp only [Manager.VerifyAll, hget] at h
      simp only [Manager.checksPass, hget]
      exact ih s h
    · rcases hc : (service.HealthCheck s.inner).1 with _ | e
      · simp only [Manager.VerifyAll, hget, invoke, hc] at h
        simp only [Manager.checksPass, hget, hc, Option.isNone_none, Bool.true_and]
        exact ih _ h
      · simp [Manager.VerifyAll, hget, invoke, hc] at h

theorem VerifyAll_fails_first {S : Type} (m : Manager S) (visit : List String) :
    ∀ (s : MState S) (err : GoError), (m.VerifyAll visit s).1 = some err →
      ∃ pre name post service e, visit = pre ++ name :: post ∧
        m.checksPass pre s.inner = true ∧
        mapGet m.services name = some service ∧
        (service.HealthCheck (m.afterChecks pre s.inner)).1 = some e ∧
        err = .wrapf (name ++ " health check failed: ") e ∧
        (m.VerifyAll visit s).2.inner = (service.HealthCheck (m.afterChecks pre s.inner)).2 := by
  induction visit with
  | nil =>
    intro s err h
    simp [Manager.VerifyAll] at h
  | cons name rest ih =>
    intro s err h
    rcases hget : mapGet m.services name with _ | service
    · simp only [Manager.VerifyAll, hget] at h ⊢
      obtain ⟨pre, n, post, sv, e, h1, h2, h3, h4, h5, h6⟩ := ih s err h
      refine ⟨name :: pre, n, post, sv, e, by rw [h1]; rfl, ?_, h3, ?_, h5, ?_⟩
      · simpa only [Manager.checksPass, hget] using h2
      · simpa only [Manager.afterChecks, hget] using h4
      · simpa only [Manager.afterChecks, hget] using h6
    · rcases hc : (service.HealthCheck s.inner).1 with _ | e
      · simp only [Manager.VerifyAll, hget, invoke, hc] at h ⊢
        obtain ⟨pre, n, post, sv, e, h1, h2, h3, h4, h5, h6⟩ := ih _ err h
        refine ⟨name :: pre, n, post, sv, e, by rw [h1]; rfl, ?_, h3, ?_, h5, ?_⟩
        · simpa only [Manager.checksPass, hget, hc, Option.isNone_none, Bool.true_and] using h2
        · simpa only [Manager.afterChecks, hget] using h4
        · simpa only [Manager.afterChecks, hget] using h6
      · simp only [Manager.VerifyAll, hget, invoke, hc] at h ⊢
        refine ⟨[], name, rest, service, e, rfl, rfl, hget, hc, ?_, rfl⟩
        exact (Option.some.inj h).symm

theorem checksPass_each {S : Type} (m : Manager S) (pre : List String) :
    ∀ (t : S) (name : String) (post : List String) (service : Service S),
      m.checksPass (pre ++ name :: post) t = true → mapGet m.services name = some service →
      (service.HealthCheck (m.afterChecks pre t)).1 = none := by
  induction pre with
  | nil =>
    intro t name post service h hget
    simp only [List.nil_append, Manager.checksPass, hget, Bool.and_eq_true,
      Option.isNone_iff_eq_none] at h
    exact h.1
  | cons p rest ih =>
    intro t name post service h hget
    rcases hp : mapGet m.services p with _ | sv
    · simp only [List.cons_append, Manager.checksPass, hp] at h
      simp only [Manager.afterChecks, hp]
      exact ih t name post service h hget
    · simp only [List.cons_append, Manager.checksPass, hp, Bool.and_eq_true] at h
      simp only [Manager.afterChecks, hp]
      exact ih _ name post service h.2 hget

theorem checksPass_registered {S : Type} (config : ServiceConfig) (sleep : Nat → S → S)
    (a b c : Service S) (visit : List String)
    (hvisit : visit.Perm ["redis", "muraena", "necrobrowser"]) (t : S)
    (h : (registerServices config sleep a b c).checksPass visit t = true) :
    (∃ pre post, visit = pre ++ "redis" :: post ∧
      (a.HealthCheck ((registerServices config sleep a b c).afterChecks pre t)).1 = none) ∧
    (∃ pre post, visit = pre ++ "muraena" :: post ∧
      (b.HealthCheck ((registerServices config sleep a b c).afterChecks pre t)).1 = none) ∧
    (∃ pre post, visit = pre ++ "necrobrowser" :: post ∧
      (c.HealthCheck ((registerServices config sleep a b c).afterChecks pre t)).1 = none) := by
  have hmem : ∀ n ∈ ["redis", "muraena", "necrobrowser"], n ∈ visit :=
    fun n hn => hvisit.symm.subset hn
  refine ⟨?_, ?_, ?_⟩
  · obtain ⟨pre, post, hv⟩ := List.append_of_mem (hmem "redis" (by simp))
    refine ⟨pre, post, hv, ?_⟩
    rw [hv] at h
    exact checksPass_each _ pre t "redis" post a h (mapGet_redis ..)
  · obtain ⟨pre, post, hv⟩ := List.append_of_mem (hmem "muraena" (by simp))
    refine ⟨pre, post, hv, ?_⟩
    rw [hv] at h
    exact checksPass_each _ pre t "muraena" post b h (mapGet_muraena ..)
  · obtain ⟨pre, post, hv⟩ := List.append_of_mem (hmem "necrobrowser" (by simp))
    refine ⟨pre, post, hv, ?_⟩
    rw [hv] at h
    exact checksPass_each _ pre t "necrobrowser" post c h (mapGet_necrobrowser ..)

/-! ## The orchestrator: order and failure policy (C1 to C5, C7 to C9) -/

/-- C1. For the orchestrator that `NewManager` builds, with any three adapter
behaviours registered as redis, muraena and necrobrowser, any state and any
visiting order of `VerifyAll`: when `StartAll` returns success, the `Start` of
redis succeeded in the initial state, the `Start` of muraena succeeded in the
state that this call and the settle delay left, and the `Start` of
necrobrowser succeeded in the state that the two calls and their delays left;
the adapters state at the end is the one these three calls and their delays
leave, followed by the `HealthCheck`s of `VerifyAll` and by nothing else, so
that each `Start` ran once and in that order; and the log shows the same. -/
theorem StartAll_success_start_order {S : Type} (config : ServiceConfig)
    (sleep : Nat → S → S) (redis muraena necrobrowser : Service S) (visit : List String)
    (s : MState S)
    (h : ((registerServices config sleep redis muraena necrobrowser).StartAll visit s).1
      = none) :
    (redis.Start s.inner).1 = none ∧
    (muraena.Start (sleep (2 * Second) (redis.Start s.inner).2)).1 = none ∧
    (necrobrowser.Start (sleep (2 * Second)
      (muraena.Start (sleep (2 * Second) (redis.Start s.inner).2)).2)).1 = none ∧
    ((registerServices config sleep redis muraena necrobrowser).StartAll visit s).2.inner =
      (registerServices config sleep redis muraena necrobrowser).afterChecks visit
        (sleep (2 * Second) (necrobrowser.Start (sleep (2 * Second)
          (muraena.Start (sleep (2 * Second) (redis.Start s.inner).2)).2)).2) ∧
    ∃ new, ((registerServices config sleep redis muraena necrobrowser).StartAll visit s).2.log
        = s.log ++ new ∧
      callsOf .Start new = ["redis", "muraena", "necrobrowser"] := by
  obtain ⟨h1, h2, h3⟩ :=
    StartAll_success_starts config sleep redis muraena necrobrowser visit s h
  refine ⟨h1, h2, h3, ?_, StartAll_success_log config sleep redis muraena necrobrowser visit s h⟩
  have heq := StartAll_of_startLoop_succeeds _ visit _ _
    (startLoop_all_succeed config sleep redis muraena necrobrowser s h1 h2 h3)
  rw [heq] at h ⊢
  exact (VerifyAll_of_checksPass _ visit _ (checksPass_of_VerifyAll _ visit _ h)).2

/-- Witness of C1: three adapters that always succeed and write every call into
a journal, visited by `VerifyAll` in the order necrobrowser, redis, muraena.
The journal at the end holds the three `Start`s in start order, each followed
by the settle delay, then the three `HealthCheck`s. -/
theorem StartAll_success_start_order_witness :
    ((registerServices DefaultServiceConfig recordingSleep (recordingService "redis")
        (recordingService "muraena") (recordingService "necrobrowser")).StartAll
        ["necrobrowser", "redis", "muraena"] freshJournal).1 = none ∧
    ((registerServices DefaultServiceConfig recordingSleep (recordingService "redis")
        (recordingService "muraena") (recordingService "necrobrowser")).StartAll
        ["necrobrowser", "redis", "muraena"] freshJournal).2.inner =
      ["redis.Start", "sleep", "muraena.Start", "sleep", "necrobrowser.Start", "sleep",
        "necrobrowser.HealthCheck", "redis.HealthCheck", "muraena.HealthCheck"] :=
  ⟨by decide,
    (StartAll_success_start_order DefaultServiceConfig recordingSleep (recordingService "redis")
      (recordingService "muraena") (recordingService "necrobrowser")
      ["necrobrowser", "redis", "muraena"] freshJournal (by decide)).2.2.2.1.trans (by decide)⟩

/-- C2. `StartAll` is fail-fast without rollback. Whichever adapter is the
first whose `Start` fails, with error `e` (redis; muraena after redis started;
necrobrowser after both started), `StartAll` returns `e` wrapped in
"failed to start <name>: ", and the log it leaves holds the `Start` calls up
to the failing one with the settle delays between them and nothing else: no
later `Start`, no `Stop`, no `HealthCheck`. -/
theorem StartAll_fail_fast {S : Type} (config : ServiceConfig) (sleep : Nat → S → S)
    (redis muraena necrobrowser : Service S) (visit : List String) (s : MState S)
    (e : GoError) :
    ((redis.Start s.inner).1 = some e →
      (registerServices config sleep redis muraena necrobrowser).StartAll visit s =
        (some (.wrapf "failed to start redis: " e),
          { inner := (redis.Start s.inner).2,
            log := s.log ++ [.call "redis" .Start (some e)] })) ∧
    ((redis.Start s.inner).1 = none →
      (muraena.Start (afterFirst sleep redis s.inner)).1 = some e →
      (registerServices config sleep redis muraena necrobrowser).StartAll visit s =
        (some (.wrapf "failed to start muraena: " e),
          { inner := (muraena.Start (afterFirst sleep redis s.inner)).2,
            log := s.log ++ [.call "redis" .Start none, .sleep (2 * Second),
              .call "muraena" .Start (some e)] })) ∧
    ((redis.Start s.inner).1 = none →
      (muraena.Start (afterFirst sleep redis s.inner)).1 = none →
      (necrobrowser.Start (afterSecond sleep redis muraena s.inner)).1 = some e →
      (registerServices config sleep redis muraena necrobrowser).StartAll visit s =
        (some (.wrapf "failed to start necrobrowser: " e),
          { inner := (necrobrowser.Start (afterSecond sleep redis muraena s.inner)).2,
            log := s.log ++ [.call "redis" .Start none, .sleep (2 * Second),
              .call "muraena" .Start none, .sleep (2 * Second),
              .call "necrobrowser" .Start (some e)] })) :=
  ⟨fun h1 => StartAll_of_startLoop_fails _ _ _ _ _
      (startLoop_first_fails config sleep redis muraena necrobrowser s e h1),
    fun h1 h2 => StartAll_of_startLoop_fails _ _ _ _ _
      (startLoop_second_fails config sleep redis muraena necrobrowser s e h1 h2),
    fun h1 h2 h3 => StartAll_of_startLoop_fails _ _ _ _ _
      (startLoop_third_fails config sleep redis muraena necrobrowser s e h1 h2 h3)⟩

/-- Witness of C2: the failing adapter in first, second and third position. -/
theorem StartAll_fail_fast_witness :
    (registerServices DefaultServiceConfig noSleep brokenService steadyService
        steadyService).StartAll ["redis", "muraena", "necrobrowser"] freshRun =
      (some (.wrapf "failed to start redis: " (.errorf "exit status 1")),
        { inner := 1, log := [.call "redis" .Start (some (.errorf "exit status 1"))] }) ∧
    (registerServices DefaultServiceConfig noSleep steadyService brokenService
        steadyService).StartAll ["redis", "muraena", "necrobrowser"] freshRun =
      (some (.wrapf "failed to start muraena: " (.errorf "exit status 1")),
        { inner := 2, log := [.call "redis" .Start none, .sleep (2 * Second),
            .call "muraena" .Start (some (.errorf "exit status 1"))] }) ∧
    (registerServices DefaultServiceConfig noSleep steadyService steadyService
        brokenService).StartAll ["redis", "muraena", "necrobrowser"] freshRun =
      (some (.wrapf "failed to start necrobrowser: " (.errorf "exit status 1")),
        { inner := 3, log := [.call "redis" .Start none, .sleep (2 * Second),
            .call "muraena" .Start none, .sleep (2 * Second),
            .call "necrobrowser" .Start (some (.errorf "exit status 1"))] }) :=
  ⟨(StartAll_fail_fast DefaultServiceConfig noSleep brokenService steadyService steadyService
      ["redis", "muraena", "necrobrowser"] freshRun (.errorf "exit status 1")).1 rfl,
    (StartAll_fail_fast DefaultServiceConfig noSleep steadyService brokenService steadyService
      ["redis", "muraena", "necrobrowser"] freshRun (.errorf "exit status 1")).2.1 rfl rfl,
    (StartAll_fail_fast DefaultServiceConfig noSleep steadyService steadyService brokenService
      ["redis", "muraena", "necrobrowser"] freshRun (.errorf "exit status 1")).2.2 rfl rfl rfl⟩

/-- C3. Whatever the individual `Stop` calls return, `StopAll` adds to the log
exactly the `Stop` calls on necrobrowser, muraena and redis, in that order,
each with the result that `Stop` returned in the state the previous one left. -/
theorem StopAll_stop_order {S : Type} (config : ServiceConfig) (sleep : Nat → S → S)
    (redis muraena necrobrowser : Service S) (s : MState S) :
    ((registerServices config sleep redis muraena necrobrowser).StopAll s).2.log =
      s.log ++ [.call "necrobrowser" .Stop (necrobrowser.Stop s.inner).1,
        .call "muraena" .Stop (muraena.Stop (necrobrowser.Stop s.inner).2).1,
        .call "redis" .Stop (redis.Stop (muraena.Stop (necrobrowser.Stop s.inner).2).2).1] ∧
    callsOf .Stop (((registerServices config sleep redis muraena necrobrowser).StopAll s).2.log.drop
      s.log.length) = ["necrobrowser", "muraena", "redis"] := by
  have hlog : ((registerServices config sleep redis muraena necrobrowser).StopAll s).2.log =
      s.log ++ [.call "necrobrowser" .Stop (necrobrowser.Stop s.inner).1,
        .call "muraena" .Stop (muraena.Stop (necrobrowser.Stop s.inner).2).1,
        .call "redis" .Stop (redis.Stop (muraena.Stop (necrobrowser.Stop s.inner).2).2).1] := by
    simp only [Manager.StopAll, stopLoop_register]
    split <;> rfl
  refine ⟨hlog, ?_⟩
  rw [hlog]
  simp [callsOf]

theorem stopEntry_eq_nil (name : String) (result : Option GoError) :
    stopEntry name result = [] ↔ result = none := by
  cases result <;> simp [stopEntry]

theorem StopAll_register {S : Type} (config : ServiceConfig) (sleep : Nat → S → S)
    (a b c : Service S) (s : MState S) :
    ((registerServices config sleep a b c).StopAll s).1 =
      if (stopEntry "necrobrowser" (c.Stop s.inner).1 ++
          stopEntry "muraena" (b.Stop (c.Stop s.inner).2).1 ++
          stopEntry "redis" (a.Stop (b.Stop (c.Stop s.inner).2).2).1) = [] then none
      else some (.errorf ("errors stopping services: " ++ fmtErrors
        (stopEntry "necrobrowser" (c.Stop s.inner).1 ++
          stopEntry "muraena" (b.Stop (c.Stop s.inner).2).1 ++
          stopEntry "redis" (a.Stop (b.Stop (c.Stop s.inner).2).2).1))) := by
  simp only [Manager.StopAll, stopLoop_register]
  by_cases h : (stopEntry "necrobrowser" (c.Stop s.inner).1 ++
          stopEntry "muraena" (b.Stop (c.Stop s.inner).2).1 ++
          stopEntry "redis" (a.Stop (b.Stop (c.Stop s.inner).2).2).1) = []
  · simp [h]
  · have hlen : (stopEntry "necrobrowser" (c.Stop s.inner).1 ++
          stopEntry "muraena" (b.Stop (c.Stop s.inner).2).1 ++
          stopEntry "redis" (a.Stop (b.Stop (c.Stop s.inner).2).2).1).length > 0 :=
      List.length_pos.2 h
    simp only [hlen, if_true, h, if_false]

theorem fmtErrors_single (name : String) (e : GoError) :
    "errors stopping services: " ++ fmtErrors [GoError.wrapf (name ++ ": ") e] =
      "errors stopping services: [" ++ name ++ ": " ++ e.Error ++ "]" := by
  simp only [fmtErrors, List.map, String.intercalate, String.intercalate.go, GoError.Error,
    String.append_assoc]
  rw [← String.append_assoc "errors stopping services: " "["]
  rfl

/-- C4. `StopAll` returns success exactly when the three `Stop` calls all
succeeded. Otherwise it returns the one error "errors stopping services: "
followed by the rendering of the list that holds, in stop order, the entry
"<name>: <error>" of every adapter whose `Stop` failed and nothing for the
others; when only the `Stop` of necrobrowser fails, with `e`, the message is
"errors stopping services: [necrobrowser: <e>]". -/
theorem StopAll_aggregates {S : Type} (config : ServiceConfig) (sleep : Nat → S → S)
    (redis muraena necrobrowser : Service S) (s : MState S) :
    (((registerServices config sleep redis muraena necrobrowser).StopAll s).1 = none ↔
      (necrobrowser.Stop s.inner).1 = none ∧
      (muraena.Stop (necrobrowser.Stop s.inner).2).1 = none ∧
      (redis.Stop (muraena.Stop (necrobrowser.Stop s.inner).2).2).1 = none) ∧
    (((registerServices config sleep redis muraena necrobrowser).StopAll s).1 ≠ none →
      ((registerServices config sleep redis muraena necrobrowser).StopAll s).1 =
        some (.errorf ("errors stopping services: " ++ fmtErrors
          (stopEntry "necrobrowser" (necrobrowser.Stop s.inner).1 ++
            stopEntry "muraena" (muraena.Stop (necrobrowser.Stop s.inner).2).1 ++
            stopEntry "redis"
              (redis.Stop (muraena.Stop (necrobrowser.Stop s.inner).2).2).1)))) ∧
    (∀ e, (necrobrowser.Stop s.inner).1 = some e →
      (muraena.Stop (necrobrowser.Stop s.inner).2).1 = none →
      (redis.Stop (muraena.Stop (necrobrowser.Stop s.inner).2).2).1 = none →
      ((registerServices config sleep redis muraena necrobrowser).StopAll s).1 =
        some (.errorf ("errors stopping services: [" ++ "necrobrowser" ++ ": " ++ e.Error
          ++ "]"))) := by
  refine ⟨?_, ?_, ?_⟩
  · rw [StopAll_register]
    constructor
    · intro h
      by_cases hnil : (stopEntry "necrobrowser" (necrobrowser.Stop s.inner).1 ++
          stopEntry "muraena" (muraena.Stop (necrobrowser.Stop s.inner).2).1 ++
          stopEntry "redis" (redis.Stop (muraena.Stop (necrobrowser.Stop s.inner).2).2).1) = []
      · simp only [List.append_eq_nil, stopEntry_eq_nil] at hnil
        exact ⟨hnil.1.1, hnil.1.2, hnil.2⟩
      · rw [if_neg hnil] at h
        cases h
    · rintro ⟨h1, h2, h3⟩
      simp [h1, h2, h3, stopEntry]
  · intro h
    rw [StopAll_register] at h ⊢
    by_cases hnil : (stopEntry "necrobrowser" (necrobrowser.Stop s.inner).1 ++
          stopEntry "muraena" (muraena.Stop (necrobrowser.Stop s.inner).2).1 ++
          stopEntry "redis" (redis.Stop (muraena.Stop (necrobrowser.Stop s.inner).2).2).1) = []
    · rw [if_pos hnil] at h
      exact absurd rfl h
    · rw [if_neg hnil]
  · intro e h1 h2 h3
    rw [StopAll_register, h1, h2, h3]
    simp only [stopEntry, List.append_nil, List.cons_ne_nil, if_false]
    rw [fmtErrors_single]

/-- Witness of C4: the `Stop` of necrobrowser fails, the other two succeed. -/
theorem StopAll_aggregates_witness :
    ((registerServices DefaultServiceConfig noSleep steadyService steadyService
        brokenService).StopAll freshRun).1 =
      some (.errorf ("errors stopping services: [" ++ "necrobrowser" ++ ": " ++
        (GoError.errorf "exit status 1").Error ++ "]")) :=
  (StopAll_aggregates DefaultServiceConfig noSleep steadyService steadyService brokenService
    freshRun).2.2 (.errorf "exit status 1") rfl rfl rfl

theorem VerifyAll_success_iff {S : Type} (m : Manager S) (visit : List String)
    (hreg : ∀ n ∈ visit, mapGet m.services n ≠ none) (s : MState S) :
    (m.VerifyAll visit s).1 = none ↔
      (m.VerifyAll visit s).2.log = s.log ++ visit.map passed := by
  rcases VerifyAll_cases m visit hreg s with ⟨h1, h2⟩ | ⟨pre, name, post, e, -, h2, h3⟩
  · exact ⟨fun _ => h2, fun _ => h1⟩
  · constructor
    · intro h; rw [h2] at h; cases h
    · intro h
      rw [h3, List.append_assoc] at h
      have hmem : MEvent.call name .HealthCheck (some e) ∈ visit.map passed := by
        rw [← List.append_cancel_left h]; simp
      rcases List.mem_map.1 hmem with ⟨n, -, hn⟩
      simp [passed] at hn

theorem registered_of_perm {S : Type} (config : ServiceConfig) (sleep : Nat → S → S)
    (a b c : Service S) (visit : List String)
    (hvisit : visit.Perm ["redis", "muraena", "necrobrowser"]) :
    ∀ n ∈ visit, mapGet (registerServices config sleep a b c).services n ≠ none := by
  intro n hn
  have hmem : n ∈ ["redis", "muraena", "necrobrowser"] := hvisit.subset hn
  simp only [List.mem_cons, List.mem_singleton, List.not_mem_nil, or_false] at hmem
  rcases hmem with rfl | rfl | rfl
  · rw [mapGet_redis]; simp
  · rw [mapGet_muraena]; simp
  · rw [mapGet_necrobrowser]; simp

/-- C5. When the three `Start` calls succeed, `StartAll` returns what `VerifyAll`
returns in the state after the third settle delay; and `StartAll` returns
success exactly when the three `Start` calls succeed and, from the state after
the third settle delay, the `HealthCheck` of every adapter passes, each invoked
in the state that the checks before it in the visiting order leave. That
condition holds the `HealthCheck` of redis, of muraena and of necrobrowser. -/
theorem StartAll_result_is_VerifyAll {S : Type} (config : ServiceConfig)
    (sleep : Nat → S → S) (redis muraena necrobrowser : Service S) (visit : List String)
    (hvisit : visit.Perm ["redis", "muraena", "necrobrowser"]) (s : MState S) :
    ((redis.Start s.inner).1 = none →
      (muraena.Start (afterFirst sleep redis s.inner)).1 = none →
      (necrobrowser.Start (afterSecond sleep redis muraena s.inner)).1 = none →
      (registerServices config sleep redis muraena necrobrowser).StartAll visit s =
        (registerServices config sleep redis muraena necrobrowser).VerifyAll visit
          { inner := afterThird sleep redis muraena necrobrowser s.inner,
            log := s.log ++ [.call "redis" .Start none, .sleep (2 * Second),
              .call "muraena" .Start none, .sleep (2 * Second),
              .call "necrobrowser" .Start none, .sleep (2 * Second)] }) ∧
    (((registerServices config sleep redis muraena necrobrowser).StartAll visit s).1 = none ↔
      (redis.Start s.inner).1 = none ∧
      (muraena.Start (afterFirst sleep redis s.inner)).1 = none ∧
      (necrobrowser.Start (afterSecond sleep redis muraena s.inner)).1 = none ∧
      (registerServices config sleep redis muraena necrobrowser).checksPass visit
        (afterThird sleep redis muraena necrobrowser s.inner) = true) ∧
    (∀ t, (registerServices config sleep redis muraena necrobrowser).checksPass visit t = true →
      (∃ pre post, visit = pre ++ "redis" :: post ∧
        (redis.HealthCheck ((registerServices config sleep redis muraena
          necrobrowser).afterChecks pre t)).1 = none) ∧
      (∃ pre post, visit = pre ++ "muraena" :: post ∧
        (muraena.HealthCheck ((registerServices config sleep redis muraena
          necrobrowser).afterChecks pre t)).1 = none) ∧
      (∃ pre post, visit = pre ++ "necrobrowser" :: post ∧
        (necrobrowser.HealthCheck ((registerServices config sleep redis muraena
          necrobrowser).afterChecks pre t)).1 = none)) := by
  refine ⟨fun h1 h2 h3 => StartAll_of_startLoop_succeeds _ _ _ _
    (startLoop_all_succeed config sleep redis muraena necrobrowser s h1 h2 h3), ?_,
    fun t ht => checksPass_registered config sleep redis muraena necrobrowser visit hvisit t ht⟩
  constructor
  · intro h
    obtain ⟨h1, h2, h3⟩ := StartAll_success_starts config sleep redis muraena necrobrowser visit s h
    rw [StartAll_of_startLoop_succeeds _ _ _ _
      (startLoop_all_succeed config sleep redis muraena necrobrowser s h1 h2 h3)] at h
    exact ⟨h1, h2, h3, checksPass_of_VerifyAll _ visit _ h⟩
  · rintro ⟨h1, h2, h3, h4⟩
    rw [StartAll_of_startLoop_succeeds _ _ _ _
      (startLoop_all_succeed config sleep redis muraena necrobrowser s h1 h2 h3)]
    exact (VerifyAll_of_checksPass _ visit _ h4).1

/-- Witness of C5: three adapters that always succeed and write every call into
a journal, visited in the order muraena, necrobrowser, redis. `StartAll` is
`VerifyAll` in the state after the three `Start`s and their delays, and in
that state the `HealthCheck`s pass; that of redis is invoked last. -/
theorem StartAll_result_is_VerifyAll_witness :
    (registerServices DefaultServiceConfig recordingSleep (recordingService "redis")
        (recordingService "muraena") (recordingService "necrobrowser")).StartAll
        ["muraena", "necrobrowser", "redis"] freshJournal =
      (registerServices DefaultServiceConfig recordingSleep (recordingService "redis")
        (recordingService "muraena") (recordingService "necrobrowser")).VerifyAll
          ["muraena", "necrobrowser", "redis"]
          { inner := ["redis.Start", "sleep", "muraena.Start", "sleep", "necrobrowser.Start",
              "sleep"],
            log := [.call "redis" .Start none, .sleep (2 * Second),
              .call "muraena" .Start none, .sleep (2 * Second),
              .call "necrobrowser" .Start none, .sleep (2 * Second)] } ∧
    (∃ pre post, ["muraena", "necrobrowser", "redis"] = pre ++ "redis" :: post ∧
      ((recordingService "redis").HealthCheck
        ((registerServices DefaultServiceConfig recordingSleep (recordingService "redis")
          (recordingService "muraena") (recordingService "necrobrowser")).afterChecks pre
          [])).1 = none) :=
  ⟨(StartAll_result_is_VerifyAll DefaultServiceConfig recordingSleep (recordingService "redis")
      (recordingService "muraena") (recordingService "necrobrowser")
      ["muraena", "necrobrowser", "redis"] (by decide) freshJournal).1 rfl rfl rfl,
    ((StartAll_result_is_VerifyAll DefaultServiceConfig recordingSleep (recordingService "redis")
      (recordingService "muraena") (recordingService "necrobrowser")
      ["muraena", "necrobrowser", "redis"] (by decide) freshJournal).2.2 [] (by decide)).1⟩

theorem StopAll_log {S : Type} (config : ServiceConfig) (sleep : Nat → S → S)
    (a b c : Service S) (s : MState S) :
    ((registerServices config sleep a b c).StopAll s).2.log =
      s.log ++ [.call "necrobrowser" .Stop (c.Stop s.inner).1,
        .call "muraena" .Stop (b.Stop (c.Stop s.inner).2).1,
        .call "redis" .Stop (a.Stop (b.Stop (c.Stop s.inner).2).2).1] := by
  simp only [Manager.StopAll, stopLoop_register]
  split <;> rfl

/-- C7. `RestartAll`: when `StopAll` fails with `e`, `RestartAll` returns `e`
itself and leaves the state and log of `StopAll`, which holds the three `Stop`
calls and no `Start`; when `StopAll` succeeds, `RestartAll` returns what
`StartAll` returns in the state that `StopAll` and the settle delay leave. -/
theorem RestartAll_stop_then_start {S : Type} (config : ServiceConfig)
    (sleep : Nat → S → S) (redis muraena necrobrowser : Service S) (visit : List String)
    (s : MState S) :
    (∀ e, ((registerServices config sleep redis muraena necrobrowser).StopAll s).1 = some e →
      (registerServices config sleep redis muraena necrobrowser).RestartAll visit s =
        (some e, ((registerServices config sleep redis muraena necrobrowser).StopAll s).2) ∧
      callsOf .Start
        (((registerServices config sleep redis muraena necrobrowser).RestartAll visit s).2.log.drop
          s.log.length) = []) ∧
    (((registerServices config sleep redis muraena necrobrowser).StopAll s).1 = none →
      (registerServices config sleep redis muraena necrobrowser).RestartAll visit s =
        (registerServices config sleep redis muraena necrobrowser).StartAll visit
          ((registerServices config sleep redis muraena necrobrowser).settle (2 * Second)
            ((registerServices config sleep redis muraena necrobrowser).StopAll s).2)) := by
  constructor
  · intro e h
    have hres : (registerServices config sleep redis muraena necrobrowser).RestartAll visit s =
        (some e, ((registerServices config sleep redis muraena necrobrowser).StopAll s).2) := by
      rcases hs : (registerServices config sleep redis muraena necrobrowser).StopAll s with
        ⟨r, s1⟩
      rw [hs] at h
      simp only at h
      subst h
      simp [Manager.RestartAll, hs]
    refine ⟨hres, ?_⟩
    rw [hres]
    simp only [StopAll_log]
    simp [callsOf]
  · intro h
    rcases hs : (registerServices config sleep redis muraena necrobrowser).StopAll s with
      ⟨r, s1⟩
    rw [hs] at h
    simp only at h
    subst h
    simp [Manager.RestartAll]
    rw [hs]

/-- Witness of C7: a failing `StopAll` (the `Stop` of redis fails) and a
successful one. -/
theorem RestartAll_stop_then_start_witness :
    ((registerServices DefaultServiceConfig noSleep brokenService steadyService
        steadyService).RestartAll ["redis", "muraena", "necrobrowser"] freshRun =
      (some (.errorf "errors stopping services: [redis: exit status 1]"),
        ((registerServices DefaultServiceConfig noSleep brokenService steadyService
          steadyService).StopAll freshRun).2) ∧
      callsOf .Start
        (((registerServices DefaultServiceConfig noSleep brokenService steadyService
          steadyService).RestartAll ["redis", "muraena", "necrobrowser"] freshRun).2.log.drop
          freshRun.log.length) = []) ∧
    (registerServices DefaultServiceConfig noSleep steadyService steadyService
        steadyService).RestartAll ["redis", "muraena", "necrobrowser"] freshRun =
      (registerServices DefaultServiceConfig noSleep steadyService steadyService
        steadyService).StartAll ["redis", "muraena", "necrobrowser"]
          ((registerServices DefaultServiceConfig noSleep steadyService steadyService
            steadyService).settle (2 * Second)
            ((registerServices DefaultServiceConfig noSleep steadyService steadyService
              steadyService).StopAll freshRun).2) :=
  ⟨(RestartAll_stop_then_start DefaultServiceConfig noSleep brokenService steadyService
      steadyService ["redis", "muraena", "necrobrowser"] freshRun).1 _ (by decide),
    (RestartAll_stop_then_start DefaultServiceConfig noSleep steadyService steadyService
      steadyService ["redis", "muraena", "necrobrowser"] freshRun).2 (by decide)⟩

/-- C8. For the orchestrator that `NewManager` builds, with any three adapter
behaviours, and any order `visit` in which the map of adapters is ranged over:
`VerifyAll` returns success exactly when the `HealthCheck` of every adapter
passes, each invoked in the state that the checks before it in the visiting
order leave; that condition holds the `HealthCheck` of redis, of muraena and
of necrobrowser. When `VerifyAll` returns an error, there is an adapter,
registered under a name `name` of the visiting order, whose `HealthCheck`
returned an error `e` in the state that the checks before it left, every
adapter visited before it passed, the error returned is `e` wrapped in
"<name> health check failed: ", and the adapters state at the end is the one
that this failed `HealthCheck` left: no adapter after it was checked. -/
theorem VerifyAll_first_failure {S : Type} (config : ServiceConfig) (sleep : Nat → S → S)
    (redis muraena necrobrowser : Service S) (visit : List String)
    (hvisit : visit.Perm ["redis", "muraena", "necrobrowser"]) (s : MState S) :
    (((registerServices config sleep redis muraena necrobrowser).VerifyAll visit s).1 = none ↔
      (registerServices config sleep redis muraena necrobrowser).checksPass visit s.inner =
        true) ∧
    ((registerServices config sleep redis muraena necrobrowser).checksPass visit s.inner =
        true →
      (∃ pre post, visit = pre ++ "redis" :: post ∧
        (redis.HealthCheck ((registerServices config sleep redis muraena
          necrobrowser).afterChecks pre s.inner)).1 = none) ∧
      (∃ pre post, visit = pre ++ "muraena" :: post ∧
        (muraena.HealthCheck ((registerServices config sleep redis muraena
          necrobrowser).afterChecks pre s.inner)).1 = none) ∧
      (∃ pre post, visit = pre ++ "necrobrowser" :: post ∧
        (necrobrowser.HealthCheck ((registerServices config sleep redis muraena
          necrobrowser).afterChecks pre s.inner)).1 = none)) ∧
    (∀ err, ((registerServices config sleep redis muraena necrobrowser).VerifyAll visit s).1 =
        some err →
      ∃ before name after service e, visit = before ++ name :: after ∧
        mapGet (registerServices config sleep redis muraena necrobrowser).services name =
          some service ∧
        (registerServices config sleep redis muraena necrobrowser).checksPass before s.inner =
          true ∧
        (service.HealthCheck ((registerServices config sleep redis muraena
          necrobrowser).afterChecks before s.inner)).1 = some e ∧
        err = .wrapf (name ++ " health check failed: ") e ∧
        ((registerServices config sleep redis muraena necrobrowser).VerifyAll visit s).2.inner =
          (service.HealthCheck ((registerServices config sleep redis muraena
            necrobrowser).afterChecks before s.inner)).2) := by
  refine ⟨⟨checksPass_of_VerifyAll _ visit s, fun h => (VerifyAll_of_checksPass _ visit s h).1⟩,
    checksPass_registered config sleep redis muraena necrobrowser visit hvisit s.inner, ?_⟩
  intro err herr
  obtain ⟨pre, name, post, service, e, h1, h2, h3, h4, h5, h6⟩ :=
    VerifyAll_fails_first _ visit s err herr
  exact ⟨pre, name, post, service, e, h1, h3, h2, h4, h5, h6⟩

/-- Witness of C8: adapters that write every call into a journal, visited in the
order muraena, necrobrowser, redis; the `HealthCheck` of necrobrowser fails.
`VerifyAll` returns that error under the name necrobrowser, and the journal
holds the `HealthCheck` of muraena and that of necrobrowser: redis is not
checked. -/
theorem VerifyAll_first_failure_witness :
    ((registerServices DefaultServiceConfig recordingSleep (recordingService "redis")
        (recordingService "muraena") (failingCheckService "necrobrowser")).VerifyAll
        ["muraena", "necrobrowser", "redis"] freshJournal).1 =
      some (.wrapf "necrobrowser health check failed: " (.errorf "exit status 1")) ∧
    ((registerServices DefaultServiceConfig recordingSleep (recordingService "redis")
        (recordingService "muraena") (failingCheckService "necrobrowser")).VerifyAll
        ["muraena", "necrobrowser", "redis"] freshJournal).2.inner =
      ["muraena.HealthCheck", "necrobrowser.HealthCheck"] ∧
    ∃ before name after service e, ["muraena", "necrobrowser", "redis"] =
        before ++ name :: after ∧
      mapGet (registerServices DefaultServiceConfig recordingSleep (recordingService "redis")
        (recordingService "muraena") (failingCheckService "necrobrowser")).services name =
          some service ∧
      (registerServices DefaultServiceConfig recordingSleep (recordingService "redis")
        (recordingService "muraena") (failingCheckService "necrobrowser")).checksPass before
          freshJournal.inner = true ∧
      (service.HealthCheck ((registerServices DefaultServiceConfig recordingSleep
        (recordingService "redis") (recordingService "muraena")
        (failingCheckService "necrobrowser")).afterChecks before freshJournal.inner)).1 =
          some e ∧
      GoError.wrapf "necrobrowser health check failed: " (.errorf "exit status 1") =
        .wrapf (name ++ " health check failed: ") e ∧
      ((registerServices DefaultServiceConfig recordingSleep (recordingService "redis")
        (recordingService "muraena") (failingCheckService "necrobrowser")).VerifyAll
        ["muraena", "necrobrowser", "redis"] freshJournal).2.inner =
        (service.HealthCheck ((registerServices DefaultServiceConfig recordingSleep
          (recordingService "redis") (recordingService "muraena")
          (failingCheckService "necrobrowser")).afterChecks before freshJournal.inner)).2 :=
  ⟨by decide, by decide,
    (VerifyAll_first_failure DefaultServiceConfig recordingSleep (recordingService "redis")
      (recordingService "muraena") (failingCheckService "necrobrowser")
      ["muraena", "necrobrowser", "redis"] (by decide) freshJournal).2.2 _ (by decide)⟩

theorem GetService_register {S : Type} (config : ServiceConfig) (sleep : Nat → S → S)
    (a b c : Service S) (name : String) :
    (name ∉ ["redis", "muraena", "necrobrowser"] →
      (registerServices config sleep a b c).GetService name =
        .error (.errorf ("service not found: " ++ name))) ∧
    (∀ service, (name, service) ∈ (registerServices config sleep a b c).services →
      (registerServices config sleep a b c).GetService name = .ok service) := by
  constructor
  · intro h
    simp only [List.mem_cons, List.mem_singleton, List.not_mem_nil, or_false, not_or] at h
    simp [Manager.GetService, mapGet_register, h.1, h.2.1, h.2.2]
  · intro service hmem
    rw [registerServices_services] at hmem
    simp only [List.mem_cons, Prod.mk.injEq, List.mem_singleton, List.not_mem_nil,
      or_false] at hmem
    rcases hmem with ⟨rfl, rfl⟩ | ⟨rfl, rfl⟩ | ⟨rfl, rfl⟩
    · simp [Manager.GetService, mapGet_redis]
    · simp [Manager.GetService, mapGet_muraena]
    · simp [Manager.GetService, mapGet_necrobrowser]

theorem NewManager_eq (os : OS) (config : Option ServiceConfig) :
    ∃ cfg, NewManager os config = registerServices cfg os.doSleep
      ((NewRedisService cfg).toService os) ((NewMuraenaService cfg).toService os)
      ((NewNecroBrowserService cfg).toService os) :=
  ⟨orDefault config, rfl⟩

/-- C9. For the orchestrator that `NewManager` builds and every string `name`:
the registered names are redis, muraena and necrobrowser; `GetService name`
fails, and then with the error "service not found: <name>", exactly when
`name` is not registered; and for a name registered with an adapter it returns
that adapter and no error. -/
theorem GetService_not_found_iff (os : OS) (config : Option ServiceConfig) (name : String) :
    (NewManager os config).services.map Prod.fst = ["redis", "muraena", "necrobrowser"] ∧
    ((∃ e, (NewManager os config).GetService name = .error e) ↔
      name ∉ (NewManager os config).services.map Prod.fst) ∧
    ((NewManager os config).GetService name = .error (.errorf ("service not found: " ++ name)) ↔
      name ∉ (NewManager os config).services.map Prod.fst) ∧
    (∀ service, (name, service) ∈ (NewManager os config).services →
      (NewManager os config).GetService name = .ok service) := by
  obtain ⟨cfg, hm⟩ := NewManager_eq os config
  rw [hm]
  have hkeys : (registerServices cfg os.doSleep ((NewRedisService cfg).toService os)
      ((NewMuraenaService cfg).toService os)
      ((NewNecroBrowserService cfg).toService os)).services.map Prod.fst =
      ["redis", "muraena", "necrobrowser"] := by
    rw [registerServices_services]; rfl
  have hg := GetService_register cfg os.doSleep ((NewRedisService cfg).toService os)
    ((NewMuraenaService cfg).toService os) ((NewNecroBrowserService cfg).toService os) name
  have hfound : name ∈ ["redis", "muraena", "necrobrowser"] →
      ∃ service, (registerServices cfg os.doSleep ((NewRedisService cfg).toService os)
        ((NewMuraenaService cfg).toService os)
        ((NewNecroBrowserService cfg).toService os)).GetService name = .ok service := by
    intro hmem
    rw [← hkeys] at hmem
    rcases List.mem_map.1 hmem with ⟨⟨k, service⟩, hks, rfl⟩
    exact ⟨service, hg.2 service hks⟩
  rw [hkeys]
  refine ⟨rfl, ?_, ?_, hg.2⟩
  · constructor
    · rintro ⟨e, he⟩ hmem
      obtain ⟨service, hs⟩ := hfound hmem
      rw [hs] at he
      cases he
    · intro h
      exact ⟨_, hg.1 h⟩
  · constructor
    · intro he hmem
      obtain ⟨service, hs⟩ := hfound hmem
      rw [hs] at he
      cases he
    · exact hg.1

/-! ## The adapters: status invariant (C10) -/

/-- C10. For each of the three adapters, every behaviour of the host and every
world, the status that `GetStatus` returns has `Running = true` whenever it
has `Healthy = true`. -/
theorem GetStatus_healthy_implies_running (os : OS) (rs : RedisService)
    (ms : MuraenaService) (ns : NecroBrowserService) (w : World) :
    ((rs.GetStatus os w).1.Healthy = true → (rs.GetStatus os w).1.Running = true) ∧
    ((ms.GetStatus os w).1.Healthy = true → (ms.GetStatus os w).1.Running = true) ∧
    ((ns.GetStatus os w).1.Healthy = true → (ns.GetStatus os w).1.Running = true) := by
  refine ⟨?_, ?_, ?_⟩
  · simp only [RedisService.GetStatus]
    split <;> simp
  · simp only [MuraenaService.GetStatus]
    split
    · split <;> simp
    · simp
  · simp only [NecroBrowserService.GetStatus]
    split
    · split <;> simp
    · simp

/-- Witness of C10: the three adapters on a host where all three services
have been launched and are healthy. -/
theorem GetStatus_healthy_implies_running_witness :
    ((NewRedisService DefaultServiceConfig).GetStatus (scenarioHost DefaultServiceConfig .nothing)
      (launchedWorld DefaultServiceConfig)).1.Running = true ∧
    ((NewMuraenaService DefaultServiceConfig).GetStatus (scenarioHost DefaultServiceConfig .nothing)
      (launchedWorld DefaultServiceConfig)).1.Running = true ∧
    ((NewNecroBrowserService DefaultServiceConfig).GetStatus
      (scenarioHost DefaultServiceConfig .nothing)
      (launchedWorld DefaultServiceConfig)).1.Running = true :=
  ⟨(GetStatus_healthy_implies_running (scenarioHost DefaultServiceConfig .nothing)
      (NewRedisService DefaultServiceConfig) (NewMuraenaService DefaultServiceConfig)
      (NewNecroBrowserService DefaultServiceConfig) (launchedWorld DefaultServiceConfig)).1
      (by decide),
    (GetStatus_healthy_implies_running (scenarioHost DefaultServiceConfig .nothing)
      (NewRedisService DefaultServiceConfig) (NewMuraenaService DefaultServiceConfig)
      (NewNecroBrowserService DefaultServiceConfig) (launchedWorld DefaultServiceConfig)).2.1
      (by decide),
    (GetStatus_healthy_implies_running (scenarioHost DefaultServiceConfig .nothing)
      (NewRedisService DefaultServiceConfig) (NewMuraenaService DefaultServiceConfig)
      (NewNecroBrowserService DefaultServiceConfig) (launchedWorld DefaultServiceConfig)).2.2
      (by decide)⟩

/-! ## Scenario A (C6) -/

@[simp] theorem step_trace (os : OS) (w : World) (c : OSCall) :
    (os.step w c).trace = w.trace ++ [c] := rfl

@[simp] theorem doRun_fst (os : OS) (b : Bool) (argv : List String) (w : World) :
    (os.doRun b argv w).1 = os.run w b argv := rfl

@[simp] theorem doRun_snd (os : OS) (b : Bool) (argv : List String) (w : World) :
    (os.doRun b argv w).2 = os.step w (.run b argv) := rfl

@[simp] theorem doOutput_fst (os : OS) (b : Bool) (argv : List String) (w : World) :
    (os.doOutput b argv w).1 = os.output w b argv := rfl

@[simp] theorem doOutput_snd (os : OS) (b : Bool) (argv : List String) (w : World) :
    (os.doOutput b argv w).2 = os.step w (.output b argv) := rfl

@[simp] theorem doStat_fst (os : OS) (path : String) (w : World) :
    (os.doStat path w).1 = os.stat w path := rfl

@[simp] theorem doStat_snd (os : OS) (path : String) (w : World) :
    (os.doStat path w).2 = os.step w (.stat path) := rfl

@[simp] theorem doMkdirAll_fst (os : OS) (path : String) (perm : Nat) (w : World) :
    (os.doMkdirAll path perm w).1 = os.mkdirAll w path perm := rfl

@[simp] theorem doMkdirAll_snd (os : OS) (path : String) (perm : Nat) (w : World) :
    (os.doMkdirAll path perm w).2 = os.step w (.mkdirAll path perm) := rfl

@[simp] theorem doSleep_eq (os : OS) (d : Nat) (w : World) :
    os.doSleep d w = os.step w (.sleep d) := rfl

@[simp] theorem doNow_fst (os : OS) (w : World) :
    (os.doNow w).1 = (os.wallNow w, w.clock) := rfl

@[simp] theorem doNow_snd (os : OS) (w : World) : (os.doNow w).2 = os.step w .now := rfl

@[simp] theorem doDial_fst (os : OS) (network address : String) (timeout : Nat) (w : World) :
    (os.doDial network address timeout w).1 = os.dial w network address timeout := rfl

@[simp] theorem doDial_snd (os : OS) (network address : String) (timeout : Nat) (w : World) :
    (os.doDial network address timeout w).2 = os.step w (.dial network address timeout) := rfl

@[simp] theorem doHttpGet_fst (os : OS) (timeout : Nat) (url : String) (w : World) :
    (os.doHttpGet timeout url w).1 = os.httpGet w timeout url := rfl

@[simp] theorem doHttpGet_snd (os : OS) (timeout : Nat) (url : String) (w : World) :
    (os.doHttpGet timeout url w).2 = os.step w (.httpGet timeout url) := rfl

@[simp] theorem doCtxDone_fst (os : OS) (w : World) : (os.doCtxDone w).1 = os.ctxErr w := rfl

@[simp] theorem doCtxDone_snd (os : OS) (w : World) :
    (os.doCtxDone w).2 = os.step w .ctxDone := rfl

theorem redis_HealthCheck_trace (os : OS) (rs : RedisService) (w : World) :
    (rs.HealthCheck os w).2.trace = w.trace ++ [.output true ["systemctl", "is-active", "redis"]]
      ∨ (rs.HealthCheck os w).2.trace = w.trace ++
        [.output true ["systemctl", "is-active", "redis"], .output true ["redis-cli", "ping"]] := by
  simp only [RedisService.HealthCheck]
  repeat' split
  all_goals simp

theorem redis_HealthCheck_up (os : OS) (rs : RedisService) (w : World)
    (h1 : Answers (os.output w true ["systemctl", "is-active", "redis"]) "active")
    (h2 : Answers (os.output (os.step w (.output true ["systemctl", "is-active", "redis"])) true
      ["redis-cli", "ping"]) "PONG") :
    rs.HealthCheck os w = (none, os.step (os.step w
      (.output true ["systemctl", "is-active", "redis"])) (.output true ["redis-cli", "ping"])) := by
  rcases ha : os.output w true ["systemctl", "is-active", "redis"] with ⟨o1, e1⟩
  rcases hp : os.output (os.step w (.output true ["systemctl", "is-active", "redis"])) true
      ["redis-cli", "ping"] with ⟨o2, e2⟩
  rw [ha] at h1
  rw [hp] at h2
  obtain ⟨rfl, h1⟩ := h1
  obtain ⟨rfl, h2⟩ := h2
  simp only at h1 h2
  simp [RedisService.HealthCheck, ha, hp, h1, h2]

theorem redis_Start_scenario (os : OS) (config : ServiceConfig) (w0 : World)
    (h : ScenarioA os config w0) :
    ((NewRedisService config).Start os w0).1 = none ∧
    launchRedis ∈ ((NewRedisService config).Start os w0).2.trace ∧
    ∀ c ∈ ((NewRedisService config).Start os w0).2.trace, c ∈ w0.trace ∨ c ∈ redisCalls := by
  rcases hc : ((NewRedisService config).HealthCheck os w0).1 with _ | e
  · exact absurd hc h.redis_down
  · have hrun := h.launches ((NewRedisService config).HealthCheck os w0).2
      ["sudo", "systemctl", "start", "redis"] (by simp)
    have hmem : launchRedis ∈ (os.step (os.step (os.step
        ((NewRedisService config).HealthCheck os w0).2
        (.run true ["sudo", "systemctl", "start", "redis"]))
        (.run true ["sudo", "systemctl", "enable", "redis"])) (.sleep (2 * Second))).trace := by
      simp [launchRedis]
    have hup1 := (h.redis_up _ hmem).1
    have hup2 := (h.redis_up (os.step (os.step (os.step (os.step
        ((NewRedisService config).HealthCheck os w0).2
        (.run true ["sudo", "systemctl", "start", "redis"]))
        (.run true ["sudo", "systemctl", "enable", "redis"])) (.sleep (2 * Second)))
        (.output true ["systemctl", "is-active", "redis"])) (by simp [launchRedis])).2
    have hstart : (NewRedisService config).Start os w0 =
        (none, os.step (os.step (os.step (os.step (os.step
        ((NewRedisService config).HealthCheck os w0).2
        (.run true ["sudo", "systemctl", "start", "redis"]))
        (.run true ["sudo", "systemctl", "enable", "redis"])) (.sleep (2 * Second)))
        (.output true ["systemctl", "is-active", "redis"]))
        (.output true ["redis-cli", "ping"])) := by
      simp only [RedisService.Start, hc, doRun_fst, doRun_snd, hrun, doSleep_eq]
      exact redis_HealthCheck_up os _ _ hup1 hup2
    rw [hstart]
    refine ⟨rfl, by simp [launchRedis], ?_⟩
    intro c hcmem
    simp only [step_trace, List.append_assoc, List.mem_append] at hcmem
    rcases hcmem with hcmem | hcmem
    · rcases redis_HealthCheck_trace os (NewRedisService config) w0 with ht | ht
      all_goals
        rw [ht] at hcmem
        rcases List.mem_append.1 hcmem with h1 | h1
        · exact Or.inl h1
        · right
          simp only [List.mem_cons, List.mem_singleton, List.not_mem_nil, or_false] at h1
          rcases h1 with rfl | rfl <;> simp [redisCalls]
    · right
      simp only [List.cons_append, List.nil_append, List.mem_cons, List.mem_singleton,
        List.not_mem_nil, or_false] at hcmem
      rcases hcmem with rfl | rfl | rfl | rfl | rfl <;> simp [redisCalls]

@[simp] theorem muraena_isRunning_snd (os : OS) (ms : MuraenaService) (w : World) :
    (ms.isRunning os w).2 = os.step w (.output false ["screen", "-list"]) := by
  simp only [MuraenaService.isRunning]
  split <;> rfl

@[simp] theorem necro_isRunning_snd (os : OS) (ns : NecroBrowserService) (w : World) :
    (ns.isRunning os w).2 = os.step w (.output false ["screen", "-list"]) := by
  simp only [NecroBrowserService.isRunning]
  split <;> rfl

theorem stat_exists_ne (os : OS) (w : World) (path : String)
    (h : ∃ modTime, os.stat w path = .ok modTime) : os.stat w path ≠ .notExist := by
  obtain ⟨t, ht⟩ := h
  rw [ht]
  simp

theorem muraena_Start_scenario (os : OS) (config : ServiceConfig) (w0 : World)
    (h : ScenarioA os config w0) (hx : ScenarioAExtra os config) (w : World)
    (hn : launchMuraena (NewMuraenaService config) ∉ w.trace) :
    ((NewMuraenaService config).Start os w).1 = none ∧
    ((NewMuraenaService config).Start os w).2.trace = w.trace ++
      [.output false ["screen", "-list"], .stat (NewMuraenaService config).binaryPath,
        .stat (NewMuraenaService config).configPath,
        .mkdirAll (Dir (NewMuraenaService config).logPath) 0o755,
        launchMuraena (NewMuraenaService config), .sleep (3 * Second),
        .output false ["screen", "-list"]] := by
  have hdown := h.muraena_down w hn
  have hbin : ∀ w, os.stat w (NewMuraenaService config).binaryPath ≠ .notExist :=
    fun w => stat_exists_ne os w _ (h.files w _ (by simp))
  have hcfg : ∀ w, os.stat w (NewMuraenaService config).configPath ≠ .notExist :=
    fun w => stat_exists_ne os w _ (h.files w _ (by simp))
  have hmk : ∀ w, os.mkdirAll w (Dir (NewMuraenaService config).logPath) 0o755 = none :=
    fun w => hx.mkdir w _ (by simp)
  have hl : ∀ w, os.run w true
      ["screen", "-dmS", "muraena", "bash", "-c", (NewMuraenaService config).screenCmd] = none :=
    fun w => h.launches w _ (by simp)
  have hup : ∀ w, launchMuraena (NewMuraenaService config) ∈ w.trace →
      ((NewMuraenaService config).isRunning os w).1 = true := fun w hw => (h.muraena_up w hw).1
  simp only [launchMuraena] at hup ⊢
  simp [MuraenaService.Start, hdown, hbin, hcfg, hmk, hl, hup]

theorem healthURL_eq (config : ServiceConfig) :
    (NewNecroBrowserService config).healthURL = "http://localhost:3000/health" := by
  show "http://localhost:" ++ toString (3000 : Nat) ++ "/health" = _
  decide

theorem localhost_80 : "localhost:" ++ toString (80 : Nat) = "localhost:80" := by decide

theorem localhost_443 : "localhost:" ++ toString (443 : Nat) = "localhost:443" := by decide

theorem localhost_3000 : "localhost:" ++ toString (3000 : Nat) = "localhost:3000" := by decide

theorem waitLoop_ready_at_once (os : OS) (ns : NecroBrowserService) (deadline fuel : Nat)
    (w : World) (hclock : w.clock < deadline) (hctx : os.ctxErr (os.step w .now) = none)
    (hget : os.httpGet (os.step (os.step w .now) .ctxDone) (2 * Second) ns.healthURL = .ok 200) :
    ns.waitLoop os deadline (fuel + 1) w =
      (none, os.step (os.step (os.step w .now) .ctxDone)
        (.httpGet (2 * Second) ns.healthURL)) := by
  simp [NecroBrowserService.waitLoop, hclock, hctx, hget]

theorem necro_Start_scenario (os : OS) (config : ServiceConfig) (w0 : World)
    (h : ScenarioA os config w0) (hx : ScenarioAExtra os config) (w : World)
    (hn : launchNecro (NewNecroBrowserService config) ∉ w.trace) :
    ((NewNecroBrowserService config).Start os w).1 = none ∧
    ((NewNecroBrowserService config).Start os w).2.trace = w.trace ++
      [.output false ["screen", "-list"], .stat (NewNecroBrowserService config).binaryPath,
        .stat (NewNecroBrowserService config).configPath,
        .mkdirAll (Dir (NewNecroBrowserService config).logPath) 0o755,
        launchNecro (NewNecroBrowserService config), .sleep (3 * Second),
        .output false ["screen", "-list"], .now, .now, .ctxDone,
        .httpGet (2 * Second) "http://localhost:3000/health"] := by
  have hdown := h.necro_down w hn
  have hbin : ∀ w, os.stat w (NewNecroBrowserService config).binaryPath ≠ .notExist :=
    fun w => stat_exists_ne os w _ (h.files w _ (by simp))
  have hcfg : ∀ w, os.stat w (NewNecroBrowserService config).configPath ≠ .notExist :=
    fun w => stat_exists_ne os w _ (h.files w _ (by simp))
  have hmk : ∀ w, os.mkdirAll w (Dir (NewNecroBrowserService config).logPath) 0o755 = none :=
    fun w => hx.mkdir w _ (by simp)
  have hl : ∀ w, os.run w true
      ["screen", "-dmS", "necro", "bash", "-c", (NewNecroBrowserService config).screenCmd]
        = none :=
    fun w => h.launches w _ (by simp)
  have hup : ∀ w, launchNecro (NewNecroBrowserService config) ∈ w.trace →
      ((NewNecroBrowserService config).isRunning os w).1 = true :=
    fun w hw => (h.necro_up w hw).1
  have hget : ∀ w, launchNecro (NewNecroBrowserService config) ∈ w.trace →
      os.httpGet w (2 * Second) (NewNecroBrowserService config).healthURL = .ok 200 := by
    intro w hw
    rw [healthURL_eq]
    exact (h.necro_up w hw).2.2 _
  have hwait : ∀ w, launchNecro (NewNecroBrowserService config) ∈ w.trace →
      (NewNecroBrowserService config).waitForAPI os (30 * Second) w =
        (none, os.step (os.step (os.step (os.step w .now) .now) .ctxDone)
          (.httpGet (2 * Second) "http://localhost:3000/health")) := by
    intro w hw
    simp only [NecroBrowserService.waitForAPI, doNow_fst, doNow_snd]
    rw [waitLoop_ready_at_once os _ _ _ _ _ (hx.ctx _) (hget _ (by simp [hw])), healthURL_eq]
    have := hx.clock w
    simp only [OS.step]
    omega
  simp only [launchNecro] at hup hwait ⊢
  simp [NecroBrowserService.Start, hdown, hbin, hcfg, hmk, hl, hup, hwait]

theorem redis_health_up (os : OS) (config : ServiceConfig) (w0 : World)
    (h : ScenarioA os config w0) (w : World) (hw : launchRedis ∈ w.trace) :
    ((NewRedisService config).HealthCheck os w).1 = none ∧
    w.trace ⊆ ((NewRedisService config).HealthCheck os w).2.trace := by
  rw [redis_HealthCheck_up os _ w (h.redis_up w hw).1 (h.redis_up _ (by simp [hw])).2]
  refine ⟨rfl, ?_⟩
  intro c hc
  simp [hc]

@[simp] theorem muraena_isPortListening_snd (os : OS) (ms : MuraenaService) (port : Nat)
    (w : World) :
    (ms.isPortListening os port w).2 =
      os.step w (.dial "tcp" ("localhost:" ++ toString port) (2 * Second)) := by
  simp only [MuraenaService.isPortListening]
  split <;> rfl

@[simp] theorem necro_isPortListening_snd (os : OS) (ns : NecroBrowserService) (port : Nat)
    (w : World) :
    (ns.isPortListening os port w).2 =
      os.step w (.dial "tcp" ("localhost:" ++ toString port) (2 * Second)) := by
  simp only [NecroBrowserService.isPortListening]
  split <;> rfl

theorem muraena_health_up (os : OS) (config : ServiceConfig) (w0 : World)
    (h : ScenarioA os config w0) (w : World)
    (hw : launchMuraena (NewMuraenaService config) ∈ w.trace) :
    ((NewMuraenaService config).HealthCheck os w).1 = none ∧
    w.trace ⊆ ((NewMuraenaService config).HealthCheck os w).2.trace := by
  have hrun := (h.muraena_up w hw).1
  have h80 : ∀ w, launchMuraena (NewMuraenaService config) ∈ w.trace →
      ((NewMuraenaService config).isPortListening os 80 w).1 = true := by
    intro w hw
    simp [MuraenaService.isPortListening, localhost_80, (h.muraena_up w hw).2.1]
  have h443 : ∀ w, launchMuraena (NewMuraenaService config) ∈ w.trace →
      ((NewMuraenaService config).isPortListening os 443 w).1 = true := by
    intro w hw
    simp [MuraenaService.isPortListening, localhost_443, (h.muraena_up w hw).2.2.1]
  have hports : (NewMuraenaService config).checkPorts os [80, 443]
      (os.step w (.output false ["screen", "-list"])) =
      (none, os.step (os.step (os.step w (.output false ["screen", "-list"]))
        (.dial "tcp" "localhost:80" (2 * Second))) (.dial "tcp" "localhost:443" (2 * Second))) := by
    simp [MuraenaService.checkPorts, h80 _ (show launchMuraena (NewMuraenaService config) ∈
        (os.step w (.output false ["screen", "-list"])).trace by simp [hw]),
      h443 _ (show launchMuraena (NewMuraenaService config) ∈
        (os.step (os.step w (.output false ["screen", "-list"]))
          (.dial "tcp" "localhost:80" (2 * Second))).trace by simp [hw]),
      localhost_80, localhost_443]
  have hlog := (h.muraena_up (os.step (os.step (os.step w (.output false ["screen", "-list"]))
        (.dial "tcp" "localhost:80" (2 * Second))) (.dial "tcp" "localhost:443" (2 * Second)))
        (by simp [hw])).2.2.2
  simp only [MuraenaService.HealthCheck, hrun, muraena_isRunning_snd, hports]
  rcases hs : os.stat (os.step (os.step (os.step w (.output false ["screen", "-list"]))
        (.dial "tcp" "localhost:80" (2 * Second))) (.dial "tcp" "localhost:443" (2 * Second)))
        (NewMuraenaService config).logPath with t | _ | e
  · have hfresh := hlog t hs
    have hnot : ¬ (os.wallNow (os.step (os.step (os.step (os.step w
        (.output false ["screen", "-list"])) (.dial "tcp" "localhost:80" (2 * Second)))
        (.dial "tcp" "localhost:443" (2 * Second))) (.stat (NewMuraenaService config).logPath))
        - t > ((5 * Minute : Nat) : Int)) := not_lt.2 hfresh
    simp only [doStat_fst, doStat_snd, hs, doNow_fst, doNow_snd]
    rw [if_neg hnot]
    refine ⟨by simp, ?_⟩
    intro c hc
    simp [hc]
  all_goals
    simp only [doStat_fst, doStat_snd, hs]
    refine ⟨by simp, ?_⟩
    intro c hc
    simp [hc]

theorem necro_health_up (os : OS) (config : ServiceConfig) (w0 : World)
    (h : ScenarioA os config w0) (w : World)
    (hw : launchNecro (NewNecroBrowserService config) ∈ w.trace) :
    ((NewNecroBrowserService config).HealthCheck os w).1 = none ∧
    w.trace ⊆ ((NewNecroBrowserService config).HealthCheck os w).2.trace := by
  have hrun := (h.necro_up w hw).1
  have hport : ((NewNecroBrowserService config).isPortListening os 3000
      (os.step w (.output false ["screen", "-list"]))).1 = true := by
    simp [NecroBrowserService.isPortListening, localhost_3000,
      (h.necro_up (os.step w (.output false ["screen", "-list"])) (by simp [hw])).2.1]
  have hget := (h.necro_up (os.step (os.step w (.output false ["screen", "-list"]))
      (.dial "tcp" ("localhost:" ++ toString (3000 : Nat)) (2 * Second))) (by simp [hw])).2.2
      (5 * Second)
  have hport3000 : (NewNecroBrowserService config).apiPort = 3000 := rfl
  simp only [NecroBrowserService.HealthCheck, hrun, necro_isRunning_snd, hport3000, hport,
    necro_isPortListening_snd, healthURL_eq, doHttpGet_fst, doHttpGet_snd, hget]
  refine ⟨by simp, ?_⟩
  intro c hc
  simp [hc]

theorem VerifyAll_step_passes {S : Type} (m : Manager S) (name : String) (rest : List String)
    (service : Service S) (s : MState S) (hget : mapGet m.services name = some service)
    (h : (service.HealthCheck s.inner).1 = none) :
    m.VerifyAll (name :: rest) s =
      m.VerifyAll rest { inner := (service.HealthCheck s.inner).2,
                         log := s.log ++ [passed name] } := by
  simp [Manager.VerifyAll, hget, invoke, h, passed]

theorem VerifyAll_step_skips {S : Type} (m : Manager S) (name : String) (rest : List String)
    (s : MState S) (hget : mapGet m.services name = none) :
    m.VerifyAll (name :: rest) s = m.VerifyAll rest s := by
  simp [Manager.VerifyAll, hget]

theorem VerifyAll_all_up (os : OS) (config : ServiceConfig) (w0 : World)
    (h : ScenarioA os config w0) (visit : List String) (s : MState World)
    (hup : AllUp config s.inner) :
    ((registerServices config os.doSleep ((NewRedisService config).toService os)
      ((NewMuraenaService config).toService os)
      ((NewNecroBrowserService config).toService os)).VerifyAll visit s).1 = none := by
  induction visit generalizing s with
  | nil => rfl
  | cons name rest ih =>
    obtain ⟨hr, hm, hn⟩ := hup
    by_cases h1 : name = "redis"
    · obtain ⟨hres, hsub⟩ := redis_health_up os config w0 h s.inner hr
      subst h1
      rw [VerifyAll_step_passes _ _ _ _ _ (mapGet_redis ..) hres]
      exact ih _ ⟨hsub hr, hsub hm, hsub hn⟩
    · by_cases h2 : name = "muraena"
      · obtain ⟨hres, hsub⟩ := muraena_health_up os config w0 h s.inner hm
        subst h2
        rw [VerifyAll_step_passes _ _ _ _ _ (mapGet_muraena ..) hres]
        exact ih _ ⟨hsub hr, hsub hm, hsub hn⟩
      · by_cases h3 : name = "necrobrowser"
        · obtain ⟨hres, hsub⟩ := necro_health_up os config w0 h s.inner hn
          subst h3
          rw [VerifyAll_step_passes _ _ _ _ _ (mapGet_necrobrowser ..) hres]
          exact ih _ ⟨hsub hr, hsub hm, hsub hn⟩
        · rw [VerifyAll_step_skips _ _ _ _ (by simp [mapGet_register, h1, h2, h3])]
          exact ih s ⟨hr, hm, hn⟩

theorem StartAll_scenario (os : OS) (config : Option ServiceConfig) (clock : Nat)
    (h : ScenarioA os (orDefault config) { trace := [], clock := clock })
    (hx : ScenarioAExtra os (orDefault config)) (visit : List String) :
    ((NewManager os config).StartAll visit
      { inner := { trace := [], clock := clock }, log := [] }).1 = none := by
  obtain ⟨hr1, hr2, hr3⟩ := redis_Start_scenario os (orDefault config) _ h
  have hredis : ∀ c ∈ (afterFirst os.doSleep ((NewRedisService (orDefault config)).toService os)
      { trace := [], clock := clock }).trace, c ∈ redisCalls := by
    intro c hc
    simp only [afterFirst, doSleep_eq, step_trace, List.mem_append, List.mem_singleton] at hc
    rcases hc with hc | rfl
    · rcases hr3 c hc with hc | hc
      · simp at hc
      · exact hc
    · simp [redisCalls]
  have hnoM : launchMuraena (NewMuraenaService (orDefault config)) ∉
      (afterFirst os.doSleep ((NewRedisService (orDefault config)).toService os)
        { trace := [], clock := clock }).trace := by
    intro hc
    have := hredis _ hc
    simp [redisCalls, launchMuraena] at this
  have hnoN : launchNecro (NewNecroBrowserService (orDefault config)) ∉
      (afterFirst os.doSleep ((NewRedisService (orDefault config)).toService os)
        { trace := [], clock := clock }).trace := by
    intro hc
    have := hredis _ hc
    simp [redisCalls, launchNecro] at this
  have hR1 : launchRedis ∈
      (afterFirst os.doSleep ((NewRedisService (orDefault config)).toService os)
        { trace := [], clock := clock }).trace := by
    simp only [afterFirst, doSleep_eq, step_trace, List.mem_append]
    exact Or.inl hr2
  obtain ⟨hm1, hm2⟩ := muraena_Start_scenario os (orDefault config) _ h hx _ hnoM
  have hnoN2 : launchNecro (NewNecroBrowserService (orDefault config)) ∉
      (afterSecond os.doSleep ((NewRedisService (orDefault config)).toService os)
        ((NewMuraenaService (orDefault config)).toService os)
        { trace := [], clock := clock }).trace := by
    simp only [afterSecond, doSleep_eq, step_trace, MuraenaService.toService, hm2]
    simp only [launchNecro, launchMuraena] at hnoN ⊢
    simp [hnoN]
  obtain ⟨hn1, hn2⟩ := necro_Start_scenario os (orDefault config) _ h hx _ hnoN2
  have hup : AllUp (orDefault config)
      (afterThird os.doSleep ((NewRedisService (orDefault config)).toService os)
        ((NewMuraenaService (orDefault config)).toService os)
        ((NewNecroBrowserService (orDefault config)).toService os)
        { trace := [], clock := clock }) := by
    refine ⟨?_, ?_, ?_⟩
    · simp only [afterThird, doSleep_eq, step_trace, NecroBrowserService.toService, hn2]
      simp only [afterSecond, doSleep_eq, step_trace, MuraenaService.toService, hm2]
      simp [hR1]
    · simp only [afterThird, doSleep_eq, step_trace, NecroBrowserService.toService, hn2]
      simp only [afterSecond, doSleep_eq, step_trace, MuraenaService.toService, hm2]
      simp
    · simp only [afterThird, doSleep_eq, step_trace, NecroBrowserService.toService, hn2]
      simp
  show ((registerServices (orDefault config) os.doSleep
      ((NewRedisService (orDefault config)).toService os)
      ((NewMuraenaService (orDefault config)).toService os)
      ((NewNecroBrowserService (orDefault config)).toService os)).StartAll visit
      { inner := { trace := [], clock := clock }, log := [] }).1 = none
  rw [StartAll_of_startLoop_succeeds _ _ _ _
    (startLoop_all_succeed _ _ _ _ _ _ hr1 hm1 hn1)]
  exact VerifyAll_all_up os (orDefault config) _ h visit _ hup

theorem step_clock_le (os : OS) (w : World) (c : OSCall) : w.clock ≤ (os.step w c).clock := by
  simp only [OS.step]
  omega

theorem step_sleep_clock (os : OS) (w : World) (d : Nat) :
    w.clock + d ≤ (os.step w (.sleep d)).clock := by
  simp only [OS.step]
  omega

theorem waitLoop_fuel (os : OS) (ns : NecroBrowserService) (deadline fuel extra : Nat)
    (w : World) (h : deadline ≤ w.clock + fuel * Second) :
    ns.waitLoop os deadline (fuel + extra) w = ns.waitLoop os deadline fuel w := by
  induction fuel generalizing w with
  | zero =>
    cases extra with
    | zero => rfl
    | succ k =>
      have hlt : ¬ w.clock < deadline := by omega
      simp [NecroBrowserService.waitLoop, hlt]
  | succ n ih =>
    have hrec : ∀ w2 : World, w.clock ≤ w2.clock →
        ns.waitLoop os deadline (n + extra) (os.step w2 (.sleep (1 * Second))) =
        ns.waitLoop os deadline n (os.step w2 (.sleep (1 * Second))) := by
      intro w2 hw2
      apply ih
      have := step_sleep_clock os w2 (1 * Second)
      have hmul : (n + 1) * Second = n * Second + 1 * Second := by ring
      omega
    have hw3 : w.clock ≤ (os.step (os.step (os.step w .now) .ctxDone)
        (.httpGet (2 * Second) ns.healthURL)).clock :=
      le_trans (le_trans (step_clock_le os w _) (step_clock_le os _ _)) (step_clock_le os _ _)
    rw [show n + 1 + extra = (n + extra) + 1 by omega]
    simp only [NecroBrowserService.waitLoop, doNow_fst, doNow_snd, doCtxDone_fst, doCtxDone_snd,
      doHttpGet_fst, doHttpGet_snd, doSleep_eq, hrec _ hw3]

theorem waitForAPI_fuel (os : OS) (ns : NecroBrowserService) (timeout extra : Nat) (w : World) :
    ns.waitLoop os (w.clock + timeout) (timeout / Second + 1 + extra) (os.step w .now) =
      (ns.waitForAPI os timeout w) := by
  simp only [NecroBrowserService.waitForAPI, doNow_fst, doNow_snd]
  apply waitLoop_fuel
  have h1 := step_clock_le os w .now
  have h2 : timeout < (timeout / Second + 1) * Second :=
    Nat.lt_mul_of_div_lt (Nat.lt_succ_self _) (by decide)
  omega

theorem sessionListing_muraena (m n : Bool) : Contains (sessionListing m n) "muraena" = m := by
  cases m <;> cases n <;> decide

theorem sessionListing_necro (m n : Bool) : Contains (sessionListing m n) "necro" = n := by
  cases m <;> cases n <;> decide

theorem scenarioHost_scenario (config : ServiceConfig) (b : Flaw) (clock : Nat) :
    ScenarioA (scenarioHost config b) config { trace := [], clock := clock } where
  redis_down := by
    simp [RedisService.HealthCheck, scenarioHost]
  muraena_down := by
    intro w hw
    simp [MuraenaService.isRunning, scenarioHost, sessionListing_muraena, hw]
  necro_down := by
    intro w hw
    simp [NecroBrowserService.isRunning, scenarioHost, sessionListing_necro, hw]
  files := fun _ _ _ => ⟨0, rfl⟩
  launches := fun _ _ _ => rfl
  redis_up := by
    intro w hw
    constructor
    · have hactive : (scenarioHost config b).output w true ["systemctl", "is-active", "redis"] =
          ("active\n", none) := by
        simp [scenarioHost, hw]
      rw [hactive]
      exact ⟨rfl, by decide⟩
    · have hping : (scenarioHost config b).output w true ["redis-cli", "ping"] =
          ("PONG\n", none) := by
        simp [scenarioHost]
      rw [hping]
      exact ⟨rfl, by decide⟩
  muraena_up := by
    intro w hw
    refine ⟨?_, ?_, ?_, ?_⟩
    · simp [MuraenaService.isRunning, scenarioHost, sessionListing_muraena, hw]
    · simp [scenarioHost, hw]
    · simp [scenarioHost, hw]
    · intro t ht
      simp only [scenarioHost] at ht ⊢
      cases ht
      decide
  necro_up := by
    intro w hw
    refine ⟨?_, ?_, ?_⟩
    · simp [NecroBrowserService.isRunning, scenarioHost, sessionListing_necro, hw]
    · simp [scenarioHost, hw]
    · intro t
      simp [scenarioHost, hw]

theorem scenarioHost_extra (config : ServiceConfig) :
    ScenarioAExtra (scenarioHost config .nothing) config where
  mkdir := fun _ _ _ => rfl
  ctx := fun _ => rfl
  clock := fun _ => by
    show 0 < 30 * Second
    decide

theorem StartAll_scenario_log (os : OS) (config : Option ServiceConfig) (clock : Nat)
    (h : ScenarioA os (orDefault config) { trace := [], clock := clock })
    (hx : ScenarioAExtra os (orDefault config)) (visit : List String) :
    callsOf .Start ((NewManager os config).StartAll visit
      { inner := { trace := [], clock := clock }, log := [] }).2.log =
        ["redis", "muraena", "necrobrowser"] := by
  obtain ⟨new, hlog, hcalls⟩ := StartAll_success_log (orDefault config) os.doSleep
    ((NewRedisService (orDefault config)).toService os)
    ((NewMuraenaService (orDefault config)).toService os)
    ((NewNecroBrowserService (orDefault config)).toService os) visit
    { inner := { trace := [], clock := clock }, log := [] }
    (StartAll_scenario os config clock h hx visit)
  have hlog2 : ((NewManager os config).StartAll visit
      { inner := { trace := [], clock := clock }, log := [] }).2.log = new := by
    simpa using hlog
  rw [hlog2, hcalls]

/-- C6, as stated, fails. The host `scenarioHost DefaultServiceConfig .mkdirFails`
meets every condition of Scenario A (nothing runs before its launch, every
binary and config file exists, every launch command succeeds, every probe
after a launch succeeds), but the directory for the automation-worker log
cannot be created: `StartAll` returns the error of the `Start` of
necrobrowser instead of success. -/
theorem StartAll_scenario_A_counterexample :
    ScenarioA (scenarioHost DefaultServiceConfig .mkdirFails) (orDefault none)
      { trace := [], clock := 0 } ∧
    ((NewManager (scenarioHost DefaultServiceConfig .mkdirFails) none).StartAll
        ["redis", "muraena", "necrobrowser"] freshHost).1 =
      some (.wrapf "failed to start necrobrowser: "
        (.wrapf "failed to create log directory: " (.errorf "permission denied"))) :=
  ⟨scenarioHost_scenario DefaultServiceConfig .mkdirFails 0, by decide⟩

/-- C6, amended. On every host that meets the conditions of Scenario A and on
which, moreover, both log directories can be created, the context is not
cancelled and a reading of the clock takes less than 30 seconds, `StartAll`
(for any configuration, from a fresh run, with any visiting order of its
`VerifyAll`) returns success, and the `Start` calls in its log are those on
redis, muraena and necrobrowser, in that order. -/
theorem StartAll_scenario_A (os : OS) (config : Option ServiceConfig) (clock : Nat)
    (h : ScenarioA os (orDefault config) { trace := [], clock := clock })
    (hx : ScenarioAExtra os (orDefault config)) (visit : List String) :
    ((NewManager os config).StartAll visit
      { inner := { trace := [], clock := clock }, log := [] }).1 = none ∧
    callsOf .Start ((NewManager os config).StartAll visit
      { inner := { trace := [], clock := clock }, log := [] }).2.log =
        ["redis", "muraena", "necrobrowser"] :=
  ⟨StartAll_scenario os config clock h hx visit, StartAll_scenario_log os config clock h hx visit⟩

/-- Witness of C6, amended: the host of Scenario A on which nothing goes wrong,
with the default configuration. -/
theorem StartAll_scenario_A_witness :
    ScenarioA (scenarioHost DefaultServiceConfig .nothing) (orDefault none)
      { trace := [], clock := 0 } ∧
    ScenarioAExtra (scenarioHost DefaultServiceConfig .nothing) (orDefault none) ∧
    ((NewManager (scenarioHost DefaultServiceConfig .nothing) none).StartAll
        ["necrobrowser", "redis", "muraena"]
        { inner := { trace := [], clock := 0 }, log := [] }).1 = none ∧
    callsOf .Start ((NewManager (scenarioHost DefaultServiceConfig .nothing) none).StartAll
        ["necrobrowser", "redis", "muraena"]
        { inner := { trace := [], clock := 0 }, log := [] }).2.log =
      ["redis", "muraena", "necrobrowser"] :=
  ⟨scenarioHost_scenario DefaultServiceConfig .nothing 0,
    scenarioHost_extra DefaultServiceConfig,
    StartAll_scenario_A (scenarioHost DefaultServiceConfig .nothing) none 0
      (scenarioHost_scenario DefaultServiceConfig .nothing 0)
      (scenarioHost_extra DefaultServiceConfig) ["necrobrowser", "redis", "muraena"]⟩

/-- The two other conditions of the amended C6 are needed as well: on the host
of Scenario A where the context is cancelled during the readiness wait, and on
the one where a reading of the clock takes 30 seconds, `StartAll` fails in the
`Start` of necrobrowser. -/
theorem readiness_wait_needs_ctx_and_clock :
    (ScenarioA (scenarioHost DefaultServiceConfig .ctxCancelled) (orDefault none)
        { trace := [], clock := 0 } ∧
      ((NewManager (scenarioHost DefaultServiceConfig .ctxCancelled) none).StartAll
          ["redis", "muraena", "necrobrowser"] freshHost).1 =
        some (.wrapf "failed to start necrobrowser: "
          (.wrapf "necrobrowser API not ready: " (.errorf "context canceled")))) ∧
    (ScenarioA (scenarioHost DefaultServiceConfig .clockStalls) (orDefault none)
        { trace := [], clock := 0 } ∧
      ((NewManager (scenarioHost DefaultServiceConfig .clockStalls) none).StartAll
          ["redis", "muraena", "necrobrowser"] freshHost).1 =
        some (.wrapf "failed to start necrobrowser: "
          (.wrapf "necrobrowser API not ready: "
            (.errorf "timeout waiting for API to be ready")))) :=
  ⟨⟨scenarioHost_scenario DefaultServiceConfig .ctxCancelled 0, by decide⟩,
    ⟨scenarioHost_scenario DefaultServiceConfig .clockStalls 0, by decide⟩⟩

/-! ## The adapters: Stop, Start and Restart (C11 to C15) -/

theorem muraena_Stop_stopped (os : OS) (ms : MuraenaService) (w : World)
    (h : (ms.isRunning os w).1 = false) :
    ms.Stop os w = (none, os.step w (.output false ["screen", "-list"])) := by
  simp [MuraenaService.Stop, h]

theorem necro_Stop_stopped (os : OS) (ns : NecroBrowserService) (w : World)
    (h : (ns.isRunning os w).1 = false) :
    ns.Stop os w = (none, os.step w (.output false ["screen", "-list"])) := by
  simp [NecroBrowserService.Stop, h]

theorem redis_Stop_world (os : OS) (rs : RedisService) (w : World) :
    (rs.Stop os w).2 = os.step w (.run true ["sudo", "systemctl", "stop", "redis"]) := by
  simp only [RedisService.Stop]
  split <;> rfl

theorem redis_Stop_result (os : OS) (rs : RedisService) (w : World) :
    (rs.Stop os w).1 =
      (os.run w true ["sudo", "systemctl", "stop", "redis"]).map
        (GoError.wrapf "failed to stop redis: ") := by
  simp only [RedisService.Stop, doRun_fst]
  split <;> simp_all

/-- C11, as stated, fails for the data store. On the host `bareHost` the data
store reports not-running (`GetStatus` has `Running = false`), and yet `Stop`
issues the stop command of the service manager, and returns its failure
instead of success. -/
theorem Stop_idempotent_counterexample :
    ((NewRedisService DefaultServiceConfig).GetStatus bareHost freshWorld).1.Running = false ∧
    ((NewRedisService DefaultServiceConfig).Stop bareHost freshWorld).2.trace =
      [.run true ["sudo", "systemctl", "stop", "redis"]] ∧
    ((NewRedisService DefaultServiceConfig).Stop bareHost freshWorld).1 =
      some (.wrapf "failed to stop redis: " (.errorf "exit status 5")) := by
  decide

/-- C11, amended. For the proxy and the automation worker, on every host and in
every world in which the session listing shows no session, `Stop` returns
success and its only request is that listing: no termination command and no
grace wait. The `Stop` of the data store has no such check: in every world its
one request is the stop command of the service manager, without a grace wait,
and it returns success exactly when that command succeeds. -/
theorem Stop_idempotent (os : OS) (rs : RedisService) (ms : MuraenaService)
    (ns : NecroBrowserService) (w : World) :
    ((ms.isRunning os w).1 = false →
      ms.Stop os w = (none, os.step w (.output false ["screen", "-list"]))) ∧
    ((ns.isRunning os w).1 = false →
      ns.Stop os w = (none, os.step w (.output false ["screen", "-list"]))) ∧
    (rs.Stop os w).2 = os.step w (.run true ["sudo", "systemctl", "stop", "redis"]) ∧
    ((rs.Stop os w).1 = none ↔ os.run w true ["sudo", "systemctl", "stop", "redis"] = none) := by
  refine ⟨muraena_Stop_stopped os ms w, necro_Stop_stopped os ns w, redis_Stop_world os rs w, ?_⟩
  rw [redis_Stop_result]
  cases os.run w true ["sudo", "systemctl", "stop", "redis"] <;> simp

/-- Witness of C11, amended: on the host `bareHost` no session is listed, and
the `Stop` of the proxy and of the automation worker only ask for the listing. -/
theorem Stop_idempotent_witness :
    (NewMuraenaService DefaultServiceConfig).Stop bareHost freshWorld =
      (none, bareHost.step freshWorld (.output false ["screen", "-list"])) ∧
    (NewNecroBrowserService DefaultServiceConfig).Stop bareHost freshWorld =
      (none, bareHost.step freshWorld (.output false ["screen", "-list"])) :=
  ⟨(Stop_idempotent bareHost (NewRedisService DefaultServiceConfig)
      (NewMuraenaService DefaultServiceConfig) (NewNecroBrowserService DefaultServiceConfig)
      freshWorld).1 (by decide),
    (Stop_idempotent bareHost (NewRedisService DefaultServiceConfig)
      (NewMuraenaService DefaultServiceConfig) (NewNecroBrowserService DefaultServiceConfig)
      freshWorld).2.1 (by decide)⟩

theorem redis_HealthCheck_pass_world (os : OS) (rs : RedisService) (w : World)
    (h : (rs.HealthCheck os w).1 = none) :
    (rs.HealthCheck os w).2 = os.step (os.step w
      (.output true ["systemctl", "is-active", "redis"])) (.output true ["redis-cli", "ping"]) := by
  simp only [RedisService.HealthCheck] at h ⊢
  repeat' split
  all_goals first
    | rfl
    | simp_all

theorem redis_Start_running (os : OS) (rs : RedisService) (w : World)
    (h : (rs.HealthCheck os w).1 = none) :
    rs.Start os w = (some (.errorf "redis is already running"),
      os.step (os.step w (.output true ["systemctl", "is-active", "redis"]))
        (.output true ["redis-cli", "ping"])) := by
  simp only [RedisService.Start, h, redis_HealthCheck_pass_world os rs w h]

theorem muraena_Start_running (os : OS) (ms : MuraenaService) (w : World)
    (h : (ms.isRunning os w).1 = true) :
    ms.Start os w = (some (.errorf "muraena is already running"),
      os.step w (.output false ["screen", "-list"])) := by
  simp [MuraenaService.Start, h]

theorem necro_Start_running (os : OS) (ns : NecroBrowserService) (w : World)
    (h : (ns.isRunning os w).1 = true) :
    ns.Start os w = (some (.errorf "necrobrowser is already running"),
      os.step w (.output false ["screen", "-list"])) := by
  simp [NecroBrowserService.Start, h]

/-- C12. On every host and in every world: when the data store passes its
`HealthCheck`, the `Start` of the data store returns "redis is already
running" and its only requests are the two probes of that check; when the
session listing shows the session of the proxy (of the automation worker),
its `Start` returns "muraena is already running" ("necrobrowser is already
running") and its only request is that listing. No start command is issued
and no file or directory is checked or created. -/
theorem Start_already_running (os : OS) (rs : RedisService) (ms : MuraenaService)
    (ns : NecroBrowserService) (w : World) :
    ((rs.HealthCheck os w).1 = none →
      rs.Start os w = (some (.errorf "redis is already running"),
        os.step (os.step w (.output true ["systemctl", "is-active", "redis"]))
          (.output true ["redis-cli", "ping"]))) ∧
    ((ms.isRunning os w).1 = true →
      ms.Start os w = (some (.errorf "muraena is already running"),
        os.step w (.output false ["screen", "-list"]))) ∧
    ((ns.isRunning os w).1 = true →
      ns.Start os w = (some (.errorf "necrobrowser is already running"),
        os.step w (.output false ["screen", "-list"]))) :=
  ⟨redis_Start_running os rs w, muraena_Start_running os ms w, necro_Start_running os ns w⟩

/-- Witness of C12: the three adapters on a host where the three services have
been launched. -/
theorem Start_already_running_witness :
    ((NewRedisService DefaultServiceConfig).Start (scenarioHost DefaultServiceConfig .nothing)
      (launchedWorld DefaultServiceConfig)).1 = some (.errorf "redis is already running") ∧
    ((NewMuraenaService DefaultServiceConfig).Start (scenarioHost DefaultServiceConfig .nothing)
      (launchedWorld DefaultServiceConfig)).1 = some (.errorf "muraena is already running") ∧
    ((NewNecroBrowserService DefaultServiceConfig).Start
      (scenarioHost DefaultServiceConfig .nothing)
      (launchedWorld DefaultServiceConfig)).1 =
        some (.errorf "necrobrowser is already running") :=
  ⟨congrArg Prod.fst ((Start_already_running (scenarioHost DefaultServiceConfig .nothing)
      (NewRedisService DefaultServiceConfig) (NewMuraenaService DefaultServiceConfig)
      (NewNecroBrowserService DefaultServiceConfig) (launchedWorld DefaultServiceConfig)).1
      (by decide)),
    congrArg Prod.fst ((Start_already_running (scenarioHost DefaultServiceConfig .nothing)
      (NewRedisService DefaultServiceConfig) (NewMuraenaService DefaultServiceConfig)
      (NewNecroBrowserService DefaultServiceConfig) (launchedWorld DefaultServiceConfig)).2.1
      (by decide)),
    congrArg Prod.fst ((Start_already_running (scenarioHost DefaultServiceConfig .nothing)
      (NewRedisService DefaultServiceConfig) (NewMuraenaService DefaultServiceConfig)
      (NewNecroBrowserService DefaultServiceConfig) (launchedWorld DefaultServiceConfig)).2.2
      (by decide))⟩

theorem muraena_Start_no_binary (os : OS) (ms : MuraenaService) (w : World)
    (hdown : (ms.isRunning os w).1 = false)
    (hbin : os.stat (os.step w (.output false ["screen", "-list"])) ms.binaryPath = .notExist) :
    ms.Start os w = (some (.errorf ("muraena binary not found: " ++ ms.binaryPath)),
      os.step (os.step w (.output false ["screen", "-list"])) (.stat ms.binaryPath)) := by
  simp [MuraenaService.Start, hdown, hbin]

theorem muraena_Start_no_config (os : OS) (ms : MuraenaService) (w : World)
    (hdown : (ms.isRunning os w).1 = false)
    (hbin : os.stat (os.step w (.output false ["screen", "-list"])) ms.binaryPath ≠ .notExist)
    (hcfg : os.stat (os.step (os.step w (.output false ["screen", "-list"]))
      (.stat ms.binaryPath)) ms.configPath = .notExist) :
    ms.Start os w = (some (.errorf ("muraena config not found: " ++ ms.configPath)),
      os.step (os.step (os.step w (.output false ["screen", "-list"])) (.stat ms.binaryPath))
        (.stat ms.configPath)) := by
  simp [MuraenaService.Start, hdown, hbin, hcfg]

theorem necro_Start_no_binary (os : OS) (ns : NecroBrowserService) (w : World)
    (hdown : (ns.isRunning os w).1 = false)
    (hbin : os.stat (os.step w (.output false ["screen", "-list"])) ns.binaryPath = .notExist) :
    ns.Start os w = (some (.errorf ("necrobrowser binary not found: " ++ ns.binaryPath)),
      os.step (os.step w (.output false ["screen", "-list"])) (.stat ns.binaryPath)) := by
  simp [NecroBrowserService.Start, hdown, hbin]

theorem necro_Start_no_config (os : OS) (ns : NecroBrowserService) (w : World)
    (hdown : (ns.isRunning os w).1 = false)
    (hbin : os.stat (os.step w (.output false ["screen", "-list"])) ns.binaryPath ≠ .notExist)
    (hcfg : os.stat (os.step (os.step w (.output false ["screen", "-list"]))
      (.stat ns.binaryPath)) ns.configPath = .notExist) :
    ns.Start os w = (some (.errorf ("necrobrowser config not found: " ++ ns.configPath)),
      os.step (os.step (os.step w (.output false ["screen", "-list"])) (.stat ns.binaryPath))
        (.stat ns.configPath)) := by
  simp [NecroBrowserService.Start, hdown, hbin, hcfg]

/-- C13. For the proxy and for the automation worker, on every host and in every
world in which the session listing shows no session: when `os.Stat` reports
that the file at `binaryPath` does not exist, `Start` returns "<service>
binary not found: <binaryPath>" after the listing and that one `os.Stat`;
when it does not report so and `os.Stat` reports that the file at `configPath`
does not exist, `Start` returns "<service> config not found: <configPath>"
after the listing and the two `os.Stat`. In both cases nothing else is
requested: no session is launched and no directory is created. -/
theorem Start_missing_files (os : OS) (ms : MuraenaService) (ns : NecroBrowserService)
    (w : World) :
    ((ms.isRunning os w).1 = false →
      (os.stat (os.step w (.output false ["screen", "-list"])) ms.binaryPath = .notExist →
        ms.Start os w = (some (.errorf ("muraena binary not found: " ++ ms.binaryPath)),
          os.step (os.step w (.output false ["screen", "-list"])) (.stat ms.binaryPath))) ∧
      (os.stat (os.step w (.output false ["screen", "-list"])) ms.binaryPath ≠ .notExist →
        os.stat (os.step (os.step w (.output false ["screen", "-list"]))
          (.stat ms.binaryPath)) ms.configPath = .notExist →
        ms.Start os w = (some (.errorf ("muraena config not found: " ++ ms.configPath)),
          os.step (os.step (os.step w (.output false ["screen", "-list"]))
            (.stat ms.binaryPath)) (.stat ms.configPath)))) ∧
    ((ns.isRunning os w).1 = false →
      (os.stat (os.step w (.output false ["screen", "-list"])) ns.binaryPath = .notExist →
        ns.Start os w = (some (.errorf ("necrobrowser binary not found: " ++ ns.binaryPath)),
          os.step (os.step w (.output false ["screen", "-list"])) (.stat ns.binaryPath))) ∧
      (os.stat (os.step w (.output false ["screen", "-list"])) ns.binaryPath ≠ .notExist →
        os.stat (os.step (os.step w (.output false ["screen", "-list"]))
          (.stat ns.binaryPath)) ns.configPath = .notExist →
        ns.Start os w = (some (.errorf ("necrobrowser config not found: " ++ ns.configPath)),
          os.step (os.step (os.step w (.output false ["screen", "-list"]))
            (.stat ns.binaryPath)) (.stat ns.configPath)))) :=
  ⟨fun hdown => ⟨muraena_Start_no_binary os ms w hdown, muraena_Start_no_config os ms w hdown⟩,
    fun hdown => ⟨necro_Start_no_binary os ns w hdown, necro_Start_no_config os ns w hdown⟩⟩

/-- Witness of C13: on the host `bareHost` both binaries are absent; on the host
`configlessHost` the binaries are present and both config files are absent. -/
theorem Start_missing_files_witness :
    ((NewMuraenaService DefaultServiceConfig).Start bareHost freshWorld).1 =
      some (.errorf ("muraena binary not found: " ++ "/home/ubuntu/muraena/muraena.bin")) ∧
    ((NewNecroBrowserService DefaultServiceConfig).Start bareHost freshWorld).1 =
      some (.errorf ("necrobrowser binary not found: " ++
        "/home/ubuntu/necrobrowser/necrobrowser.js")) ∧
    ((NewMuraenaService DefaultServiceConfig).Start configlessHost freshWorld).1 =
      some (.errorf ("muraena config not found: " ++ "/home/ubuntu/muraena/config.toml")) ∧
    ((NewNecroBrowserService DefaultServiceConfig).Start configlessHost freshWorld).1 =
      some (.errorf ("necrobrowser config not found: " ++
        "/home/ubuntu/necrobrowser/config.toml")) :=
  ⟨congrArg Prod.fst (((Start_missing_files bareHost (NewMuraenaService DefaultServiceConfig)
      (NewNecroBrowserService DefaultServiceConfig) freshWorld).1 (by decide)).1 (by decide)),
    congrArg Prod.fst (((Start_missing_files bareHost (NewMuraenaService DefaultServiceConfig)
      (NewNecroBrowserService DefaultServiceConfig) freshWorld).2 (by decide)).1 (by decide)),
    congrArg Prod.fst (((Start_missing_files configlessHost
      (NewMuraenaService DefaultServiceConfig) (NewNecroBrowserService DefaultServiceConfig)
      freshWorld).1 (by decide)).2 (by decide) (by decide)),
    congrArg Prod.fst (((Start_missing_files configlessHost
      (NewMuraenaService DefaultServiceConfig) (NewNecroBrowserService DefaultServiceConfig)
      freshWorld).2 (by decide)).2 (by decide) (by decide))⟩

theorem redis_Restart_eq (os : OS) (rs : RedisService) (w : World) :
    (∀ e, (rs.Stop os w).1 = some e → rs.Restart os w = (some e, (rs.Stop os w).2)) ∧
    ((rs.Stop os w).1 = none →
      rs.Restart os w = rs.Start os (os.doSleep (1 * Second) (rs.Stop os w).2)) := by
  constructor
  · intro e h
    simp only [RedisService.Restart, h]
  · intro h
    simp only [RedisService.Restart, h]

theorem muraena_Restart_eq (os : OS) (ms : MuraenaService) (w : World) :
    (∀ e, (ms.Stop os w).1 = some e → ms.Restart os w = (some e, (ms.Stop os w).2)) ∧
    ((ms.Stop os w).1 = none →
      ms.Restart os w = ms.Start os (os.doSleep (2 * Second) (ms.Stop os w).2)) := by
  constructor
  · intro e h
    simp only [MuraenaService.Restart, h]
  · intro h
    simp only [MuraenaService.Restart, h]

theorem necro_Restart_eq (os : OS) (ns : NecroBrowserService) (w : World) :
    (∀ e, (ns.Stop os w).1 = some e → ns.Restart os w = (some e, (ns.Stop os w).2)) ∧
    ((ns.Stop os w).1 = none →
      ns.Restart os w = ns.Start os (os.doSleep (2 * Second) (ns.Stop os w).2)) := by
  constructor
  · intro e h
    simp only [NecroBrowserService.Restart, h]
  · intro h
    simp only [NecroBrowserService.Restart, h]

/-- C15. For each of the three adapters, on every host and in every world: when
`Stop` fails with `e`, `Restart` returns `e` itself, not wrapped, in the world
that `Stop` left, so that nothing of `Start` is requested; when `Stop`
succeeds, `Restart` returns what `Start` returns in the world after `Stop` and
the settle delay (1 second for the data store, 2 seconds for the other two). -/
theorem Restart_propagates (os : OS) (rs : RedisService) (ms : MuraenaService)
    (ns : NecroBrowserService) (w : World) :
    ((∀ e, (rs.Stop os w).1 = some e → rs.Restart os w = (some e, (rs.Stop os w).2)) ∧
      ((rs.Stop os w).1 = none →
        rs.Restart os w = rs.Start os (os.doSleep (1 * Second) (rs.Stop os w).2))) ∧
    ((∀ e, (ms.Stop os w).1 = some e → ms.Restart os w = (some e, (ms.Stop os w).2)) ∧
      ((ms.Stop os w).1 = none →
        ms.Restart os w = ms.Start os (os.doSleep (2 * Second) (ms.Stop os w).2))) ∧
    ((∀ e, (ns.Stop os w).1 = some e → ns.Restart os w = (some e, (ns.Stop os w).2)) ∧
      ((ns.Stop os w).1 = none →
        ns.Restart os w = ns.Start os (os.doSleep (2 * Second) (ns.Stop os w).2))) :=
  ⟨redis_Restart_eq os rs w, muraena_Restart_eq os ms w, necro_Restart_eq os ns w⟩

/-- Witness of C15: on the host `bareHost` the `Stop` of the data store fails
and `Restart` returns that error; the `Stop` of the proxy succeeds (no session)
and `Restart` returns the error of `Start`. -/
theorem Restart_propagates_witness :
    (NewRedisService DefaultServiceConfig).Restart bareHost freshWorld =
      (some (.wrapf "failed to stop redis: " (.errorf "exit status 5")),
        ((NewRedisService DefaultServiceConfig).Stop bareHost freshWorld).2) ∧
    (NewMuraenaService DefaultServiceConfig).Restart bareHost freshWorld =
      (NewMuraenaService DefaultServiceConfig).Start bareHost
        (bareHost.doSleep (2 * Second)
          ((NewMuraenaService DefaultServiceConfig).Stop bareHost freshWorld).2) :=
  ⟨(Restart_propagates bareHost (NewRedisService DefaultServiceConfig)
      (NewMuraenaService DefaultServiceConfig) (NewNecroBrowserService DefaultServiceConfig)
      freshWorld).1.1 _ (by decide),
    (Restart_propagates bareHost (NewRedisService DefaultServiceConfig)
      (NewMuraenaService DefaultServiceConfig) (NewNecroBrowserService DefaultServiceConfig)
      freshWorld).2.1.2 (by decide)⟩

theorem redis_Start_launch_fails (os : OS) (rs : RedisService) (w : World) (e : GoError)
    (hdown : (rs.HealthCheck os w).1 ≠ none)
    (hfail : os.run (rs.HealthCheck os w).2 true ["sudo", "systemctl", "start", "redis"]
      = some e) :
    rs.Start os w = (some (.wrapf "failed to start redis: " e),
      os.step (rs.HealthCheck os w).2 (.run true ["sudo", "systemctl", "start", "redis"])) := by
  rcases hc : (rs.HealthCheck os w).1 with _ | e1
  · exact absurd hc hdown
  · simp only [RedisService.Start, hc, doRun_fst, doRun_snd, hfail]

/-- C14, as stated, fails. On the host `bareHost` no file exists, the binary of
the data store included, and `StartAll` returns the failure of the start
command of the service manager, wrapped twice in "failed to start redis: ":
an error that is not of the kind MissingBinary. The requests of the run are
the is-active query and the start command: no file is checked. -/
theorem StartAll_scenario_B_counterexample :
    ((NewManager bareHost none).StartAll ["redis", "muraena", "necrobrowser"] freshHost).1 =
      some (.wrapf "failed to start redis: "
        (.wrapf "failed to start redis: " (.errorf "exit status 5"))) ∧
    isMissingBinary (.wrapf "failed to start redis: "
      (.wrapf "failed to start redis: " (.errorf "exit status 5"))) = false ∧
    ((NewManager bareHost none).StartAll ["redis", "muraena", "necrobrowser"]
      freshHost).2.inner.trace =
        [.output true ["systemctl", "is-active", "redis"],
          .run true ["sudo", "systemctl", "start", "redis"]] := by
  decide

/-- C14, amended. On every host, for every configuration and from every state
in which the data store does not pass its `HealthCheck` and the start command
of the service manager then fails with `e` (as it does when the data store is
not installed), `StartAll` returns the start failure attributed to the data
store, "failed to start redis: failed to start redis: <e>", and the only
adapter call it logs is the `Start` of redis: the `Start` of the proxy and of
the automation worker is not invoked. -/
theorem StartAll_scenario_B (os : OS) (config : Option ServiceConfig) (visit : List String)
    (s : MState World) (e : GoError)
    (hdown : ((NewRedisService (orDefault config)).HealthCheck os s.inner).1 ≠ none)
    (hfail : os.run ((NewRedisService (orDefault config)).HealthCheck os s.inner).2 true
      ["sudo", "systemctl", "start", "redis"] = some e) :
    (NewManager os config).StartAll visit s =
      (some (.wrapf "failed to start redis: " (.wrapf "failed to start redis: " e)),
        { inner := os.step ((NewRedisService (orDefault config)).HealthCheck os s.inner).2
            (.run true ["sudo", "systemctl", "start", "redis"]),
          log := s.log ++ [.call "redis" .Start (some (.wrapf "failed to start redis: " e))] }) := by
  have hstart := redis_Start_launch_fails os (NewRedisService (orDefault config)) s.inner e
    hdown hfail
  have h1 : (((NewRedisService (orDefault config)).toService os).Start s.inner).1 =
      some (.wrapf "failed to start redis: " e) := by
    show ((NewRedisService (orDefault config)).Start os s.inner).1 = _
    rw [hstart]
  show (registerServices (orDefault config) os.doSleep
      ((NewRedisService (orDefault config)).toService os)
      ((NewMuraenaService (orDefault config)).toService os)
      ((NewNecroBrowserService (orDefault config)).toService os)).StartAll visit s = _
  rw [StartAll_of_startLoop_fails _ _ _ _ _ (startLoop_first_fails _ _ _ _ _ s _ h1)]
  show (_, ({ inner := ((NewRedisService (orDefault config)).Start os s.inner).2, log := _ } :
    MState World)) = _
  rw [hstart]

/-- Witness of C14, amended: the host `bareHost`, with the default
configuration. -/
theorem StartAll_scenario_B_witness :
    (NewManager bareHost none).StartAll ["redis", "muraena", "necrobrowser"] freshHost =
      (some (.wrapf "failed to start redis: "
        (.wrapf "failed to start redis: " (.errorf "exit status 5"))),
        { inner := bareHost.step
            ((NewRedisService (orDefault none)).HealthCheck bareHost freshHost.inner).2
            (.run true ["sudo", "systemctl", "start", "redis"]),
          log := freshHost.log ++ [.call "redis" .Start
            (some (.wrapf "failed to start redis: " (.errorf "exit status 5")))] }) :=
  StartAll_scenario_B bareHost none ["redis", "muraena", "necrobrowser"] freshHost
    (.errorf "exit status 5") (by decide) (by decide)

/-! ## The adapters: HealthCheck and GetStatus (C16 to C19) -/

theorem muraena_isPortListening_fst (os : OS) (ms : MuraenaService) (port : Nat) (w : World) :
    (ms.isPortListening os port w).1 =
      (os.dial w "tcp" ("localhost:" ++ toString port) (2 * Second)).isNone := by
  simp only [MuraenaService.isPortListening, doDial_fst]
  split <;> simp [*]

theorem necro_isPortListening_fst (os : OS) (ns : NecroBrowserService) (port : Nat)
    (w : World) :
    (ns.isPortListening os port w).1 =
      (os.dial w "tcp" ("localhost:" ++ toString port) (2 * Second)).isNone := by
  simp only [NecroBrowserService.isPortListening, doDial_fst]
  split <;> simp [*]

theorem muraena_HealthCheck_cases (os : OS) (ms : MuraenaService) (w : World) :
    ms.HealthCheck os w =
      if (ms.probes os w).session = false then
        (some (.errorf "muraena screen session not found"),
          os.step w (.output false ["screen", "-list"]))
      else if (ms.probes os w).port80 = false then
        (some (.errorf "port 80 not listening"),
          os.step (os.step w (.output false ["screen", "-list"]))
            (.dial "tcp" "localhost:80" (2 * Second)))
      else if (ms.probes os w).port443 = false then
        (some (.errorf "port 443 not listening"),
          os.step (os.step (os.step w (.output false ["screen", "-list"]))
            (.dial "tcp" "localhost:80" (2 * Second))) (.dial "tcp" "localhost:443" (2 * Second)))
      else
        match (ms.probes os w).log with
        | .ok modTime =>
          if (ms.probes os w).now - modTime > ((5 * Minute : Nat) : Int) then
            (some (.errorf ("log file not being updated (last modified: " ++
              os.timeString modTime ++ ")")),
              os.step (os.step (os.step (os.step (os.step w (.output false ["screen", "-list"]))
                (.dial "tcp" "localhost:80" (2 * Second)))
                (.dial "tcp" "localhost:443" (2 * Second))) (.stat ms.logPath)) .now)
          else
            (none,
              os.step (os.step (os.step (os.step (os.step w (.output false ["screen", "-list"]))
                (.dial "tcp" "localhost:80" (2 * Second)))
                (.dial "tcp" "localhost:443" (2 * Second))) (.stat ms.logPath)) .now)
        | _ =>
          (none,
            os.step (os.step (os.step (os.step w (.output false ["screen", "-list"]))
              (.dial "tcp" "localhost:80" (2 * Second)))
              (.dial "tcp" "localhost:443" (2 * Second))) (.stat ms.logPath)) := by
  have e80 : toString (80 : Nat) = "80" := by decide
  have e443 : toString (443 : Nat) = "443" := by decide
  simp only [MuraenaService.HealthCheck, MuraenaService.probes, MuraenaService.checkPorts,
    muraena_isPortListening_fst, muraena_isPortListening_snd, doStat_fst, doStat_snd, doNow_fst,
    doNow_snd, muraena_isRunning_snd, localhost_80, localhost_443, e80, e443]
  cases h1 : (ms.isRunning os w).1
  · simp
  · cases h2 : os.dial (os.step w (.output false ["screen", "-list"])) "tcp" "localhost:80"
        (2 * Second)
    swap
    · simp [h2]
    · cases h3 : os.dial (os.step (os.step w (.output false ["screen", "-list"]))
          (.dial "tcp" "localhost:80" (2 * Second))) "tcp" "localhost:443" (2 * Second)
      swap
      · simp [h2, h3]
      · cases h4 : os.stat (os.step (os.step (os.step w (.output false ["screen", "-list"]))
            (.dial "tcp" "localhost:80" (2 * Second)))
            (.dial "tcp" "localhost:443" (2 * Second))) ms.logPath <;> simp [h2, h3, h4]

theorem necro_HealthCheck_cases (os : OS) (ns : NecroBrowserService) (w : World) :
    ns.HealthCheck os w =
      if (ns.probes os w).session = false then
        (some (.errorf "necrobrowser screen session not found"),
          os.step w (.output false ["screen", "-list"]))
      else if (ns.probes os w).port = false then
        (some (.errorf ("API port " ++ toString ns.apiPort ++ " not listening")),
          os.step (os.step w (.output false ["screen", "-list"]))
            (.dial "tcp" ("localhost:" ++ toString ns.apiPort) (2 * Second)))
      else
        match (ns.probes os w).http with
        | .error err =>
          (some (.wrapf "API health check failed: " err),
            os.step (os.step (os.step w (.output false ["screen", "-list"]))
              (.dial "tcp" ("localhost:" ++ toString ns.apiPort) (2 * Second)))
              (.httpGet (5 * Second) ns.healthURL))
        | .ok code =>
          if code ≠ 200 then
            (some (.errorf ("API returned status " ++ toString code)),
              os.step (os.step (os.step w (.output false ["screen", "-list"]))
                (.dial "tcp" ("localhost:" ++ toString ns.apiPort) (2 * Second)))
                (.httpGet (5 * Second) ns.healthURL))
          else
            (none,
              os.step (os.step (os.step w (.output false ["screen", "-list"]))
                (.dial "tcp" ("localhost:" ++ toString ns.apiPort) (2 * Second)))
                (.httpGet (5 * Second) ns.healthURL)) := by
  simp only [NecroBrowserService.HealthCheck, NecroBrowserService.probes,
    necro_isPortListening_fst, necro_isPortListening_snd, doHttpGet_fst, doHttpGet_snd,
    necro_isRunning_snd]
  cases h1 : (ns.isRunning os w).1
  · simp
  · cases h2 : os.dial (os.step w (.output false ["screen", "-list"])) "tcp"
        ("localhost:" ++ toString ns.apiPort) (2 * Second)
    swap
    · simp [h2]
    · simp [h2]

theorem isNone_false_iff {α : Type} (o : Option α) : o.isNone = false ↔ o ≠ none := by
  cases o <;> simp

theorem muraena_HealthCheck_fails_probes (os : OS) (ms : MuraenaService) (w : World) :
    (ms.HealthCheck os w).1 ≠ none ↔
      (ms.probes os w).session = false ∨ (ms.probes os w).port80 = false ∨
        (ms.probes os w).port443 = false ∨ (ms.probes os w).stale = true := by
  rw [muraena_HealthCheck_cases]
  simp only [ProxyProbes.stale]
  cases (ms.probes os w).session <;> cases (ms.probes os w).port80 <;>
    cases (ms.probes os w).port443 <;> cases (ms.probes os w).log <;> simp
  split <;> simp_all

theorem muraena_isRunning_iff (os : OS) (ms : MuraenaService) (w : World) :
    (ms.isRunning os w).1 = true ↔ ListingShows os w "muraena" := by
  rcases h : os.output w false ["screen", "-list"] with ⟨out, _ | e⟩ <;>
    simp [MuraenaService.isRunning, ListingShows, h]

theorem necro_isRunning_iff (os : OS) (ns : NecroBrowserService) (w : World) :
    (ns.isRunning os w).1 = true ↔ ListingShows os w "necro" := by
  rcases h : os.output w false ["screen", "-list"] with ⟨out, _ | e⟩ <;>
    simp [NecroBrowserService.isRunning, ListingShows, h]

theorem muraena_session_false_iff (os : OS) (ms : MuraenaService) (w : World) :
    (ms.probes os w).session = false ↔ ¬ ListingShows os w "muraena" := by
  rw [← muraena_isRunning_iff os ms w]
  simp [MuraenaService.probes]

theorem necro_session_false_iff (os : OS) (ns : NecroBrowserService) (w : World) :
    (ns.probes os w).session = false ↔ ¬ ListingShows os w "necro" := by
  rw [← necro_isRunning_iff os ns w]
  simp [NecroBrowserService.probes]

theorem muraena_stale_iff (os : OS) (ms : MuraenaService) (w : World) :
    (ms.probes os w).stale = true ↔
      ∃ modTime,
        os.stat (os.step (os.step (os.step w (.output false ["screen", "-list"]))
          (.dial "tcp" "localhost:80" (2 * Second)))
          (.dial "tcp" "localhost:443" (2 * Second))) ms.logPath = .ok modTime ∧
        os.wallNow (os.step (os.step (os.step (os.step w (.output false ["screen", "-list"]))
          (.dial "tcp" "localhost:80" (2 * Second)))
          (.dial "tcp" "localhost:443" (2 * Second))) (.stat ms.logPath)) - modTime >
            ((5 * Minute : Nat) : Int) := by
  simp only [ProxyProbes.stale, MuraenaService.probes]
  rcases os.stat (os.step (os.step (os.step w (.output false ["screen", "-list"]))
      (.dial "tcp" "localhost:80" (2 * Second)))
      (.dial "tcp" "localhost:443" (2 * Second))) ms.logPath with modTime | _ | err
  · simp
  · simp
  · simp

/-- C16. On every host and in every world, the `HealthCheck` of the proxy fails
if and only if `screen -list` fails or its output lacks the substring
"muraena", or the dial of "localhost:80" is refused, or that of
"localhost:443" is, or `os.Stat` finds the log file and its modification time
is more than 5 minutes before the wall clock; each probe gets the answer of
the world that the probes before it leave. The first condition is not "no
session named muraena": on the host `lookalikeOpenHost` the listing shows only
the sessions `muraena-backup` and `necromancer`, the ports accept connections
and there is no log file, and the `HealthCheck` of the proxy passes. -/
theorem proxy_HealthCheck_fails_iff (os : OS) (ms : MuraenaService) (w : World) :
    ((ms.HealthCheck os w).1 ≠ none ↔
      ¬ ListingShows os w "muraena" ∨
      os.dial (os.step w (.output false ["screen", "-list"])) "tcp" "localhost:80"
        (2 * Second) ≠ none ∨
      os.dial (os.step (os.step w (.output false ["screen", "-list"]))
        (.dial "tcp" "localhost:80" (2 * Second))) "tcp" "localhost:443" (2 * Second) ≠ none ∨
      ∃ modTime,
        os.stat (os.step (os.step (os.step w (.output false ["screen", "-list"]))
          (.dial "tcp" "localhost:80" (2 * Second)))
          (.dial "tcp" "localhost:443" (2 * Second))) ms.logPath = .ok modTime ∧
        os.wallNow (os.step (os.step (os.step (os.step w (.output false ["screen", "-list"]))
          (.dial "tcp" "localhost:80" (2 * Second)))
          (.dial "tcp" "localhost:443" (2 * Second))) (.stat ms.logPath)) - modTime >
            ((5 * Minute : Nat) : Int)) ∧
    ((lookalikeOpenHost.output freshWorld false ["screen", "-list"]).2 = none ∧
      specListedSessions (lookalikeOpenHost.output freshWorld false ["screen", "-list"]).1 =
        ["muraena-backup", "necromancer"] ∧
      ((NewMuraenaService DefaultServiceConfig).HealthCheck lookalikeOpenHost freshWorld).1 =
        none) := by
  refine ⟨?_, by decide, by decide, by decide⟩
  have h80 : (ms.probes os w).port80 = false ↔
      os.dial (os.step w (.output false ["screen", "-list"])) "tcp" "localhost:80"
        (2 * Second) ≠ none :=
    isNone_false_iff _
  have h443 : (ms.probes os w).port443 = false ↔
      os.dial (os.step (os.step w (.output false ["screen", "-list"]))
        (.dial "tcp" "localhost:80" (2 * Second))) "tcp" "localhost:443" (2 * Second) ≠
        none :=
    isNone_false_iff _
  rw [muraena_HealthCheck_fails_probes, muraena_session_false_iff, muraena_stale_iff, h80, h443]

theorem necro_HealthCheck_fails_probes (os : OS) (ns : NecroBrowserService) (w : World) :
    (ns.HealthCheck os w).1 ≠ none ↔
      (ns.probes os w).session = false ∨ (ns.probes os w).port = false ∨
        (ns.probes os w).http ≠ .ok 200 := by
  rw [necro_HealthCheck_cases]
  cases (ns.probes os w).session <;> cases (ns.probes os w).port <;> simp
  rcases (ns.probes os w).http with err | code
  · simp
  · by_cases hc : code = 200 <;> simp [hc]

/-- C17. On every host, for every configuration and in every world, the
`HealthCheck` of the automation worker fails if and only if `screen -list`
fails or its output lacks the substring "necro", or the dial of
"localhost:3000" is refused, or the GET of "http://localhost:3000/health",
with a timeout of 5 seconds, does not answer with status 200 (an error of the
request counts as that); each probe gets the answer of the world that the
probes before it leave. The first condition is not "no session named necro":
on the host `lookalikeOpenHost` the listing shows only the sessions
`muraena-backup` and `necromancer`, port 3000 accepts connections and `/health`
answers 200, and the `HealthCheck` of the automation worker passes. -/
theorem worker_HealthCheck_fails_iff (os : OS) (config : ServiceConfig) (w : World) :
    (((NewNecroBrowserService config).HealthCheck os w).1 ≠ none ↔
      ¬ ListingShows os w "necro" ∨
      os.dial (os.step w (.output false ["screen", "-list"])) "tcp" "localhost:3000"
        (2 * Second) ≠ none ∨
      os.httpGet (os.step (os.step w (.output false ["screen", "-list"]))
        (.dial "tcp" "localhost:3000" (2 * Second))) (5 * Second)
        "http://localhost:3000/health" ≠ .ok 200) ∧
    ((lookalikeOpenHost.output freshWorld false ["screen", "-list"]).2 = none ∧
      specListedSessions (lookalikeOpenHost.output freshWorld false ["screen", "-list"]).1 =
        ["muraena-backup", "necromancer"] ∧
      ((NewNecroBrowserService DefaultServiceConfig).HealthCheck lookalikeOpenHost
        freshWorld).1 = none) := by
  refine ⟨?_, by decide, by decide, by decide⟩
  have hport : ((NewNecroBrowserService config).probes os w).port = false ↔
      os.dial (os.step w (.output false ["screen", "-list"])) "tcp" "localhost:3000"
        (2 * Second) ≠ none := by
    have h : ((NewNecroBrowserService config).probes os w).port =
        (os.dial (os.step w (.output false ["screen", "-list"])) "tcp"
          ("localhost:" ++ toString (3000 : Nat)) (2 * Second)).isNone := rfl
    rw [h, localhost_3000]
    exact isNone_false_iff _
  have hhttp : ((NewNecroBrowserService config).probes os w).http =
      os.httpGet (os.step (os.step w (.output false ["screen", "-list"]))
        (.dial "tcp" "localhost:3000" (2 * Second))) (5 * Second)
        "http://localhost:3000/health" := by
    show os.httpGet (os.step (os.step w (.output false ["screen", "-list"]))
      (.dial "tcp" ("localhost:" ++ toString (3000 : Nat)) (2 * Second))) (5 * Second)
      (NewNecroBrowserService config).healthURL = _
    rw [localhost_3000, healthURL_eq]
  rw [necro_HealthCheck_fails_probes, necro_session_false_iff, hport, hhttp]

theorem muraena_GetStatus_fails (os : OS) (ms : MuraenaService) (w : World) (err : GoError)
    (h : (ms.HealthCheck os w).1 = some err) :
    ms.GetStatus os w =
      ({ Name := "Muraena", Ports := [80, 443],
         Running := (ms.isRunning os (ms.HealthCheck os w).2).1, Healthy := false,
         Errors := [err.Error] },
        os.step (ms.HealthCheck os w).2 (.output false ["screen", "-list"])) := by
  simp [MuraenaService.GetStatus, h, MuraenaService.GetName]

/-- C18. On every host and in every world in which the session listing shows
the proxy session and ports 80 and 443 accept connections: the `HealthCheck`
of the proxy fails exactly when the log is stale (`os.Stat` finds the log file
and its modification time is more than 5 minutes before the wall clock), and
then with the stale-log error; a log file that `os.Stat` does not find, or one
modified at most 5 minutes ago, passes. In the stale case, when the listing
that `GetStatus` asks for next still shows the session, the status has
`Healthy = false`, `Running = true` and the stale-log message as its only
error. -/
theorem proxy_stale_log (os : OS) (ms : MuraenaService) (w : World)
    (hs : (ms.probes os w).session = true) (h80 : (ms.probes os w).port80 = true)
    (h443 : (ms.probes os w).port443 = true) :
    ((ms.HealthCheck os w).1 ≠ none ↔ (ms.probes os w).stale = true) ∧
    (∀ modTime, (ms.probes os w).log = .ok modTime →
      (ms.probes os w).now - modTime > ((5 * Minute : Nat) : Int) →
      (ms.HealthCheck os w).1 = some (.errorf (staleLogMessage os modTime))) ∧
    (∀ modTime, (ms.probes os w).log = .ok modTime →
      (ms.probes os w).now - modTime ≤ ((5 * Minute : Nat) : Int) →
      (ms.HealthCheck os w).1 = none) ∧
    ((ms.probes os w).log = .notExist → (ms.HealthCheck os w).1 = none) ∧
    (∀ modTime, (ms.probes os w).log = .ok modTime →
      (ms.probes os w).now - modTime > ((5 * Minute : Nat) : Int) →
      (ms.isRunning os (ms.HealthCheck os w).2).1 = true →
      (ms.GetStatus os w).1 =
        { Name := "Muraena", Ports := [80, 443], Running := true, Healthy := false,
          Errors := [staleLogMessage os modTime] }) := by
  have hstale : ∀ modTime, (ms.probes os w).log = .ok modTime →
      (ms.probes os w).now - modTime > ((5 * Minute : Nat) : Int) →
      (ms.HealthCheck os w).1 = some (.errorf (staleLogMessage os modTime)) := by
    intro t ht hgt
    rw [muraena_HealthCheck_cases]
    simp only [hs, h80, h443, ht, Bool.true_eq_false, if_false]
    rw [if_pos hgt]
    rfl
  refine ⟨?_, hstale, ?_, ?_, ?_⟩
  · rw [muraena_HealthCheck_cases]
    simp only [ProxyProbes.stale, hs, h80, h443]
    cases (ms.probes os w).log <;> simp
    split <;> simp_all
  · intro t ht hle
    rw [muraena_HealthCheck_cases]
    simp only [hs, h80, h443, ht, Bool.true_eq_false, if_false]
    rw [if_neg (not_lt.2 hle)]
  · intro hne
    rw [muraena_HealthCheck_cases]
    simp [hs, h80, h443, hne]
  · intro t ht hgt hrun
    rw [muraena_GetStatus_fails os ms w _ (hstale t ht hgt), hrun]
    rfl

/-- Witness of C18: on the host `staleLogHost`, with the three services
launched, the log file of the proxy was modified 5 minutes and one nanosecond
ago. -/
theorem proxy_stale_log_witness :
    ((NewMuraenaService DefaultServiceConfig).HealthCheck staleLogHost
      (launchedWorld DefaultServiceConfig)).1 =
        some (.errorf (staleLogMessage staleLogHost 0)) ∧
    ((NewMuraenaService DefaultServiceConfig).GetStatus staleLogHost
      (launchedWorld DefaultServiceConfig)).1 =
        { Name := "Muraena", Ports := [80, 443], Running := true, Healthy := false,
          Errors := [staleLogMessage staleLogHost 0] } :=
  ⟨(proxy_stale_log staleLogHost (NewMuraenaService DefaultServiceConfig)
      (launchedWorld DefaultServiceConfig) (by decide) (by decide) (by decide)).2.1 0
      (by decide) (by decide),
    (proxy_stale_log staleLogHost (NewMuraenaService DefaultServiceConfig)
      (launchedWorld DefaultServiceConfig) (by decide) (by decide) (by decide)).2.2.2.2 0
      (by decide) (by decide) (by decide)⟩

theorem muraena_GetStatus_passes (os : OS) (ms : MuraenaService) (w : World)
    (h : (ms.HealthCheck os w).1 = none) :
    ms.GetStatus os w =
      ({ Name := "Muraena", Ports := [80, 443], Running := true, Healthy := true,
         Errors := [], LastSeen := some (os.wallNow (ms.HealthCheck os w).2),
         PID := if (ms.getPID os (os.step (ms.HealthCheck os w).2 .now)).1 > 0 then
             (ms.getPID os (os.step (ms.HealthCheck os w).2 .now)).1
           else 0 },
        (ms.getPID os (os.step (ms.HealthCheck os w).2 .now)).2) := by
  simp only [MuraenaService.GetStatus, h, MuraenaService.GetName, doNow_fst, doNow_snd]
  split <;> rfl

theorem necro_GetStatus_fails (os : OS) (ns : NecroBrowserService) (w : World) (err : GoError)
    (h : (ns.HealthCheck os w).1 = some err) :
    ns.GetStatus os w =
      ({ Name := "NecroBrowser", Ports := [(ns.apiPort : Int)],
         Running := (ns.isRunning os (ns.HealthCheck os w).2).1, Healthy := false,
         Errors := [err.Error] },
        os.step (ns.HealthCheck os w).2 (.output false ["screen", "-list"])) := by
  simp [NecroBrowserService.GetStatus, h, NecroBrowserService.GetName]

theorem necro_GetStatus_passes (os : OS) (ns : NecroBrowserService) (w : World)
    (h : (ns.HealthCheck os w).1 = none) :
    ns.GetStatus os w =
      ({ Name := "NecroBrowser", Ports := [(ns.apiPort : Int)], Running := true,
         Healthy := true, Errors := [], LastSeen := some (os.wallNow (ns.HealthCheck os w).2),
         PID := if (ns.getPID os (os.step (ns.HealthCheck os w).2 .now)).1 > 0 then
             (ns.getPID os (os.step (ns.HealthCheck os w).2 .now)).1
           else 0 },
        (ns.getPID os (os.step (ns.HealthCheck os w).2 .now)).2) := by
  simp only [NecroBrowserService.GetStatus, h, NecroBrowserService.GetName, doNow_fst,
    doNow_snd]
  split <;> rfl

theorem redis_GetStatus_fails (os : OS) (rs : RedisService) (w : World) (err : GoError)
    (h : (rs.HealthCheck os w).1 = some err) :
    rs.GetStatus os w =
      ({ Name := "Redis", Ports := [6379], Running := false, Healthy := false,
         Errors := [err.Error] }, (rs.HealthCheck os w).2) := by
  simp [RedisService.GetStatus, h, RedisService.GetName]

theorem redis_GetStatus_passes (os : OS) (rs : RedisService) (w : World)
    (h : (rs.HealthCheck os w).1 = none) :
    rs.GetStatus os w =
      ({ Name := "Redis", Ports := [6379], Running := true, Healthy := true,
         Errors := [], LastSeen := some (os.wallNow (rs.HealthCheck os w).2), PID := 0 },
        os.step (rs.HealthCheck os w).2 .now) := by
  simp [RedisService.GetStatus, h, RedisService.GetName]

theorem muraena_getPID_eq (os : OS) (ms : MuraenaService) (w : World) :
    (ms.getPID os w).1 =
      match os.output w false ["pgrep", "-f", "muraena.bin"] with
      | (_, some _) => 0
      | (output, none) => os.sscanInt output := by
  simp only [MuraenaService.getPID, doOutput_fst]
  split <;> simp_all

theorem necro_getPID_eq (os : OS) (ns : NecroBrowserService) (w : World) :
    (ns.getPID os w).1 =
      match os.output w false ["pgrep", "-f", "necrobrowser"] with
      | (_, some _) => 0
      | (output, none) => os.sscanInt output := by
  simp only [NecroBrowserService.getPID, doOutput_fst]
  split <;> simp_all

/-- C19, as stated, fails for the data store. On the host `pidHost`, where the
data store passes its `HealthCheck` and a lookup by name finds a process
(`pgrep -f redis` answers 4242), `GetStatus` of the data store has `PID = 0`:
its requests are the two probes of the check and the reading of the clock, and
no lookup. -/
theorem GetStatus_conversion_counterexample :
    ((NewRedisService DefaultServiceConfig).HealthCheck pidHost
      (launchedWorld DefaultServiceConfig)).1 = none ∧
    pidHost.sscanInt (pidHost.output (launchedWorld DefaultServiceConfig) false
      ["pgrep", "-f", "redis"]).1 = 4242 ∧
    ((NewRedisService DefaultServiceConfig).GetStatus pidHost
      (launchedWorld DefaultServiceConfig)).1.PID = 0 ∧
    ((NewRedisService DefaultServiceConfig).GetStatus pidHost
      (launchedWorld DefaultServiceConfig)).2.trace =
      (launchedWorld DefaultServiceConfig).trace ++
        [.output true ["systemctl", "is-active", "redis"], .output true ["redis-cli", "ping"],
          .now] := by
  decide

/-- C19, amended. On every host and in every world, for the proxy and for the
automation worker: when `HealthCheck` fails with `err`, the status has
`Healthy = false`, the message of `err` as its one error, `Running` equal to
what the session listing asked next says, `PID = 0` and no `LastSeen`; when
`HealthCheck` passes, the status has `Running = Healthy = true`, no error, the
wall clock read next as `LastSeen`, and as `PID` the result of the lookup by
name if that is positive and 0 otherwise, the lookup giving 0 when `pgrep`
fails. For the data store: on failure `Healthy = Running = false`, the message
as the one error, `PID = 0` and no `LastSeen`, with no further request; when
`HealthCheck` passes, `Running = Healthy = true`, no error, the wall clock read
next as `LastSeen`, and `PID = 0`, the reading of the clock being the only
further request. -/
theorem GetStatus_conversion (os : OS) (rs : RedisService) (ms : MuraenaService)
    (ns : NecroBrowserService) (w : World) :
    ((∀ err, (ms.HealthCheck os w).1 = some err →
        (ms.GetStatus os w).1 =
          { Name := "Muraena", Ports := [80, 443], Healthy := false, Errors := [err.Error],
            Running := (ms.isRunning os (ms.HealthCheck os w).2).1, PID := 0,
            LastSeen := none }) ∧
      ((ms.HealthCheck os w).1 = none →
        (ms.GetStatus os w).1 =
          { Name := "Muraena", Ports := [80, 443], Healthy := true, Errors := [],
            Running := true, LastSeen := some (os.wallNow (ms.HealthCheck os w).2),
            PID := if (ms.getPID os (os.step (ms.HealthCheck os w).2 .now)).1 > 0 then
                (ms.getPID os (os.step (ms.HealthCheck os w).2 .now)).1
              else 0 }) ∧
      (∀ w1, (ms.getPID os w1).1 =
        match os.output w1 false ["pgrep", "-f", "muraena.bin"] with
        | (_, some _) => 0
        | (output, none) => os.sscanInt output)) ∧
    ((∀ err, (ns.HealthCheck os w).1 = some err →
        (ns.GetStatus os w).1 =
          { Name := "NecroBrowser", Ports := [(ns.apiPort : Int)], Healthy := false,
            Errors := [err.Error], Running := (ns.isRunning os (ns.HealthCheck os w).2).1,
            PID := 0, LastSeen := none }) ∧
      ((ns.HealthCheck os w).1 = none →
        (ns.GetStatus os w).1 =
          { Name := "NecroBrowser", Ports := [(ns.apiPort : Int)], Healthy := true,
            Errors := [], Running := true,
            LastSeen := some (os.wallNow (ns.HealthCheck os w).2),
            PID := if (ns.getPID os (os.step (ns.HealthCheck os w).2 .now)).1 > 0 then
                (ns.getPID os (os.step (ns.HealthCheck os w).2 .now)).1
              else 0 }) ∧
      (∀ w1, (ns.getPID os w1).1 =
        match os.output w1 false ["pgrep", "-f", "necrobrowser"] with
        | (_, some _) => 0
        | (output, none) => os.sscanInt output)) ∧
    ((∀ err, (rs.HealthCheck os w).1 = some err →
        rs.GetStatus os w =
          ({ Name := "Redis", Ports := [6379], Healthy := false, Errors := [err.Error],
             Running := false, PID := 0, LastSeen := none }, (rs.HealthCheck os w).2)) ∧
      ((rs.HealthCheck os w).1 = none →
        rs.GetStatus os w =
          ({ Name := "Redis", Ports := [6379], Healthy := true, Errors := [],
             Running := true, LastSeen := some (os.wallNow (rs.HealthCheck os w).2),
             PID := 0 }, os.step (rs.HealthCheck os w).2 .now))) :=
  ⟨⟨fun err h => congrArg Prod.fst (muraena_GetStatus_fails os ms w err h),
      fun h => congrArg Prod.fst (muraena_GetStatus_passes os ms w h),
      muraena_getPID_eq os ms⟩,
    ⟨fun err h => congrArg Prod.fst (necro_GetStatus_fails os ns w err h),
      fun h => congrArg Prod.fst (necro_GetStatus_passes os ns w h),
      necro_getPID_eq os ns⟩,
    ⟨redis_GetStatus_fails os rs w, redis_GetStatus_passes os rs w⟩⟩

/-- Witness of C19, amended: on the host `pidHost`, with the three services
launched, the status of the proxy carries the process identifier 4242; on the
host `bareHost` the `HealthCheck` of the data store fails with "redis is not
active". -/
theorem GetStatus_conversion_witness :
    ((NewMuraenaService DefaultServiceConfig).GetStatus pidHost
      (launchedWorld DefaultServiceConfig)).1 =
        { Name := "Muraena", Ports := [80, 443], Healthy := true, Errors := [],
          Running := true, LastSeen := some 0, PID := 4242 } ∧
    (NewRedisService DefaultServiceConfig).GetStatus bareHost freshWorld =
      ({ Name := "Redis", Ports := [6379], Healthy := false,
         Errors := ["redis is not active"], Running := false, PID := 0, LastSeen := none },
        bareHost.step freshWorld (.output true ["systemctl", "is-active", "redis"])) :=
  ⟨((GetStatus_conversion pidHost (NewRedisService DefaultServiceConfig)
      (NewMuraenaService DefaultServiceConfig) (NewNecroBrowserService DefaultServiceConfig)
      (launchedWorld DefaultServiceConfig)).1.2.1 (by decide)).trans (by decide),
    ((GetStatus_conversion bareHost (NewRedisService DefaultServiceConfig)
      (NewMuraenaService DefaultServiceConfig) (NewNecroBrowserService DefaultServiceConfig)
      freshWorld).2.2.1 (.errorf "redis is not active") (by decide)).trans (by decide)⟩

/-! ## The readiness wait (C20) -/

theorem necro_Start_eq (os : OS) (ns : NecroBrowserService) (w : World) :
    ns.Start os w =
      match (ns.beforeWait os w).1 with
      | some err => (some err, (ns.beforeWait os w).2)
      | none =>
        match (ns.waitForAPI os (30 * Second) (ns.beforeWait os w).2).1 with
        | some err => (some (.wrapf "necrobrowser API not ready: " err),
            (ns.waitForAPI os (30 * Second) (ns.beforeWait os w).2).2)
        | none => (none, (ns.waitForAPI os (30 * Second) (ns.beforeWait os w).2).2) := by
  simp only [NecroBrowserService.Start, NecroBrowserService.beforeWait]
  repeat' split
  all_goals simp_all

theorem probesIn_step (os : OS) (w : World) (c : OSCall) :
    probesIn (os.step w c).trace =
      probesIn w.trace + (match c with | .httpGet _ _ => 1 | _ => 0) := by
  simp only [step_trace, probesIn, List.countP_append, List.countP_cons, List.countP_nil]
  cases c <;> simp

theorem probesIn_now (os : OS) (w : World) :
    probesIn (os.step w .now).trace = probesIn w.trace := by
  rw [probesIn_step]
  rfl

theorem pollRound_clock (os : OS) (ns : NecroBrowserService) (w : World) :
    w.clock + 1 * Second ≤ (ns.pollRound os w).clock := by
  have h1 := step_clock_le os w .now
  have h2 := step_clock_le os (os.step w .now) .ctxDone
  have h3 := step_clock_le os (os.step (os.step w .now) .ctxDone)
    (.httpGet (2 * Second) ns.healthURL)
  have h4 := step_sleep_clock os (os.step (os.step (os.step w .now) .ctxDone)
    (.httpGet (2 * Second) ns.healthURL)) (1 * Second)
  simp only [NecroBrowserService.pollRound]
  omega

theorem pollRound_probes (os : OS) (ns : NecroBrowserService) (w : World) :
    probesIn (ns.pollRound os w).trace = probesIn w.trace + 1 := by
  simp only [NecroBrowserService.pollRound, probesIn_step]

theorem pollWorld_clock (os : OS) (ns : NecroBrowserService) (k : Nat) (w : World) :
    w.clock + k * Second ≤ (ns.pollWorld os k w).clock := by
  induction k generalizing w with
  | zero => simp [NecroBrowserService.pollWorld]
  | succ n ih =>
    have h1 := pollRound_clock os ns w
    have h2 := ih (ns.pollRound os w)
    have hmul : (n + 1) * Second = n * Second + 1 * Second := by ring
    simp only [NecroBrowserService.pollWorld]
    omega

theorem waitLoop_round (os : OS) (ns : NecroBrowserService) (deadline fuel : Nat) (w : World)
    (hclock : w.clock < deadline) (hctx : os.ctxErr (os.step w .now) = none)
    (hget : os.httpGet (os.step (os.step w .now) .ctxDone) (2 * Second) ns.healthURL ≠ .ok 200) :
    ns.waitLoop os deadline (fuel + 1) w = ns.waitLoop os deadline fuel (ns.pollRound os w) := by
  have hready : (match os.httpGet (os.step (os.step w .now) .ctxDone) (2 * Second)
      ns.healthURL with
      | .ok code => code == 200
      | .error _ => false) = false := by
    rcases hr : os.httpGet (os.step (os.step w .now) .ctxDone) (2 * Second) ns.healthURL
      with err | code
    · rfl
    · have hne : code ≠ 200 := fun hc => hget (by rw [hr, hc])
      simpa using hne
  simp only [NecroBrowserService.waitLoop, doNow_fst, doNow_snd, doCtxDone_fst, doCtxDone_snd,
    doHttpGet_fst, doHttpGet_snd, doSleep_eq, hclock, hctx, hready, if_true,
    NecroBrowserService.pollRound]
  simp

theorem waitLoop_late (os : OS) (ns : NecroBrowserService) (deadline fuel : Nat) (w : World)
    (hclock : ¬ w.clock < deadline) :
    ns.waitLoop os deadline fuel w =
      (some (.errorf "timeout waiting for API to be ready"), os.step w .now) := by
  cases fuel with
  | zero => rfl
  | succ n => simp [NecroBrowserService.waitLoop, hclock]

theorem waitLoop_times_out (os : OS) (ns : NecroBrowserService) (deadline : Nat)
    (hctx : ∀ w1, os.ctxErr w1 = none)
    (hget : ∀ w1, os.httpGet w1 (2 * Second) ns.healthURL ≠ .ok 200)
    (fuel n : Nat) (w : World) (hfuel : n ≤ fuel) (hn : deadline ≤ w.clock + n * Second) :
    (ns.waitLoop os deadline fuel w).1 = some (.errorf "timeout waiting for API to be ready") ∧
    probesIn (ns.waitLoop os deadline fuel w).2.trace ≤ probesIn w.trace + n := by
  induction fuel generalizing w n with
  | zero =>
    have hn0 : n = 0 := by omega
    subst hn0
    rw [waitLoop_late os ns deadline 0 w (by omega)]
    exact ⟨rfl, by rw [probesIn_now]; omega⟩
  | succ f ih =>
    by_cases hclock : w.clock < deadline
    · rw [waitLoop_round os ns deadline f w hclock (hctx _) (hget _)]
      have hpos : 0 < n := by
        rcases Nat.eq_zero_or_pos n with h0 | h0
        · subst h0; omega
        · exact h0
      have hr := pollRound_clock os ns w
      have hmul : n * Second = (n - 1) * Second + 1 * Second := by
        have : n = (n - 1) + 1 := by omega
        conv_lhs => rw [this]
        ring
      obtain ⟨h1, h2⟩ := ih (n - 1) (ns.pollRound os w) (by omega) (by omega)
      refine ⟨h1, ?_⟩
      rw [pollRound_probes] at h2
      omega
    · rw [waitLoop_late os ns deadline _ w hclock]
      exact ⟨rfl, by rw [probesIn_now]; omega⟩

theorem waitLoop_first_ready (os : OS) (ns : NecroBrowserService) (deadline : Nat)
    (hctx : ∀ w1, os.ctxErr w1 = none) (k fuel : Nat) (w : World) (hfuel : k < fuel)
    (hbefore : (ns.pollWorld os k w).clock < deadline)
    (hnot : ∀ j, j < k → ns.pollAnswer os w j ≠ .ok 200)
    (hready : ns.pollAnswer os w k = .ok 200) :
    ns.waitLoop os deadline fuel w = (none, ns.pollEnd os w k) := by
  induction k generalizing w fuel with
  | zero =>
    obtain ⟨f, rfl⟩ : ∃ f, fuel = f + 1 := ⟨fuel - 1, by omega⟩
    exact waitLoop_ready_at_once os ns deadline f w hbefore (hctx _) hready
  | succ n ih =>
    obtain ⟨f, rfl⟩ : ∃ f, fuel = f + 1 := ⟨fuel - 1, by omega⟩
    have hclock : w.clock < deadline := by
      have := pollWorld_clock os ns (n + 1) w
      omega
    rw [waitLoop_round os ns deadline f w hclock (hctx _) (hnot 0 (by omega))]
    exact ih f (ns.pollRound os w) (by omega) hbefore
      (fun j hj => hnot (j + 1) (by omega)) hready

theorem beforeWait_probes (os : OS) (ns : NecroBrowserService) (w : World) :
    probesIn (ns.beforeWait os w).2.trace = probesIn w.trace := by
  simp only [NecroBrowserService.beforeWait]
  repeat' split
  all_goals simp [probesIn, List.countP_append, List.countP_cons]

theorem waitForAPI_times_out (os : OS) (ns : NecroBrowserService) (w : World)
    (hctx : ∀ w1, os.ctxErr w1 = none)
    (hget : ∀ w1, os.httpGet w1 (2 * Second) ns.healthURL ≠ .ok 200) :
    (ns.waitForAPI os (30 * Second) w).1 =
      some (.errorf "timeout waiting for API to be ready") ∧
    probesIn (ns.waitForAPI os (30 * Second) w).2.trace ≤ probesIn w.trace + 30 := by
  have hfuel : 30 ≤ 30 * Second / Second + 1 := by decide
  have hclock := step_clock_le os w .now
  obtain ⟨h1, h2⟩ := waitLoop_times_out os ns (w.clock + 30 * Second) hctx hget
    (30 * Second / Second + 1) 30 (os.step w .now) hfuel (by omega)
  simp only [NecroBrowserService.waitForAPI, doNow_fst, doNow_snd]
  refine ⟨h1, ?_⟩
  rw [probesIn_now] at h2
  exact h2

theorem waitForAPI_first_ready (os : OS) (ns : NecroBrowserService) (w : World)
    (hctx : ∀ w1, os.ctxErr w1 = none) (k : Nat)
    (hbefore : (ns.pollWorld os k (os.step w .now)).clock < w.clock + 30 * Second)
    (hnot : ∀ j, j < k → ns.pollAnswer os (os.step w .now) j ≠ .ok 200)
    (hready : ns.pollAnswer os (os.step w .now) k = .ok 200) :
    ns.waitForAPI os (30 * Second) w = (none, ns.pollEnd os (os.step w .now) k) := by
  have hk : k < 30 * Second / Second + 1 := by
    have h1 := pollWorld_clock os ns k (os.step w .now)
    have h2 := step_clock_le os w .now
    have h3 : 30 * Second / Second + 1 = 31 := by decide
    have h4 : k * Second < 30 * Second := by omega
    have h5 : k < 30 := Nat.lt_of_mul_lt_mul_right h4
    omega
  simp only [NecroBrowserService.waitForAPI, doNow_fst, doNow_snd]
  exact waitLoop_first_ready os ns _ hctx k _ _ hk hbefore hnot hready

/-- C20. On every host whose context is never done, and in every world in which
the `Start` of the automation worker reaches the readiness wait (the part of
`Start` before the wait succeeds): if no request of `/health` is ever answered
with status 200, `Start` returns "timeout waiting for API to be ready" wrapped
in "necrobrowser API not ready: ", having made at most 30 such requests; and
if the request of some round `k` of the loop is answered with 200, that round
begins before the deadline of 30 seconds, and no earlier round is answered with
200, then the wait, and with it `Start`, returns success right after the
request of round `k`. The clock of a world advances by at least a second over
every sleep of the loop. -/
theorem readiness_wait_bounded (os : OS) (ns : NecroBrowserService) (w : World)
    (hctx : ∀ w1, os.ctxErr w1 = none) (hreach : (ns.beforeWait os w).1 = none) :
    ((∀ w1, os.httpGet w1 (2 * Second) ns.healthURL ≠ .ok 200) →
      (ns.Start os w).1 = some (.wrapf "necrobrowser API not ready: "
        (.errorf "timeout waiting for API to be ready")) ∧
      probesIn (ns.Start os w).2.trace ≤ probesIn w.trace + 30) ∧
    (∀ k, (ns.pollWorld os k (os.step (ns.beforeWait os w).2 .now)).clock <
        (ns.beforeWait os w).2.clock + 30 * Second →
      (∀ j, j < k → ns.pollAnswer os (os.step (ns.beforeWait os w).2 .now) j ≠ .ok 200) →
      ns.pollAnswer os (os.step (ns.beforeWait os w).2 .now) k = .ok 200 →
      ns.waitForAPI os (30 * Second) (ns.beforeWait os w).2 =
        (none, ns.pollEnd os (os.step (ns.beforeWait os w).2 .now) k) ∧
      ns.Start os w = (none, ns.pollEnd os (os.step (ns.beforeWait os w).2 .now) k)) ∧
    (∀ w1, w1.clock + 1 * Second ≤ (ns.pollRound os w1).clock) := by
  refine ⟨?_, ?_, pollRound_clock os ns⟩
  · intro hget
    obtain ⟨h1, h2⟩ := waitForAPI_times_out os ns (ns.beforeWait os w).2 hctx hget
    have hstart : ns.Start os w = (some (.wrapf "necrobrowser API not ready: "
        (.errorf "timeout waiting for API to be ready")),
        (ns.waitForAPI os (30 * Second) (ns.beforeWait os w).2).2) := by
      rw [necro_Start_eq]
      simp only [hreach, h1]
    rw [hstart]
    exact ⟨rfl, by rw [beforeWait_probes] at h2; exact h2⟩
  · intro k hbefore hnot hready
    have hwait := waitForAPI_first_ready os ns (ns.beforeWait os w).2 hctx k hbefore hnot hready
    refine ⟨hwait, ?_⟩
    rw [necro_Start_eq]
    simp only [hreach, hwait]

/-- Witness of C20: on the host `notReadyHost` the `Start` of the automation
worker times out; on the host `slowHost` the request of round 2 is the first
that is answered with 200, and `Start` returns success right after it. -/
theorem readiness_wait_bounded_witness :
    (((NewNecroBrowserService DefaultServiceConfig).Start notReadyHost freshWorld).1 =
        some (.wrapf "necrobrowser API not ready: "
          (.errorf "timeout waiting for API to be ready")) ∧
      probesIn ((NewNecroBrowserService DefaultServiceConfig).Start notReadyHost
        freshWorld).2.trace ≤ probesIn freshWorld.trace + 30) ∧
    (NewNecroBrowserService DefaultServiceConfig).Start slowHost freshWorld =
      (none, (NewNecroBrowserService DefaultServiceConfig).pollEnd slowHost
        (slowHost.step ((NewNecroBrowserService DefaultServiceConfig).beforeWait slowHost
          freshWorld).2 .now) 2) :=
  ⟨(readiness_wait_bounded notReadyHost (NewNecroBrowserService DefaultServiceConfig) freshWorld
      (fun w1 => by simp [notReadyHost, scenarioHost]) (by decide)).1
      (fun w1 => by simp [notReadyHost]),
    ((readiness_wait_bounded slowHost (NewNecroBrowserService DefaultServiceConfig) freshWorld
      (fun w1 => by simp [slowHost, scenarioHost]) (by decide)).2.1 2 (by decide) (by decide)
      (by decide)).2⟩

/-! ## The probes of the adapters (C24, C25) -/

theorem redis_HealthCheck_inactive (os : OS) (rs : RedisService) (w : World) (e : GoError)
    (h : (os.output w true ["systemctl", "is-active", "redis"]).2 = some e) :
    rs.HealthCheck os w = (some (.errorf "redis is not active"),
      os.step w (.output true ["systemctl", "is-active", "redis"])) := by
  rcases ha : os.output w true ["systemctl", "is-active", "redis"] with ⟨o1, e1⟩
  rw [ha] at h
  simp only at h
  subst h
  simp [RedisService.HealthCheck, ha]

theorem redis_HealthCheck_status (os : OS) (rs : RedisService) (w : World)
    (h : (os.output w true ["systemctl", "is-active", "redis"]).2 = none)
    (hne : TrimSpace (os.output w true ["systemctl", "is-active", "redis"]).1 ≠ "active") :
    rs.HealthCheck os w =
      (some (.errorf ("redis status: " ++
        TrimSpace (os.output w true ["systemctl", "is-active", "redis"]).1)),
        os.step w (.output true ["systemctl", "is-active", "redis"])) := by
  rcases ha : os.output w true ["systemctl", "is-active", "redis"] with ⟨o1, e1⟩
  rw [ha] at h hne
  simp only at h hne
  subst h
  simp [RedisService.HealthCheck, ha, hne]

theorem redis_HealthCheck_ping_fails (os : OS) (rs : RedisService) (w : World) (e : GoError)
    (h1 : Answers (os.output w true ["systemctl", "is-active", "redis"]) "active")
    (h : (os.output (os.step w (.output true ["systemctl", "is-active", "redis"])) true
      ["redis-cli", "ping"]).2 = some e) :
    rs.HealthCheck os w = (some (.wrapf "redis ping failed: " e),
      os.step (os.step w (.output true ["systemctl", "is-active", "redis"]))
        (.output true ["redis-cli", "ping"])) := by
  rcases ha : os.output w true ["systemctl", "is-active", "redis"] with ⟨o1, e1⟩
  rcases hp : os.output (os.step w (.output true ["systemctl", "is-active", "redis"])) true
      ["redis-cli", "ping"] with ⟨o2, e2⟩
  rw [ha] at h1
  rw [hp] at h
  obtain ⟨rfl, h1⟩ := h1
  simp only at h1 h
  subst h
  simp [RedisService.HealthCheck, ha, hp, h1]

theorem redis_HealthCheck_ping_response (os : OS) (rs : RedisService) (w : World)
    (h1 : Answers (os.output w true ["systemctl", "is-active", "redis"]) "active")
    (h : (os.output (os.step w (.output true ["systemctl", "is-active", "redis"])) true
      ["redis-cli", "ping"]).2 = none)
    (hne : TrimSpace (os.output (os.step w (.output true ["systemctl", "is-active", "redis"]))
      true ["redis-cli", "ping"]).1 ≠ "PONG") :
    rs.HealthCheck os w =
      (some (.errorf ("unexpected redis ping response: " ++
        (os.output (os.step w (.output true ["systemctl", "is-active", "redis"])) true
          ["redis-cli", "ping"]).1)),
        os.step (os.step w (.output true ["systemctl", "is-active", "redis"]))
          (.output true ["redis-cli", "ping"])) := by
  rcases ha : os.output w true ["systemctl", "is-active", "redis"] with ⟨o1, e1⟩
  rcases hp : os.output (os.step w (.output true ["systemctl", "is-active", "redis"])) true
      ["redis-cli", "ping"] with ⟨o2, e2⟩
  rw [ha] at h1
  rw [hp] at h hne
  obtain ⟨rfl, h1⟩ := h1
  simp only at h1 h hne
  subst h
  simp [RedisService.HealthCheck, ha, hp, h1, hne]

theorem not_Answers (answer : String × Option GoError) (expected : String)
    (h : ¬ Answers answer expected) :
    (∃ e, answer.2 = some e) ∨ (answer.2 = none ∧ TrimSpace answer.1 ≠ expected) := by
  rcases he : answer.2 with _ | e
  · right
    exact ⟨rfl, fun ht => h ⟨he, ht⟩⟩
  · exact Or.inl ⟨e, rfl⟩

/-- C24. On every host and in every world, the `HealthCheck` of the data store
succeeds if and only if the is-active query of the service manager exits
successfully with an output that, trimmed, is "active", and the ping then
exits successfully with an output that, trimmed, is "PONG"; and when the
is-active query does not answer so, the query is the only request of the
check: no ping is issued. -/
theorem redis_HealthCheck_succeeds_iff (os : OS) (rs : RedisService) (w : World) :
    ((rs.HealthCheck os w).1 = none ↔
      Answers (os.output w true ["systemctl", "is-active", "redis"]) "active" ∧
      Answers (os.output (os.step w (.output true ["systemctl", "is-active", "redis"])) true
        ["redis-cli", "ping"]) "PONG") ∧
    (¬ Answers (os.output w true ["systemctl", "is-active", "redis"]) "active" →
      (rs.HealthCheck os w).1 ≠ none ∧
      (rs.HealthCheck os w).2 = os.step w (.output true ["systemctl", "is-active", "redis"])) := by
  have hfail : ¬ Answers (os.output w true ["systemctl", "is-active", "redis"]) "active" →
      (rs.HealthCheck os w).1 ≠ none ∧
      (rs.HealthCheck os w).2 =
        os.step w (.output true ["systemctl", "is-active", "redis"]) := by
    intro h
    rcases not_Answers _ _ h with ⟨e, he⟩ | ⟨he, hne⟩
    · rw [redis_HealthCheck_inactive os rs w e he]
      exact ⟨by simp, rfl⟩
    · rw [redis_HealthCheck_status os rs w he hne]
      exact ⟨by simp, rfl⟩
  refine ⟨⟨?_, ?_⟩, hfail⟩
  · intro h
    by_cases h1 : Answers (os.output w true ["systemctl", "is-active", "redis"]) "active"
    · refine ⟨h1, ?_⟩
      by_contra h2
      rcases not_Answers _ _ h2 with ⟨e, he⟩ | ⟨he, hne⟩
      · rw [redis_HealthCheck_ping_fails os rs w e h1 he] at h
        cases h
      · rw [redis_HealthCheck_ping_response os rs w h1 he hne] at h
        cases h
    · exact absurd h (hfail h1).1
  · rintro ⟨h1, h2⟩
    rw [redis_HealthCheck_up os rs w h1 h2]

/-- Witness of C24: on the host of Scenario A, once the data store is launched,
both probes answer as expected and the check succeeds; on the host `bareHost`
the is-active query fails, and the check fails after that one query. -/
theorem redis_HealthCheck_succeeds_iff_witness :
    ((NewRedisService DefaultServiceConfig).HealthCheck
      (scenarioHost DefaultServiceConfig .nothing) (launchedWorld DefaultServiceConfig)).1 =
      none ∧
    ((NewRedisService DefaultServiceConfig).HealthCheck bareHost freshWorld).1 ≠ none ∧
    ((NewRedisService DefaultServiceConfig).HealthCheck bareHost freshWorld).2 =
      bareHost.step freshWorld (.output true ["systemctl", "is-active", "redis"]) :=
  ⟨(redis_HealthCheck_succeeds_iff (scenarioHost DefaultServiceConfig .nothing)
      (NewRedisService DefaultServiceConfig) (launchedWorld DefaultServiceConfig)).1.2
      ⟨⟨by decide, by decide⟩, ⟨by decide, by decide⟩⟩,
    (redis_HealthCheck_succeeds_iff bareHost (NewRedisService DefaultServiceConfig)
      freshWorld).2 (fun h => absurd h.1 (by decide))⟩

/-- C25. On every host and in every world, each `HealthCheck` returns the error
of the first condition, in its order, that the answers of the host do not
meet, whatever the later probes would answer, and the world it leaves holds
only the probes up to that condition. Proxy: the listing shows "muraena", the
dial of port 80, the dial of port 443, log freshness. Automation worker: the
listing shows "necro", the dial of the API port, the GET of `/health` (an
error of the request, then a status other than 200). Data store: is-active
query (its exit status, then its output), then ping (its exit status, then
its output). The session condition is the substring test of the listing, not
the existence of the session: on the host `lookalikeHost`, where only the
sessions `muraena-backup` and `necromancer` exist and no port accepts a
connection, the `HealthCheck`s report the ports, the later condition. -/
theorem HealthCheck_first_unmet (os : OS) (ms : MuraenaService) (ns : NecroBrowserService)
    (rs : RedisService) (w : World) :
    ((¬ ListingShows os w "muraena" →
        ms.HealthCheck os w = (some (.errorf "muraena screen session not found"),
          os.step w (.output false ["screen", "-list"]))) ∧
      (ListingShows os w "muraena" →
        os.dial (os.step w (.output false ["screen", "-list"])) "tcp" "localhost:80"
          (2 * Second) ≠ none →
        ms.HealthCheck os w = (some (.errorf "port 80 not listening"),
          os.step (os.step w (.output false ["screen", "-list"]))
            (.dial "tcp" "localhost:80" (2 * Second)))) ∧
      (ListingShows os w "muraena" →
        os.dial (os.step w (.output false ["screen", "-list"])) "tcp" "localhost:80"
          (2 * Second) = none →
        os.dial (os.step (os.step w (.output false ["screen", "-list"]))
          (.dial "tcp" "localhost:80" (2 * Second))) "tcp" "localhost:443" (2 * Second) ≠
          none →
        ms.HealthCheck os w = (some (.errorf "port 443 not listening"),
          os.step (os.step (os.step w (.output false ["screen", "-list"]))
            (.dial "tcp" "localhost:80" (2 * Second)))
            (.dial "tcp" "localhost:443" (2 * Second)))) ∧
      (∀ modTime, ListingShows os w "muraena" →
        os.dial (os.step w (.output false ["screen", "-list"])) "tcp" "localhost:80"
          (2 * Second) = none →
        os.dial (os.step (os.step w (.output false ["screen", "-list"]))
          (.dial "tcp" "localhost:80" (2 * Second))) "tcp" "localhost:443" (2 * Second) =
          none →
        os.stat (os.step (os.step (os.step w (.output false ["screen", "-list"]))
          (.dial "tcp" "localhost:80" (2 * Second)))
          (.dial "tcp" "localhost:443" (2 * Second))) ms.logPath = .ok modTime →
        os.wallNow (os.step (os.step (os.step (os.step w (.output false ["screen", "-list"]))
          (.dial "tcp" "localhost:80" (2 * Second)))
          (.dial "tcp" "localhost:443" (2 * Second))) (.stat ms.logPath)) - modTime >
            ((5 * Minute : Nat) : Int) →
        ms.HealthCheck os w = (some (.errorf (staleLogMessage os modTime)),
          os.step (os.step (os.step (os.step (os.step w (.output false ["screen", "-list"]))
            (.dial "tcp" "localhost:80" (2 * Second)))
            (.dial "tcp" "localhost:443" (2 * Second))) (.stat ms.logPath)) .now))) ∧
    ((¬ ListingShows os w "necro" →
        ns.HealthCheck os w = (some (.errorf "necrobrowser screen session not found"),
          os.step w (.output false ["screen", "-list"]))) ∧
      (ListingShows os w "necro" →
        os.dial (os.step w (.output false ["screen", "-list"])) "tcp"
          ("localhost:" ++ toString ns.apiPort) (2 * Second) ≠ none →
        ns.HealthCheck os w =
          (some (.errorf ("API port " ++ toString ns.apiPort ++ " not listening")),
            os.step (os.step w (.output false ["screen", "-list"]))
              (.dial "tcp" ("localhost:" ++ toString ns.apiPort) (2 * Second)))) ∧
      (∀ err, ListingShows os w "necro" →
        os.dial (os.step w (.output false ["screen", "-list"])) "tcp"
          ("localhost:" ++ toString ns.apiPort) (2 * Second) = none →
        os.httpGet (os.step (os.step w (.output false ["screen", "-list"]))
          (.dial "tcp" ("localhost:" ++ toString ns.apiPort) (2 * Second))) (5 * Second)
          ns.healthURL = .error err →
        ns.HealthCheck os w = (some (.wrapf "API health check failed: " err),
          os.step (os.step (os.step w (.output false ["screen", "-list"]))
            (.dial "tcp" ("localhost:" ++ toString ns.apiPort) (2 * Second)))
            (.httpGet (5 * Second) ns.healthURL))) ∧
      (∀ code, ListingShows os w "necro" →
        os.dial (os.step w (.output false ["screen", "-list"])) "tcp"
          ("localhost:" ++ toString ns.apiPort) (2 * Second) = none →
        os.httpGet (os.step (os.step w (.output false ["screen", "-list"]))
          (.dial "tcp" ("localhost:" ++ toString ns.apiPort) (2 * Second))) (5 * Second)
          ns.healthURL = .ok code → code ≠ 200 →
        ns.HealthCheck os w = (some (.errorf ("API returned status " ++ toString code)),
          os.step (os.step (os.step w (.output false ["screen", "-list"]))
            (.dial "tcp" ("localhost:" ++ toString ns.apiPort) (2 * Second)))
            (.httpGet (5 * Second) ns.healthURL)))) ∧
    ((∀ e, (os.output w true ["systemctl", "is-active", "redis"]).2 = some e →
        rs.HealthCheck os w = (some (.errorf "redis is not active"),
          os.step w (.output true ["systemctl", "is-active", "redis"]))) ∧
      ((os.output w true ["systemctl", "is-active", "redis"]).2 = none →
        TrimSpace (os.output w true ["systemctl", "is-active", "redis"]).1 ≠ "active" →
        rs.HealthCheck os w =
          (some (.errorf ("redis status: " ++
            TrimSpace (os.output w true ["systemctl", "is-active", "redis"]).1)),
            os.step w (.output true ["systemctl", "is-active", "redis"]))) ∧
      (∀ e, Answers (os.output w true ["systemctl", "is-active", "redis"]) "active" →
        (os.output (os.step w (.output true ["systemctl", "is-active", "redis"])) true
          ["redis-cli", "ping"]).2 = some e →
        rs.HealthCheck os w = (some (.wrapf "redis ping failed: " e),
          os.step (os.step w (.output true ["systemctl", "is-active", "redis"]))
            (.output true ["redis-cli", "ping"]))) ∧
      (Answers (os.output w true ["systemctl", "is-active", "redis"]) "active" →
        (os.output (os.step w (.output true ["systemctl", "is-active", "redis"])) true
          ["redis-cli", "ping"]).2 = none →
        TrimSpace (os.output (os.step w (.output true ["systemctl", "is-active", "redis"]))
          true ["redis-cli", "ping"]).1 ≠ "PONG" →
        rs.HealthCheck os w =
          (some (.errorf ("unexpected redis ping response: " ++
            (os.output (os.step w (.output true ["systemctl", "is-active", "redis"])) true
              ["redis-cli", "ping"]).1)),
            os.step (os.step w (.output true ["systemctl", "is-active", "redis"]))
              (.output true ["redis-cli", "ping"])))) ∧
    (specListedSessions (lookalikeHost.output freshWorld false ["screen", "-list"]).1 =
        ["muraena-backup", "necromancer"] ∧
      ((NewMuraenaService DefaultServiceConfig).HealthCheck lookalikeHost freshWorld).1 =
        some (.errorf "port 80 not listening") ∧
      ((NewNecroBrowserService DefaultServiceConfig).HealthCheck lookalikeHost freshWorld).1 =
        some (.errorf "API port 3000 not listening")) := by
  have m80 : ∀ b, (ms.probes os w).port80 = b ↔
      (os.dial (os.step w (.output false ["screen", "-list"])) "tcp" "localhost:80"
        (2 * Second)).isNone = b := fun _ => Iff.rfl
  have m443 : ∀ b, (ms.probes os w).port443 = b ↔
      (os.dial (os.step (os.step w (.output false ["screen", "-list"]))
        (.dial "tcp" "localhost:80" (2 * Second))) "tcp" "localhost:443"
        (2 * Second)).isNone = b := fun _ => Iff.rfl
  have nport : ∀ b, (ns.probes os w).port = b ↔
      (os.dial (os.step w (.output false ["screen", "-list"])) "tcp"
        ("localhost:" ++ toString ns.apiPort) (2 * Second)).isNone = b := fun _ => Iff.rfl
  have ms1 : ListingShows os w "muraena" → ¬ (ms.probes os w).session = false :=
    fun h hf => (muraena_session_false_iff os ms w).1 hf h
  have ns1 : ListingShows os w "necro" → ¬ (ns.probes os w).session = false :=
    fun h hf => (necro_session_false_iff os ns w).1 hf h
  refine ⟨⟨?_, ?_, ?_, ?_⟩, ⟨?_, ?_, ?_, ?_⟩, ⟨?_, ?_, ?_, ?_⟩,
    ⟨by decide, by decide, by decide⟩⟩
  · intro h1
    rw [muraena_HealthCheck_cases, if_pos ((muraena_session_false_iff os ms w).2 h1)]
  · intro h1 h2
    rw [muraena_HealthCheck_cases, if_neg (ms1 h1),
      if_pos ((m80 false).2 ((isNone_false_iff _).2 h2))]
  · intro h1 h2 h3
    rw [muraena_HealthCheck_cases, if_neg (ms1 h1),
      if_neg (by rw [m80 false, h2]; simp),
      if_pos ((m443 false).2 ((isNone_false_iff _).2 h3))]
  · intro modTime h1 h2 h3 h4 h5
    have hlog : (ms.probes os w).log = .ok modTime := h4
    have hnow : (ms.probes os w).now - modTime > ((5 * Minute : Nat) : Int) := h5
    rw [muraena_HealthCheck_cases, if_neg (ms1 h1), if_neg (by rw [m80 false, h2]; simp),
      if_neg (by rw [m443 false, h3]; simp)]
    simp only [hlog]
    rw [if_pos hnow]
    rfl
  · intro h1
    rw [necro_HealthCheck_cases, if_pos ((necro_session_false_iff os ns w).2 h1)]
  · intro h1 h2
    rw [necro_HealthCheck_cases, if_neg (ns1 h1),
      if_pos ((nport false).2 ((isNone_false_iff _).2 h2))]
  · intro err h1 h2 h3
    have hhttp : (ns.probes os w).http = .error err := h3
    rw [necro_HealthCheck_cases, if_neg (ns1 h1), if_neg (by rw [nport false, h2]; simp)]
    simp only [hhttp]
  · intro code h1 h2 h3 h4
    have hhttp : (ns.probes os w).http = .ok code := h3
    rw [necro_HealthCheck_cases, if_neg (ns1 h1), if_neg (by rw [nport false, h2]; simp)]
    simp only [hhttp]
    rw [if_pos h4]
  · exact fun e h => redis_HealthCheck_inactive os rs w e h
  · exact fun h hne => redis_HealthCheck_status os rs w h hne
  · exact fun e h1 h => redis_HealthCheck_ping_fails os rs w e h1 h
  · exact fun h1 h hne => redis_HealthCheck_ping_response os rs w h1 h hne

/-- Witness of C25: on the host `bareHost` no condition of any adapter is met
(`screen -list` fails, no port accepts a connection, the is-active query and
the ping both fail), and each `HealthCheck` returns the error of its first
condition after its first probe only. -/
theorem HealthCheck_first_unmet_witness :
    (bareHost.dial (bareHost.step freshWorld (.output false ["screen", "-list"])) "tcp"
      "localhost:80" (2 * Second)) ≠ none ∧
    (NewMuraenaService DefaultServiceConfig).HealthCheck bareHost freshWorld =
      (some (.errorf "muraena screen session not found"),
        bareHost.step freshWorld (.output false ["screen", "-list"])) ∧
    (bareHost.dial (bareHost.step freshWorld (.output false ["screen", "-list"])) "tcp"
      "localhost:3000" (2 * Second)) ≠ none ∧
    (NewNecroBrowserService DefaultServiceConfig).HealthCheck bareHost freshWorld =
      (some (.errorf "necrobrowser screen session not found"),
        bareHost.step freshWorld (.output false ["screen", "-list"])) ∧
    (bareHost.output (bareHost.step freshWorld (.output true ["systemctl", "is-active", "redis"]))
      true ["redis-cli", "ping"]).2 ≠ none ∧
    (NewRedisService DefaultServiceConfig).HealthCheck bareHost freshWorld =
      (some (.errorf "redis is not active"),
        bareHost.step freshWorld (.output true ["systemctl", "is-active", "redis"])) :=
  ⟨by decide,
    (HealthCheck_first_unmet bareHost (NewMuraenaService DefaultServiceConfig)
      (NewNecroBrowserService DefaultServiceConfig) (NewRedisService DefaultServiceConfig)
      freshWorld).1.1 (by decide),
    by decide,
    (HealthCheck_first_unmet bareHost (NewMuraenaService DefaultServiceConfig)
      (NewNecroBrowserService DefaultServiceConfig) (NewRedisService DefaultServiceConfig)
      freshWorld).2.1.1 (by decide),
    by decide,
    (HealthCheck_first_unmet bareHost (NewMuraenaService DefaultServiceConfig)
      (NewNecroBrowserService DefaultServiceConfig) (NewRedisService DefaultServiceConfig)
      freshWorld).2.2.1.1 (.errorf "exit status 3") rfl⟩

/-! ## StartAll on a healthy data store (C27) -/

/-- C27. `StartAll` is not idempotent. On every host and in every state in
which the is-active query of the data store answers "active" and the ping then
answers "PONG", with no condition on the proxy or the automation worker:
`StartAll` of the orchestrator that `NewManager` builds returns "redis is
already running" wrapped in "failed to start redis: "; the only requests to
the host are the two probes of the data store, so no start command is
issued; and the only adapter method invoked is the `Start` of redis. -/
theorem StartAll_not_idempotent (os : OS) (config : Option ServiceConfig)
    (visit : List String) (s : MState World)
    (h1 : Answers (os.output s.inner true ["systemctl", "is-active", "redis"]) "active")
    (h2 : Answers (os.output (os.step s.inner (.output true ["systemctl", "is-active", "redis"]))
      true ["redis-cli", "ping"]) "PONG") :
    (NewManager os config).StartAll visit s =
      (some (.wrapf "failed to start redis: " (.errorf "redis is already running")),
        { inner := os.step (os.step s.inner (.output true ["systemctl", "is-active", "redis"]))
            (.output true ["redis-cli", "ping"]),
          log := s.log ++ [.call "redis" .Start (some (.errorf "redis is already running"))] }) ∧
    (GoError.wrapf "failed to start redis: " (.errorf "redis is already running")).Error =
      "failed to start redis: redis is already running" ∧
    ((NewManager os config).StartAll visit s).2.inner.trace =
      s.inner.trace ++ [.output true ["systemctl", "is-active", "redis"],
        .output true ["redis-cli", "ping"]] ∧
    callsOf .Start ((NewManager os config).StartAll visit s).2.log =
      callsOf .Start s.log ++ ["redis"] := by
  obtain ⟨cfg, hm⟩ := NewManager_eq os config
  have hup : ((NewRedisService cfg).HealthCheck os s.inner).1 = none := by
    rw [redis_HealthCheck_up os (NewRedisService cfg) s.inner h1 h2]
  have hstart := redis_Start_running os (NewRedisService cfg) s.inner hup
  have hall : (NewManager os config).StartAll visit s =
      (some (.wrapf "failed to start redis: " (.errorf "redis is already running")),
        { inner := os.step (os.step s.inner (.output true ["systemctl", "is-active", "redis"]))
            (.output true ["redis-cli", "ping"]),
          log := s.log ++
            [.call "redis" .Start (some (.errorf "redis is already running"))] }) := by
    rw [hm, StartAll_of_startLoop_fails _ _ _ _ _
      (startLoop_first_fails cfg os.doSleep ((NewRedisService cfg).toService os)
        ((NewMuraenaService cfg).toService os) ((NewNecroBrowserService cfg).toService os) s
        (.errorf "redis is already running")
        (by simp only [RedisService.toService, hstart]))]
    simp only [RedisService.toService, hstart]
  refine ⟨hall, by decide, ?_, ?_⟩
  · rw [hall]
    simp [step_trace]
  · rw [hall]
    simp [callsOf_append, callsOf]

/-- Witness of C27: on the host of Scenario A, in a world where only the data
store has been launched, the data store is healthy and `StartAll` fails with
"failed to start redis: redis is already running" after the two probes. -/
theorem StartAll_not_idempotent_witness :
    ((NewManager (scenarioHost DefaultServiceConfig .nothing) none).StartAll
      ["redis", "muraena", "necrobrowser"]
      { inner := { trace := [launchRedis], clock := 0 }, log := [] }).1 =
      some (.wrapf "failed to start redis: " (.errorf "redis is already running")) :=
  congrArg Prod.fst (StartAll_not_idempotent (scenarioHost DefaultServiceConfig .nothing) none
    ["redis", "muraena", "necrobrowser"]
    { inner := { trace := [launchRedis], clock := 0 }, log := [] }
    ⟨by decide, by decide⟩ ⟨by decide, by decide⟩).1

/-! ## Running and healthy in the status records (C29) -/

/-- C29. The status record of the data store has `Running = Healthy` on every
host and in every world; on the host `pingFailsHost`, where the service
manager reports the store active and only the ping fails, both are false.
For the proxy and for the automation worker there are a host and a world in
which the record has `Running = true` and `Healthy = false`: the proxy with a
stale log on `staleLogHost`, the automation worker with `/health` answering
503 on `notReadyHost`, each with its session up. -/
theorem redis_GetStatus_running_eq_healthy (os : OS) (rs : RedisService) (w : World) :
    (rs.GetStatus os w).1.Running = (rs.GetStatus os w).1.Healthy ∧
    (TrimSpace (pingFailsHost.output (launchedWorld DefaultServiceConfig) true
        ["systemctl", "is-active", "redis"]).1 = "active" ∧
      (pingFailsHost.output (launchedWorld DefaultServiceConfig) true
        ["systemctl", "is-active", "redis"]).2 = none ∧
      ((NewRedisService DefaultServiceConfig).GetStatus pingFailsHost
        (launchedWorld DefaultServiceConfig)).1.Running = false ∧
      ((NewRedisService DefaultServiceConfig).GetStatus pingFailsHost
        (launchedWorld DefaultServiceConfig)).1.Healthy = false) ∧
    (∃ (os1 : OS) (ms : MuraenaService) (w1 : World),
      (ms.GetStatus os1 w1).1.Running = true ∧ (ms.GetStatus os1 w1).1.Healthy = false) ∧
    (∃ (os2 : OS) (ns : NecroBrowserService) (w2 : World),
      (ns.GetStatus os2 w2).1.Running = true ∧ (ns.GetStatus os2 w2).1.Healthy = false) := by
  refine ⟨?_, ⟨by decide, by decide, by decide, by decide⟩, ?_, ?_⟩
  · rcases h : (rs.HealthCheck os w).1 with _ | err
    · rw [redis_GetStatus_passes os rs w h]
    · rw [redis_GetStatus_fails os rs w err h]
  · exact ⟨staleLogHost, NewMuraenaService DefaultServiceConfig,
      launchedWorld DefaultServiceConfig, by decide, by decide⟩
  · exact ⟨notReadyHost, NewNecroBrowserService DefaultServiceConfig,
      launchedWorld DefaultServiceConfig, by decide, by decide⟩

/-! ## Registration keys and display names (C22) -/

theorem mapGet_mapSet {V : Type} (m : List (String × V)) (key : String) (value : V)
    (k : String) :
    mapGet (mapSet m key value) k = if key = k then some value else mapGet m k := by
  induction m with
  | nil => simp [mapSet, mapGet]
  | cons p rest ih =>
    obtain ⟨k0, v0⟩ := p
    by_cases h0 : k0 = key
    · subst h0
      by_cases hk : k0 = k <;> simp [mapSet, mapGet, hk]
    · by_cases hk : key = k
      · subst hk
        simp [mapSet, mapGet, h0, ih]
      · simp only [mapSet, if_neg h0, mapGet, ih, if_neg hk]

theorem statusLoop_entries {S : Type} (m : Manager S) (P : String → ServiceStatus → Prop)
    (hP : ∀ k service t, mapGet m.services k = some service → P k (service.GetStatus t).1)
    (visit : List String) :
    ∀ (status : List (String × ServiceStatus)) (s : MState S),
      (∀ k st, mapGet status k = some st → P k st) →
      ∀ k st, mapGet (m.statusLoop visit status s).1 k = some st → P k st := by
  induction visit with
  | nil =>
    intro status s hacc k st h
    exact hacc k st h
  | cons name rest ih =>
    intro status s hacc k st h
    rcases hget : mapGet m.services name with _ | service
    · simp only [Manager.statusLoop, hget] at h
      exact ih status s hacc k st h
    · simp only [Manager.statusLoop, hget] at h
      refine ih _ _ ?_ k st h
      intro k1 st1 h1
      rw [mapGet_mapSet] at h1
      by_cases hk : name = k1
      · subst hk
        rw [if_pos rfl] at h1
        cases h1
        exact hP _ service s.inner hget
      · rw [if_neg hk] at h1
        exact hacc k1 st1 h1

theorem redis_GetStatus_Name (os : OS) (rs : RedisService) (w : World) :
    (rs.GetStatus os w).1.Name = "Redis" := by
  simp only [RedisService.GetStatus]
  split <;> rfl

theorem muraena_GetStatus_Name (os : OS) (ms : MuraenaService) (w : World) :
    (ms.GetStatus os w).1.Name = "Muraena" := by
  simp only [MuraenaService.GetStatus]
  split
  · split <;> rfl
  · rfl

theorem necro_GetStatus_Name (os : OS) (ns : NecroBrowserService) (w : World) :
    (ns.GetStatus os w).1.Name = "NecroBrowser" := by
  simp only [NecroBrowserService.GetStatus]
  split
  · split <;> rfl
  · rfl

/-- C22, counterexample. The data-store adapter is registered under the key
"redis" and its `GetName` is "Redis": on the host `bareHost`, with the default
configuration, `GetService` of that `GetName` fails with "service not found:
Redis", and the entry of the aggregate `GetStatus` under the key "redis" has
the `Name` "Redis", which is not its key. -/
theorem GetName_registration_counterexample :
    (NewRedisService DefaultServiceConfig).GetName = "Redis" ∧
    (NewManager bareHost none).services.map Prod.fst = ["redis", "muraena", "necrobrowser"] ∧
    (∃ e, (NewManager bareHost none).GetService (NewRedisService DefaultServiceConfig).GetName =
      .error e ∧ e.Error = "service not found: Redis") ∧
    (mapGet ((NewManager bareHost none).GetStatus ["redis", "muraena", "necrobrowser"]
      freshHost).1 "redis").map ServiceStatus.Name = some "Redis" :=
  ⟨rfl, by decide, ⟨.errorf "service not found: Redis", rfl, by decide⟩, by decide⟩

/-- C22, amended. For the orchestrator that `NewManager` builds, on every host:
the adapters are registered under the keys "redis", "muraena" and
"necrobrowser", and their `GetName` are "Redis", "Muraena" and "NecroBrowser";
for each registered adapter `GetService` of its key returns it and
`GetService` of its `GetName` fails with "service not found: <GetName>"; and
every entry of the aggregate `GetStatus`, under a key `k`, has as `Name` the
`GetName` of the adapter registered under `k`, which differs from `k`; and
the error of a failed `Start` of the data store is tagged by `StartAll` with
the key, "failed to start redis: ". -/
theorem GetName_is_display_name (os : OS) (config : Option ServiceConfig)
    (visit : List String) (s : MState World) :
    (∀ e, ((NewRedisService (orDefault config)).Start os s.inner).1 = some e →
      ((NewManager os config).StartAll visit s).1 = some (.wrapf "failed to start redis: " e)) ∧
    (NewManager os config).services.map (fun p => (p.1, p.2.GetName)) =
      [("redis", "Redis"), ("muraena", "Muraena"), ("necrobrowser", "NecroBrowser")] ∧
    (∀ p ∈ (NewManager os config).services,
      (NewManager os config).GetService p.1 = .ok p.2 ∧
      (NewManager os config).GetService p.2.GetName =
        .error (.errorf ("service not found: " ++ p.2.GetName))) ∧
    (∀ k st, mapGet ((NewManager os config).GetStatus visit s).1 k = some st →
      (mapGet (NewManager os config).services k).map Service.GetName = some st.Name ∧
      st.Name ≠ k) := by
  refine ⟨?_, ?_⟩
  · intro e he
    have hm : NewManager os config = registerServices (orDefault config) os.doSleep
        ((NewRedisService (orDefault config)).toService os)
        ((NewMuraenaService (orDefault config)).toService os)
        ((NewNecroBrowserService (orDefault config)).toService os) := rfl
    rw [hm, StartAll_of_startLoop_fails _ _ _ _ _
      (startLoop_first_fails _ os.doSleep _ _ _ s e (by simpa [RedisService.toService] using he))]
  obtain ⟨cfg, hm⟩ := NewManager_eq os config
  rw [hm]
  refine ⟨?_, ?_, ?_⟩
  · rw [registerServices_services]
    rfl
  · intro p hp
    have hok := (GetService_register cfg os.doSleep ((NewRedisService cfg).toService os)
      ((NewMuraenaService cfg).toService os) ((NewNecroBrowserService cfg).toService os)
      p.1).2 p.2 hp
    refine ⟨hok, ?_⟩
    rw [registerServices_services] at hp
    simp only [List.mem_cons, List.mem_singleton, List.not_mem_nil, or_false] at hp
    rcases hp with rfl | rfl | rfl
    · exact (GetService_register cfg os.doSleep _ _ _ "Redis").1 (by decide)
    · exact (GetService_register cfg os.doSleep _ _ _ "Muraena").1 (by decide)
    · exact (GetService_register cfg os.doSleep _ _ _ "NecroBrowser").1 (by decide)
  · refine statusLoop_entries _ (fun k st =>
      (mapGet (registerServices cfg os.doSleep ((NewRedisService cfg).toService os)
        ((NewMuraenaService cfg).toService os)
        ((NewNecroBrowserService cfg).toService os)).services k).map Service.GetName =
        some st.Name ∧ st.Name ≠ k) ?_ visit [] s ?_
    · intro k service t hget
      rw [hget]
      rw [mapGet_register] at hget
      split_ifs at hget with h1 h2 h3
      · cases hget
        subst h1
        exact ⟨by simp [RedisService.toService, redis_GetStatus_Name, RedisService.GetName],
          by simp [RedisService.toService, redis_GetStatus_Name]⟩
      · cases hget
        subst h2
        exact ⟨by simp [MuraenaService.toService, muraena_GetStatus_Name,
            MuraenaService.GetName],
          by simp [MuraenaService.toService, muraena_GetStatus_Name]⟩
      · cases hget
        subst h3
        exact ⟨by simp [NecroBrowserService.toService, necro_GetStatus_Name,
            NecroBrowserService.GetName],
          by simp [NecroBrowserService.toService, necro_GetStatus_Name]⟩
    · intro k st h
      simp [mapGet] at h

/-- Witness of C22, amended: on the host `bareHost` the `Start` of the data
store fails and `StartAll` tags the error with the key "redis"; the entry of
the aggregate `GetStatus` under the key "redis" is the status of the data
store, named "Redis". -/
theorem GetName_is_display_name_witness :
    ((NewManager bareHost none).StartAll ["redis", "muraena", "necrobrowser"] freshHost).1 =
      some (.wrapf "failed to start redis: "
        (.wrapf "failed to start redis: " (.errorf "exit status 5"))) ∧
    (mapGet (NewManager bareHost none).services "redis").map Service.GetName = some "Redis" ∧
    "Redis" ≠ "redis" :=
  ⟨(GetName_is_display_name bareHost none ["redis", "muraena", "necrobrowser"] freshHost).1
      (.wrapf "failed to start redis: " (.errorf "exit status 5")) (by decide),
    (GetName_is_display_name bareHost none ["redis", "muraena", "necrobrowser"] freshHost).2.2.2
      "redis"
      { Name := "Redis", Ports := [6379], Running := false, Healthy := false,
        Errors := ["redis is not active"] }
      (by decide)⟩

/-! ## A failed start of the automation worker (C30) -/

theorem commandsOf_append (t l : List OSCall) :
    commandsOf (t ++ l) = commandsOf t ++ commandsOf l := by
  simp [commandsOf, List.filterMap_append]

theorem waitLoop_commands (os : OS) (ns : NecroBrowserService) (deadline fuel : Nat) :
    ∀ w : World, commandsOf (ns.waitLoop os deadline fuel w).2.trace = commandsOf w.trace := by
  induction fuel with
  | zero =>
    intro w
    simp [NecroBrowserService.waitLoop, commandsOf_append, commandsOf]
  | succ n ih =>
    intro w
    simp only [NecroBrowserService.waitLoop]
    repeat' split
    all_goals first
      | (rw [ih]; simp [OS.doCtxDone, OS.doHttpGet, commandsOf_append, commandsOf])
      | simp [OS.doCtxDone, OS.doHttpGet, commandsOf_append, commandsOf]

theorem waitForAPI_commands (os : OS) (ns : NecroBrowserService) (timeout : Nat) (w : World) :
    commandsOf (ns.waitForAPI os timeout w).2.trace = commandsOf w.trace := by
  simp only [NecroBrowserService.waitForAPI]
  rw [waitLoop_commands]
  simp [commandsOf_append, commandsOf]

theorem necro_Start_commands_eq (os : OS) (ns : NecroBrowserService) (w : World) :
    commandsOf (ns.Start os w).2.trace = commandsOf (ns.beforeWait os w).2.trace := by
  rw [necro_Start_eq]
  repeat' split
  all_goals simp [waitForAPI_commands]

theorem beforeWait_commands (os : OS) (ns : NecroBrowserService) (w : World) :
    commandsOf (ns.beforeWait os w).2.trace = commandsOf w.trace ++ [["screen", "-list"]] ∨
    commandsOf (ns.beforeWait os w).2.trace = commandsOf w.trace ++
      [["screen", "-list"], ["screen", "-dmS", "necro", "bash", "-c", ns.screenCmd]] ∨
    commandsOf (ns.beforeWait os w).2.trace = commandsOf w.trace ++
      [["screen", "-list"], ["screen", "-dmS", "necro", "bash", "-c", ns.screenCmd],
        ["screen", "-list"]] := by
  simp only [NecroBrowserService.beforeWait]
  repeat' split
  all_goals simp [commandsOf_append, commandsOf]

/-- C30. On every host and in every world, the commands that the `Start` of
the automation worker issues are the session listing alone, or the listing
and the launch, or the listing, the launch and the listing after the 3-second
delay: whatever the outcome, the failures after a successful launch included
(session not found, readiness timeout, cancellation), no command that ends
the session is issued. And when the listing after that `Start` still shows
the session, a `Start` that follows at once returns "necrobrowser is already
running" and its only request is that listing: the launch is not retried. -/
theorem Start_failure_keeps_session (os : OS) (ns : NecroBrowserService) (w : World) :
    (commandsOf (ns.Start os w).2.trace = commandsOf w.trace ++ [["screen", "-list"]] ∨
      commandsOf (ns.Start os w).2.trace = commandsOf w.trace ++
        [["screen", "-list"], ["screen", "-dmS", "necro", "bash", "-c", ns.screenCmd]] ∨
      commandsOf (ns.Start os w).2.trace = commandsOf w.trace ++
        [["screen", "-list"], ["screen", "-dmS", "necro", "bash", "-c", ns.screenCmd],
          ["screen", "-list"]]) ∧
    (["screen", "-S", "necro", "-X", "quit"] ∉ commandsOf w.trace →
      ["screen", "-S", "necro", "-X", "quit"] ∉ commandsOf (ns.Start os w).2.trace) ∧
    ((ns.isRunning os (ns.Start os w).2).1 = true →
      ns.Start os (ns.Start os w).2 =
        (some (.errorf "necrobrowser is already running"),
          os.step (ns.Start os w).2 (.output false ["screen", "-list"]))) := by
  have hcmd := beforeWait_commands os ns w
  rw [← necro_Start_commands_eq] at hcmd
  refine ⟨hcmd, ?_, fun h => necro_Start_running os ns _ h⟩
  intro hq
  rcases hcmd with h | h | h <;> rw [h] <;> simp [hq]

/-- Witness of C30: on the host of Scenario A on which the context is
cancelled once the session is launched, the `Start` of the automation worker
launches the session and fails in the readiness wait; the session persists,
and the `Start` that follows fails with "necrobrowser is already running". -/
theorem Start_failure_keeps_session_witness :
    ((NewNecroBrowserService DefaultServiceConfig).Start
      (scenarioHost DefaultServiceConfig .ctxCancelled) freshWorld).1 =
      some (.wrapf "necrobrowser API not ready: " (.errorf "context canceled")) ∧
    launchNecro (NewNecroBrowserService DefaultServiceConfig) ∈
      ((NewNecroBrowserService DefaultServiceConfig).Start
        (scenarioHost DefaultServiceConfig .ctxCancelled) freshWorld).2.trace ∧
    ["screen", "-S", "necro", "-X", "quit"] ∉
      commandsOf ((NewNecroBrowserService DefaultServiceConfig).Start
        (scenarioHost DefaultServiceConfig .ctxCancelled) freshWorld).2.trace ∧
    ((NewNecroBrowserService DefaultServiceConfig).Start
      (scenarioHost DefaultServiceConfig .ctxCancelled)
      ((NewNecroBrowserService DefaultServiceConfig).Start
        (scenarioHost DefaultServiceConfig .ctxCancelled) freshWorld).2).1 =
      some (.errorf "necrobrowser is already running") :=
  ⟨by decide, by decide,
    (Start_failure_keeps_session (scenarioHost DefaultServiceConfig .ctxCancelled)
      (NewNecroBrowserService DefaultServiceConfig) freshWorld).2.1 (by decide),
    congrArg Prod.fst
      ((Start_failure_keeps_session (scenarioHost DefaultServiceConfig .ctxCancelled)
        (NewNecroBrowserService DefaultServiceConfig) freshWorld).2.2 (by decide))⟩

/-! ## The launched command and the validated files (C28) -/

theorem statsOf_append (t l : List OSCall) : statsOf (t ++ l) = statsOf t ++ statsOf l := by
  simp [statsOf, List.filterMap_append]

theorem muraena_Start_commands (os : OS) (ms : MuraenaService) (w : World) :
    commandsOf (ms.Start os w).2.trace = commandsOf w.trace ++ [["screen", "-list"]] ∨
    commandsOf (ms.Start os w).2.trace = commandsOf w.trace ++
      [["screen", "-list"], ["screen", "-dmS", "muraena", "bash", "-c", ms.screenCmd]] ∨
    commandsOf (ms.Start os w).2.trace = commandsOf w.trace ++
      [["screen", "-list"], ["screen", "-dmS", "muraena", "bash", "-c", ms.screenCmd],
        ["screen", "-list"]] := by
  simp only [MuraenaService.Start]
  repeat' split
  all_goals simp [commandsOf_append, commandsOf]

theorem muraena_Start_stats (os : OS) (ms : MuraenaService) (w : World) :
    statsOf (ms.Start os w).2.trace = statsOf w.trace ∨
    statsOf (ms.Start os w).2.trace = statsOf w.trace ++ [ms.binaryPath] ∨
    statsOf (ms.Start os w).2.trace = statsOf w.trace ++ [ms.binaryPath, ms.configPath] := by
  simp only [MuraenaService.Start]
  repeat' split
  all_goals simp [statsOf_append, statsOf]

theorem waitLoop_stats (os : OS) (ns : NecroBrowserService) (deadline fuel : Nat) :
    ∀ w : World, statsOf (ns.waitLoop os deadline fuel w).2.trace = statsOf w.trace := by
  induction fuel with
  | zero =>
    intro w
    simp [NecroBrowserService.waitLoop, statsOf_append, statsOf]
  | succ n ih =>
    intro w
    simp only [NecroBrowserService.waitLoop]
    repeat' split
    all_goals first
      | (rw [ih]; simp [OS.doCtxDone, OS.doHttpGet, statsOf_append, statsOf])
      | simp [OS.doCtxDone, OS.doHttpGet, statsOf_append, statsOf]

theorem necro_Start_stats (os : OS) (ns : NecroBrowserService) (w : World) :
    statsOf (ns.Start os w).2.trace = statsOf w.trace ∨
    statsOf (ns.Start os w).2.trace = statsOf w.trace ++ [ns.binaryPath] ∨
    statsOf (ns.Start os w).2.trace = statsOf w.trace ++ [ns.binaryPath, ns.configPath] := by
  have hwait : statsOf (ns.Start os w).2.trace = statsOf (ns.beforeWait os w).2.trace := by
    rw [necro_Start_eq]
    repeat' split
    all_goals first
      | rfl
      | (simp only [NecroBrowserService.waitForAPI]
         rw [waitLoop_stats]
         simp [statsOf_append, statsOf])
  rw [hwait]
  simp only [NecroBrowserService.beforeWait]
  repeat' split
  all_goals simp [statsOf_append, statsOf]

theorem muraena_Start_launches (os : OS) (ms : MuraenaService) (w : World)
    (hdown : ¬ ListingShows os w "muraena")
    (hbin : os.stat (os.step w (.output false ["screen", "-list"])) ms.binaryPath ≠ .notExist)
    (hcfg : os.stat (os.step (os.step w (.output false ["screen", "-list"]))
      (.stat ms.binaryPath)) ms.configPath ≠ .notExist)
    (hmk : os.mkdirAll (os.step (os.step (os.step w (.output false ["screen", "-list"]))
      (.stat ms.binaryPath)) (.stat ms.configPath)) (Dir ms.logPath) 0o755 = none) :
    statsOf (ms.Start os w).2.trace = statsOf w.trace ++ [ms.binaryPath, ms.configPath] ∧
    (commandsOf (ms.Start os w).2.trace = commandsOf w.trace ++
        [["screen", "-list"], ["screen", "-dmS", "muraena", "bash", "-c", ms.screenCmd]] ∨
      commandsOf (ms.Start os w).2.trace = commandsOf w.trace ++
        [["screen", "-list"], ["screen", "-dmS", "muraena", "bash", "-c", ms.screenCmd],
          ["screen", "-list"]]) := by
  have hrun : (ms.isRunning os w).1 = false := by
    rcases h : (ms.isRunning os w).1
    · rfl
    · exact absurd ((muraena_isRunning_iff os ms w).1 h) hdown
  simp only [MuraenaService.Start, hrun, muraena_isRunning_snd, doStat_fst, doStat_snd,
    doMkdirAll_fst, doMkdirAll_snd, doRun_fst, doRun_snd, doSleep_eq, hbin, hcfg, hmk]
  simp only [Bool.false_eq_true, if_false]
  repeat' split
  all_goals simp [statsOf_append, statsOf, commandsOf_append, commandsOf]

theorem necro_Start_stats_eq (os : OS) (ns : NecroBrowserService) (w : World) :
    statsOf (ns.Start os w).2.trace = statsOf (ns.beforeWait os w).2.trace := by
  rw [necro_Start_eq]
  repeat' split
  all_goals first
    | rfl
    | (simp only [NecroBrowserService.waitForAPI]
       rw [waitLoop_stats]
       simp [statsOf_append, statsOf])

theorem necro_Start_launches (os : OS) (ns : NecroBrowserService) (w : World)
    (hdown : ¬ ListingShows os w "necro")
    (hbin : os.stat (os.step w (.output false ["screen", "-list"])) ns.binaryPath ≠ .notExist)
    (hcfg : os.stat (os.step (os.step w (.output false ["screen", "-list"]))
      (.stat ns.binaryPath)) ns.configPath ≠ .notExist)
    (hmk : os.mkdirAll (os.step (os.step (os.step w (.output false ["screen", "-list"]))
      (.stat ns.binaryPath)) (.stat ns.configPath)) (Dir ns.logPath) 0o755 = none) :
    statsOf (ns.Start os w).2.trace = statsOf w.trace ++ [ns.binaryPath, ns.configPath] ∧
    (commandsOf (ns.Start os w).2.trace = commandsOf w.trace ++
        [["screen", "-list"], ["screen", "-dmS", "necro", "bash", "-c", ns.screenCmd]] ∨
      commandsOf (ns.Start os w).2.trace = commandsOf w.trace ++
        [["screen", "-list"], ["screen", "-dmS", "necro", "bash", "-c", ns.screenCmd],
          ["screen", "-list"]]) := by
  have hrun : (ns.isRunning os w).1 = false := by
    rcases h : (ns.isRunning os w).1
    · rfl
    · exact absurd ((necro_isRunning_iff os ns w).1 h) hdown
  rw [necro_Start_stats_eq, necro_Start_commands_eq]
  simp only [NecroBrowserService.beforeWait, hrun, necro_isRunning_snd, doStat_fst, doStat_snd,
    doMkdirAll_fst, doMkdirAll_snd, doRun_fst, doRun_snd, doSleep_eq, hbin, hcfg, hmk]
  simp only [Bool.false_eq_true, if_false]
  repeat' split
  all_goals simp [statsOf_append, statsOf, commandsOf_append, commandsOf]

/-- C28. For every configuration `config` and every four file names, on every
host and in every world, the adapters built from `config` with those names
behave as follows. The only commands that the `Start` of the proxy issues are
the session listing and the launch of `cd <MuraenaDir> && ./muraena.bin
-config config.toml | tee <log>`, and those of the automation worker the
listing and the launch of `cd <NecroBrowserDir> && npm start | tee <log>`:
neither command mentions any of the four names. The files that the `Start`s
ask `os.Stat` about are `<dir>/<binary name>` and then `<dir>/<config name>`,
with the configured names. When the listing does not show the session,
`os.Stat` finds both files and the log directory can be created, each `Start`
does ask `os.Stat` about exactly these two files, in that order, and does
issue that launch, after the listing. With the default configuration the two
validated files of the proxy are `./muraena.bin` and `config.toml` in
`MuraenaDir`, the launched ones. On the host `decoyHost`, where `muraena.bin`
and `necrobrowser.js` do not exist, each adapter with the default names
refuses to start, and with the binary name `other.bin` (`other.js`) it
validates that file and launches the same command. -/
theorem launch_ignores_file_names (os : OS) (w : World) (config : ServiceConfig)
    (muraenaBinary muraenaConfig necroBinary necroConfig : String) :
    ((NewMuraenaService (withFileNames config muraenaBinary muraenaConfig necroBinary
        necroConfig)).screenCmd =
        "cd " ++ config.MuraenaDir ++ " && ./muraena.bin -config config.toml | tee " ++
          Join config.MuraenaDir "muraena.log" ∧
      (NewNecroBrowserService (withFileNames config muraenaBinary muraenaConfig necroBinary
        necroConfig)).screenCmd =
        "cd " ++ config.NecroBrowserDir ++ " && npm start | tee " ++
          Join (Join config.NecroBrowserDir "logs") "necrobrowser_startup.log") ∧
    ((∀ argv ∈ commandsOf ((NewMuraenaService (withFileNames config muraenaBinary muraenaConfig
        necroBinary necroConfig)).Start os w).2.trace,
        argv ∈ commandsOf w.trace ∨ argv = ["screen", "-list"] ∨
          argv = ["screen", "-dmS", "muraena", "bash", "-c",
            (NewMuraenaService config).screenCmd]) ∧
      (∀ argv ∈ commandsOf ((NewNecroBrowserService (withFileNames config muraenaBinary
        muraenaConfig necroBinary necroConfig)).Start os w).2.trace,
        argv ∈ commandsOf w.trace ∨ argv = ["screen", "-list"] ∨
          argv = ["screen", "-dmS", "necro", "bash", "-c",
            (NewNecroBrowserService config).screenCmd])) ∧
    ((∀ path ∈ statsOf ((NewMuraenaService (withFileNames config muraenaBinary muraenaConfig
        necroBinary necroConfig)).Start os w).2.trace,
        path ∈ statsOf w.trace ∨ path = Join config.MuraenaDir muraenaBinary ∨
          path = Join config.MuraenaDir muraenaConfig) ∧
      (∀ path ∈ statsOf ((NewNecroBrowserService (withFileNames config muraenaBinary
        muraenaConfig necroBinary necroConfig)).Start os w).2.trace,
        path ∈ statsOf w.trace ∨ path = Join config.NecroBrowserDir necroBinary ∨
          path = Join config.NecroBrowserDir necroConfig)) ∧
    ((¬ ListingShows os w "muraena" →
        os.stat (os.step w (.output false ["screen", "-list"]))
          (Join config.MuraenaDir muraenaBinary) ≠ .notExist →
        os.stat (os.step (os.step w (.output false ["screen", "-list"]))
          (.stat (Join config.MuraenaDir muraenaBinary)))
          (Join config.MuraenaDir muraenaConfig) ≠ .notExist →
        os.mkdirAll (os.step (os.step (os.step w (.output false ["screen", "-list"]))
          (.stat (Join config.MuraenaDir muraenaBinary)))
          (.stat (Join config.MuraenaDir muraenaConfig)))
          (Dir (Join config.MuraenaDir "muraena.log")) 0o755 = none →
        statsOf ((NewMuraenaService (withFileNames config muraenaBinary muraenaConfig
          necroBinary necroConfig)).Start os w).2.trace =
          statsOf w.trace ++
            [Join config.MuraenaDir muraenaBinary, Join config.MuraenaDir muraenaConfig] ∧
        (commandsOf ((NewMuraenaService (withFileNames config muraenaBinary muraenaConfig
          necroBinary necroConfig)).Start os w).2.trace =
          commandsOf w.trace ++ [["screen", "-list"],
            ["screen", "-dmS", "muraena", "bash", "-c", (NewMuraenaService config).screenCmd]] ∨
          commandsOf ((NewMuraenaService (withFileNames config muraenaBinary muraenaConfig
            necroBinary necroConfig)).Start os w).2.trace =
          commandsOf w.trace ++ [["screen", "-list"],
            ["screen", "-dmS", "muraena", "bash", "-c", (NewMuraenaService config).screenCmd],
            ["screen", "-list"]])) ∧
      (¬ ListingShows os w "necro" →
        os.stat (os.step w (.output false ["screen", "-list"]))
          (Join config.NecroBrowserDir necroBinary) ≠ .notExist →
        os.stat (os.step (os.step w (.output false ["screen", "-list"]))
          (.stat (Join config.NecroBrowserDir necroBinary)))
          (Join config.NecroBrowserDir necroConfig) ≠ .notExist →
        os.mkdirAll (os.step (os.step (os.step w (.output false ["screen", "-list"]))
          (.stat (Join config.NecroBrowserDir necroBinary)))
          (.stat (Join config.NecroBrowserDir necroConfig)))
          (Dir (Join (Join config.NecroBrowserDir "logs") "necrobrowser_startup.log"))
          0o755 = none →
        statsOf ((NewNecroBrowserService (withFileNames config muraenaBinary muraenaConfig
          necroBinary necroConfig)).Start os w).2.trace =
          statsOf w.trace ++
            [Join config.NecroBrowserDir necroBinary,
              Join config.NecroBrowserDir necroConfig] ∧
        (commandsOf ((NewNecroBrowserService (withFileNames config muraenaBinary muraenaConfig
          necroBinary necroConfig)).Start os w).2.trace =
          commandsOf w.trace ++ [["screen", "-list"],
            ["screen", "-dmS", "necro", "bash", "-c",
              (NewNecroBrowserService config).screenCmd]] ∨
          commandsOf ((NewNecroBrowserService (withFileNames config muraenaBinary
            muraenaConfig necroBinary necroConfig)).Start os w).2.trace =
          commandsOf w.trace ++ [["screen", "-list"],
            ["screen", "-dmS", "necro", "bash", "-c",
              (NewNecroBrowserService config).screenCmd],
            ["screen", "-list"]]))) ∧
    ((NewMuraenaService DefaultServiceConfig).binaryPath =
        Join DefaultServiceConfig.MuraenaDir "./muraena.bin" ∧
      (NewMuraenaService DefaultServiceConfig).configPath =
        Join DefaultServiceConfig.MuraenaDir "config.toml") ∧
    (((NewMuraenaService DefaultServiceConfig).Start decoyHost freshWorld).1 =
        some (.errorf "muraena binary not found: /home/ubuntu/muraena/muraena.bin") ∧
      ((NewMuraenaService (withFileNames DefaultServiceConfig "other.bin" "config.toml"
        "necrobrowser.js" "config.toml")).Start decoyHost freshWorld).1 = none ∧
      statsOf ((NewMuraenaService (withFileNames DefaultServiceConfig "other.bin" "config.toml"
        "necrobrowser.js" "config.toml")).Start decoyHost freshWorld).2.trace =
        ["/home/ubuntu/muraena/other.bin", "/home/ubuntu/muraena/config.toml"] ∧
      commandsOf ((NewMuraenaService (withFileNames DefaultServiceConfig "other.bin"
        "config.toml" "necrobrowser.js" "config.toml")).Start decoyHost freshWorld).2.trace =
        [["screen", "-list"],
          ["screen", "-dmS", "muraena", "bash", "-c",
            "cd /home/ubuntu/muraena && ./muraena.bin -config config.toml | tee " ++
              "/home/ubuntu/muraena/muraena.log"],
          ["screen", "-list"]]) ∧
    (((NewNecroBrowserService DefaultServiceConfig).Start decoyHost freshWorld).1 =
        some (.errorf
          "necrobrowser binary not found: /home/ubuntu/necrobrowser/necrobrowser.js") ∧
      ((NewNecroBrowserService (withFileNames DefaultServiceConfig "muraena.bin" "config.toml"
        "other.js" "config.toml")).Start decoyHost freshWorld).1 = none ∧
      statsOf ((NewNecroBrowserService (withFileNames DefaultServiceConfig "muraena.bin"
        "config.toml" "other.js" "config.toml")).Start decoyHost freshWorld).2.trace =
        ["/home/ubuntu/necrobrowser/other.js", "/home/ubuntu/necrobrowser/config.toml"] ∧
      commandsOf ((NewNecroBrowserService (withFileNames DefaultServiceConfig "muraena.bin"
        "config.toml" "other.js" "config.toml")).Start decoyHost freshWorld).2.trace =
        [["screen", "-list"],
          ["screen", "-dmS", "necro", "bash", "-c",
            "cd /home/ubuntu/necrobrowser && npm start | tee " ++
              "/home/ubuntu/necrobrowser/logs/necrobrowser_startup.log"],
          ["screen", "-list"]]) := by
  refine ⟨⟨rfl, rfl⟩, ⟨?_, ?_⟩, ⟨?_, ?_⟩,
    ⟨fun h1 h2 h3 h4 => muraena_Start_launches os (NewMuraenaService (withFileNames config
        muraenaBinary muraenaConfig necroBinary necroConfig)) w h1 h2 h3 h4,
      fun h1 h2 h3 h4 => necro_Start_launches os (NewNecroBrowserService (withFileNames config
        muraenaBinary muraenaConfig necroBinary necroConfig)) w h1 h2 h3 h4⟩,
    ⟨by decide, by decide⟩,
    ⟨by decide, by decide, by decide, by decide⟩,
    ⟨by decide, by decide, by decide, by decide⟩⟩
  · intro argv h
    have hscreen : (NewMuraenaService (withFileNames config muraenaBinary muraenaConfig
        necroBinary necroConfig)).screenCmd = (NewMuraenaService config).screenCmd := rfl
    rcases muraena_Start_commands os (NewMuraenaService (withFileNames config muraenaBinary
      muraenaConfig necroBinary necroConfig)) w with hc | hc | hc <;>
      rw [hc] at h <;> simp only [hscreen, List.mem_append, List.mem_cons, List.mem_singleton,
        List.not_mem_nil, or_false] at h <;> tauto
  · intro argv h
    have hscreen : (NewNecroBrowserService (withFileNames config muraenaBinary muraenaConfig
        necroBinary necroConfig)).screenCmd = (NewNecroBrowserService config).screenCmd := rfl
    have hb := beforeWait_commands os (NewNecroBrowserService (withFileNames config
      muraenaBinary muraenaConfig necroBinary necroConfig)) w
    rw [← necro_Start_commands_eq] at hb
    rcases hb with hc | hc | hc <;> rw [hc] at h <;>
      simp only [hscreen, List.mem_append, List.mem_cons, List.mem_singleton,
        List.not_mem_nil, or_false] at h <;> tauto
  · intro path h
    have hbin : (NewMuraenaService (withFileNames config muraenaBinary muraenaConfig
        necroBinary necroConfig)).binaryPath = Join config.MuraenaDir muraenaBinary := rfl
    have hcfg : (NewMuraenaService (withFileNames config muraenaBinary muraenaConfig
        necroBinary necroConfig)).configPath = Join config.MuraenaDir muraenaConfig := rfl
    rcases muraena_Start_stats os (NewMuraenaService (withFileNames config muraenaBinary
      muraenaConfig necroBinary necroConfig)) w with hc | hc | hc <;>
      (try rw [hc] at h) <;>
      (try simp only [hbin, hcfg, List.mem_append, List.mem_cons, List.mem_singleton,
        List.not_mem_nil, or_false] at h) <;> tauto
  · intro path h
    have hbin : (NewNecroBrowserService (withFileNames config muraenaBinary muraenaConfig
        necroBinary necroConfig)).binaryPath = Join config.NecroBrowserDir necroBinary := rfl
    have hcfg : (NewNecroBrowserService (withFileNames config muraenaBinary muraenaConfig
        necroBinary necroConfig)).configPath = Join config.NecroBrowserDir necroConfig := rfl
    rcases necro_Start_stats os (NewNecroBrowserService (withFileNames config muraenaBinary
      muraenaConfig necroBinary necroConfig)) w with hc | hc | hc <;>
      (try rw [hc] at h) <;>
      (try simp only [hbin, hcfg, List.mem_append, List.mem_cons, List.mem_singleton,
        List.not_mem_nil, or_false] at h) <;> tauto

/-- Witness of C28: on the host `decoyHost`, with the binary names `other.bin`
and `other.js`, no session is listed, both files of each adapter are found and
the log directories can be created; each `Start` asks `os.Stat` about the
configured names and launches the command of the default names. -/
theorem launch_ignores_file_names_witness :
    statsOf ((NewMuraenaService (withFileNames DefaultServiceConfig "other.bin" "config.toml"
      "other.js" "config.toml")).Start decoyHost freshWorld).2.trace =
      ["/home/ubuntu/muraena/other.bin", "/home/ubuntu/muraena/config.toml"] ∧
    statsOf ((NewNecroBrowserService (withFileNames DefaultServiceConfig "other.bin"
      "config.toml" "other.js" "config.toml")).Start decoyHost freshWorld).2.trace =
      ["/home/ubuntu/necrobrowser/other.js", "/home/ubuntu/necrobrowser/config.toml"] :=
  ⟨((launch_ignores_file_names decoyHost freshWorld DefaultServiceConfig "other.bin"
      "config.toml" "other.js" "config.toml").2.2.2.1.1 (by decide) (by decide) (by decide)
      (by decide)).1.trans (by decide),
    ((launch_ignores_file_names decoyHost freshWorld DefaultServiceConfig "other.bin"
      "config.toml" "other.js" "config.toml").2.2.2.1.2 (by decide) (by decide) (by decide)
      (by decide)).1.trans (by decide)⟩

/-! ## Cancellation (C21) -/

theorem waitLoop_cancelled (os : OS) (ns : NecroBrowserService) (deadline fuel : Nat)
    (w : World) (err : GoError) (hclock : w.clock < deadline)
    (hctx : os.ctxErr (os.step w .now) = some err) :
    ns.waitLoop os deadline (fuel + 1) w = (some err, os.step (os.step w .now) .ctxDone) := by
  simp [NecroBrowserService.waitLoop, OS.doCtxDone, hclock, hctx]

theorem necro_Start_cancelled (os : OS) (ns : NecroBrowserService) (w : World) (err : GoError)
    (hreach : (ns.beforeWait os w).1 = none)
    (hclock : os.elapsed (ns.beforeWait os w).2 .now < 30 * Second)
    (hctx : os.ctxErr (os.step (os.step (ns.beforeWait os w).2 .now) .now) = some err) :
    ns.Start os w = (some (.wrapf "necrobrowser API not ready: " err),
      os.step (os.step (os.step (ns.beforeWait os w).2 .now) .now) .ctxDone) := by
  have hwait : ns.waitForAPI os (30 * Second) (ns.beforeWait os w).2 =
      (some err, os.step (os.step (os.step (ns.beforeWait os w).2 .now) .now) .ctxDone) := by
    simp only [NecroBrowserService.waitForAPI, doNow_fst, doNow_snd]
    have h30 : 30 * Second / Second + 1 = 30 + 1 := by decide
    rw [h30]
    refine waitLoop_cancelled os ns _ 30 _ err ?_ hctx
    simp only [OS.step]
    omega
  rw [necro_Start_eq]
  simp only [hreach, hwait]

/-- C21, as stated, fails. On the host `cancelHost` the context is cancelled
once the command that ends the proxy session has been issued, before the
grace delay of `Stop` begins; the `Stop` of the proxy still sleeps the 2 seconds
of the delay and returns success. -/
theorem waits_observe_cancellation_counterexample :
    cancelHost.ctxErr
      (cancelHost.step (cancelHost.step (launchedWorld DefaultServiceConfig)
        (.output false ["screen", "-list"])) (.run true ["screen", "-S", "muraena", "-X", "quit"]))
      = some (.errorf "context canceled") ∧
    (NewMuraenaService DefaultServiceConfig).Stop cancelHost (launchedWorld DefaultServiceConfig) =
      (none,
        { trace := (launchedWorld DefaultServiceConfig).trace ++
            [.output false ["screen", "-list"],
              .run true ["screen", "-S", "muraena", "-X", "quit"], .sleep (2 * Second)]
          clock := 2 * Second }) := by
  decide

theorem StopAll_ctx_independent (os : OS) (f : World → Option GoError)
    (config : Option ServiceConfig) (s : MState World) :
    (NewManager { os with ctxErr := f } config).StopAll s = (NewManager os config).StopAll s := by
  have h1 : NewManager { os with ctxErr := f } config =
      registerServices (orDefault config) (OS.doSleep { os with ctxErr := f })
        ((NewRedisService (orDefault config)).toService { os with ctxErr := f })
        ((NewMuraenaService (orDefault config)).toService { os with ctxErr := f })
        ((NewNecroBrowserService (orDefault config)).toService { os with ctxErr := f }) := rfl
  have h2 : NewManager os config =
      registerServices (orDefault config) os.doSleep
        ((NewRedisService (orDefault config)).toService os)
        ((NewMuraenaService (orDefault config)).toService os)
        ((NewNecroBrowserService (orDefault config)).toService os) := rfl
  rw [h1, h2]
  simp only [Manager.StopAll, stopLoop_register]
  rfl

theorem muraena_Start_ctx (os : OS) (f : World → Option GoError) (ms : MuraenaService)
    (w : World) : ms.Start { os with ctxErr := f } w = ms.Start os w := by
  simp only [MuraenaService.Start, MuraenaService.isRunning, OS.doStat, OS.doMkdirAll, OS.doRun,
    OS.doOutput, OS.doSleep, OS.step]

theorem muraena_Restart_ctx (os : OS) (f : World → Option GoError) (ms : MuraenaService)
    (w : World) : ms.Restart { os with ctxErr := f } w = ms.Restart os w := by
  have hstop : ms.Stop { os with ctxErr := f } = ms.Stop os := rfl
  have hsleep : OS.doSleep { os with ctxErr := f } = os.doSleep := rfl
  simp only [MuraenaService.Restart, hstop, hsleep, muraena_Start_ctx]

theorem redis_ctx (os : OS) (f : World → Option GoError) (rs : RedisService) (w : World) :
    rs.Start { os with ctxErr := f } w = rs.Start os w ∧
    rs.Stop { os with ctxErr := f } w = rs.Stop os w ∧
    rs.Restart { os with ctxErr := f } w = rs.Restart os w :=
  ⟨rfl, rfl, rfl⟩

theorem muraena_Stop_ctx (os : OS) (f : World → Option GoError) (ms : MuraenaService)
    (w : World) : ms.Stop { os with ctxErr := f } w = ms.Stop os w := rfl

theorem necro_Stop_ctx (os : OS) (f : World → Option GoError) (ns : NecroBrowserService)
    (w : World) : ns.Stop { os with ctxErr := f } w = ns.Stop os w := rfl

theorem settle_ctx (os : OS) (f : World → Option GoError) (config : Option ServiceConfig)
    (d : Nat) (s : MState World) :
    (NewManager { os with ctxErr := f } config).settle d s =
      (NewManager os config).settle d s := by
  simp only [Manager.settle, NewManager, registerServices, OS.doSleep, OS.step]

/-- C21, amended. The context is looked at in one place, the loop of the
readiness wait of the automation worker, at the start of each round: when a
round begins before the deadline and the context is done, the loop returns
`ctx.Err()` without a request of `/health` and without a sleep, and `Start`
returns it wrapped in "necrobrowser API not ready: ". No settle or grace delay
looks at the context: what the `Start`, `Stop` and `Restart` of the data store
and of the proxy, the `Stop` of the automation worker, the delays of the
orchestrator and `StopAll` return and request is the same whatever the context
says, and every delay moves the clock by its full duration. -/
theorem cancellation_observed_by_polling_only (os : OS) (f : World → Option GoError)
    (rs : RedisService) (ms : MuraenaService) (ns : NecroBrowserService) (w : World)
    (config : Option ServiceConfig) (s : MState World) (d deadline fuel : Nat) :
    (∀ err, w.clock < deadline → os.ctxErr (os.step w .now) = some err →
      ns.waitLoop os deadline (fuel + 1) w = (some err, os.step (os.step w .now) .ctxDone)) ∧
    (∀ err, (ns.beforeWait os w).1 = none →
      os.elapsed (ns.beforeWait os w).2 .now < 30 * Second →
      os.ctxErr (os.step (os.step (ns.beforeWait os w).2 .now) .now) = some err →
      ns.Start os w = (some (.wrapf "necrobrowser API not ready: " err),
        os.step (os.step (os.step (ns.beforeWait os w).2 .now) .now) .ctxDone)) ∧
    (rs.Start { os with ctxErr := f } w = rs.Start os w ∧
      rs.Stop { os with ctxErr := f } w = rs.Stop os w ∧
      rs.Restart { os with ctxErr := f } w = rs.Restart os w ∧
      ms.Start { os with ctxErr := f } w = ms.Start os w ∧
      ms.Stop { os with ctxErr := f } w = ms.Stop os w ∧
      ms.Restart { os with ctxErr := f } w = ms.Restart os w ∧
      ns.Stop { os with ctxErr := f } w = ns.Stop os w ∧
      (NewManager { os with ctxErr := f } config).settle d s = (NewManager os config).settle d s ∧
      (NewManager { os with ctxErr := f } config).StopAll s = (NewManager os config).StopAll s) ∧
    w.clock + d ≤ (os.doSleep d w).clock :=
  ⟨fun err hclock hctx => waitLoop_cancelled os ns deadline fuel w err hclock hctx,
    fun err hreach hclock hctx => necro_Start_cancelled os ns w err hreach hclock hctx,
    ⟨(redis_ctx os f rs w).1, (redis_ctx os f rs w).2.1, (redis_ctx os f rs w).2.2,
      muraena_Start_ctx os f ms w, muraena_Stop_ctx os f ms w, muraena_Restart_ctx os f ms w,
      necro_Stop_ctx os f ns w, settle_ctx os f config d s,
      StopAll_ctx_independent os f config s⟩,
    step_sleep_clock os w d⟩

/-- Witness of C21, amended: on the host of Scenario A on which the context is
cancelled once the automation-worker session is launched, a round of the loop
that begins after the launch returns "context canceled" at once, and so does
the `Start` of the automation worker, wrapped. -/
theorem cancellation_observed_by_polling_only_witness :
    (NewNecroBrowserService DefaultServiceConfig).waitLoop
        (scenarioHost DefaultServiceConfig .ctxCancelled) (30 * Second) (0 + 1)
        (launchedWorld DefaultServiceConfig) =
      (some (.errorf "context canceled"),
        (scenarioHost DefaultServiceConfig .ctxCancelled).step
          ((scenarioHost DefaultServiceConfig .ctxCancelled).step
            (launchedWorld DefaultServiceConfig) .now) .ctxDone) ∧
    ((NewNecroBrowserService DefaultServiceConfig).Start
        (scenarioHost DefaultServiceConfig .ctxCancelled) freshWorld).1 =
      some (.wrapf "necrobrowser API not ready: " (.errorf "context canceled")) :=
  ⟨(cancellation_observed_by_polling_only (scenarioHost DefaultServiceConfig .ctxCancelled)
      (fun _ => none) (NewRedisService DefaultServiceConfig)
      (NewMuraenaService DefaultServiceConfig) (NewNecroBrowserService DefaultServiceConfig)
      (launchedWorld DefaultServiceConfig) none freshHost 0 (30 * Second) 0).1
      (.errorf "context canceled") (by decide) (by decide),
    congrArg Prod.fst
      ((cancellation_observed_by_polling_only (scenarioHost DefaultServiceConfig .ctxCancelled)
        (fun _ => none) (NewRedisService DefaultServiceConfig)
        (NewMuraenaService DefaultServiceConfig) (NewNecroBrowserService DefaultServiceConfig)
        freshWorld none freshHost 0 (30 * Second) 0).2.1
        (.errorf "context canceled") (by decide) (by decide) (by decide))⟩

/-! ## The session-existence check (C23) -/

/-- C23. On every host and in every world, `isRunning` of the proxy (of the
automation worker) returns true exactly when `screen -list` exits
successfully and its output has the substring "muraena" ("necro"), wherever
it stands. On the host `lookalikeHost` the listing shows the two sessions
`muraena-backup` and `necromancer` and no session named `muraena` or `necro`;
both `isRunning` return true, and each `Start` refuses with "already running"
after that one listing. -/
theorem isRunning_is_substring_test (os : OS) (ms : MuraenaService) (ns : NecroBrowserService)
    (w : World) :
    ((ms.isRunning os w).1 = true ↔
      (os.output w false ["screen", "-list"]).2 = none ∧
        Contains (os.output w false ["screen", "-list"]).1 "muraena" = true) ∧
    ((ns.isRunning os w).1 = true ↔
      (os.output w false ["screen", "-list"]).2 = none ∧
        Contains (os.output w false ["screen", "-list"]).1 "necro" = true) ∧
    (lookalikeHost.output freshWorld false ["screen", "-list"] = (lookalikeListing, none) ∧
      specListedSessions lookalikeListing = ["muraena-backup", "necromancer"] ∧
      ((NewMuraenaService DefaultServiceConfig).isRunning lookalikeHost freshWorld).1 = true ∧
      ((NewNecroBrowserService DefaultServiceConfig).isRunning lookalikeHost freshWorld).1 =
        true ∧
      (NewMuraenaService DefaultServiceConfig).Start lookalikeHost freshWorld =
        (some (.errorf "muraena is already running"),
          lookalikeHost.step freshWorld (.output false ["screen", "-list"])) ∧
      (NewNecroBrowserService DefaultServiceConfig).Start lookalikeHost freshWorld =
        (some (.errorf "necrobrowser is already running"),
          lookalikeHost.step freshWorld (.output false ["screen", "-list"]))) := by
  refine ⟨?_, ?_, ⟨by decide, by decide, by decide, by decide, by decide, by decide⟩⟩
  · rcases h : os.output w false ["screen", "-list"] with ⟨out, _ | e⟩ <;>
      simp [MuraenaService.isRunning, h]
  · rcases h : os.output w false ["screen", "-list"] with ⟨out, _ | e⟩ <;>
      simp [NecroBrowserService.isRunning, h]

/-! ## The command line and the orchestrator (C26) -/

set_option maxRecDepth 8192 in
/-- C26. The `start`, `stop`, `restart`, `status` and `health` commands of
`service-manager` print the same text on every host and in every world, and
make no request to the host. On the host `bareHost`, where nothing is
installed, `StartAll`, `StopAll`, `RestartAll` and `VerifyAll` fail and
`GetStatus` reports the data store as not running, while on the host of
Scenario A they succeed and the data store is reported running; the reports of
the commands are the same on both, and they announce success. -/
theorem cli_reports_are_constant (os1 os2 : OS) (w1 w2 : World) :
    ((startCmd os1 w1).1 = (startCmd os2 w2).1 ∧ (stopCmd os1 w1).1 = (stopCmd os2 w2).1 ∧
      (restartCmd os1 w1).1 = (restartCmd os2 w2).1 ∧
      (statusCmd os1 w1).1 = (statusCmd os2 w2).1 ∧
      (healthCmd os1 w1).1 = (healthCmd os2 w2).1) ∧
    ((startCmd os1 w1).2 = w1 ∧ (stopCmd os1 w1).2 = w1 ∧ (restartCmd os1 w1).2 = w1 ∧
      (statusCmd os1 w1).2 = w1 ∧ (healthCmd os1 w1).2 = w1) ∧
    (((NewManager bareHost none).StartAll ["redis", "muraena", "necrobrowser"] freshHost).1 ≠
        none ∧
      ((NewManager (scenarioHost DefaultServiceConfig .nothing) none).StartAll
        ["redis", "muraena", "necrobrowser"] freshHost).1 = none ∧
      (startCmd bareHost freshWorld).1 =
        "🚀 Starting all services...\n✓ Redis started\n✓ Muraena started\n" ++
          "✓ NecroBrowser started\n\n✅ All services started successfully!\n") ∧
    (((NewManager bareHost none).StopAll freshHost).1 ≠ none ∧
      ((NewManager (scenarioHost DefaultServiceConfig .nothing) none).StopAll freshHost).1 =
        none ∧
      (stopCmd bareHost freshWorld).1 =
        "🛑 Stopping all services...\n✓ NecroBrowser stopped\n✓ Muraena stopped\n" ++
          "✓ Redis stopped\n\n✅ All services stopped successfully!\n") ∧
    (((NewManager bareHost none).RestartAll ["redis", "muraena", "necrobrowser"] freshHost).1 ≠
        none ∧
      ((NewManager (scenarioHost DefaultServiceConfig .nothing) none).RestartAll
        ["redis", "muraena", "necrobrowser"] freshHost).1 = none ∧
      (restartCmd bareHost freshWorld).1 =
        "🔄 Restarting all services...\n✓ Services restarted\n" ++
          "\n✅ All services restarted successfully!\n") ∧
    (((NewManager bareHost none).VerifyAll ["redis", "muraena", "necrobrowser"]
        launchedState).1 ≠ none ∧
      ((NewManager (scenarioHost DefaultServiceConfig .nothing) none).VerifyAll
        ["redis", "muraena", "necrobrowser"] launchedState).1 = none ∧
      (healthCmd bareHost launchedState.inner).1 =
        "🏥 Running health checks...\n✓ Redis:        HEALTHY\n✓ Muraena:      HEALTHY\n" ++
          "✓ NecroBrowser: HEALTHY\n\n✅ All services are healthy!\n") ∧
    ((mapGet ((NewManager bareHost none).GetStatus ["redis", "muraena", "necrobrowser"]
        launchedState).1 "redis").map ServiceStatus.Running = some false ∧
      (mapGet ((NewManager (scenarioHost DefaultServiceConfig .nothing) none).GetStatus
        ["redis", "muraena", "necrobrowser"] launchedState).1 "redis").map
        ServiceStatus.Running = some true ∧
      (statusCmd bareHost launchedState.inner).1 =
        "📊 Service Status:\n" ++
          "━━━━━━━━━━━━━━━━━━━━━━━━━━━━━━━━━━━━━━━━━━━━━━━━━━━━━━━━━━━━━━\n" ++
          "✓ Redis:        RUNNING (port 6379)\n✓ Muraena:      RUNNING (ports 80, 443)\n" ++
          "✓ NecroBrowser: RUNNING (port 3000)\n" ++
          "━━━━━━━━━━━━━━━━━━━━━━━━━━━━━━━━━━━━━━━━━━━━━━━━━━━━━━━━━━━━━━\n") := by
  refine ⟨⟨rfl, rfl, rfl, rfl, rfl⟩, ⟨rfl, rfl, rfl, rfl, rfl⟩, ⟨by decide, by decide, rfl⟩,
    ⟨by decide, by decide, rfl⟩, ⟨by decide, by decide, rfl⟩,
    ⟨by decide, by decide, rfl⟩, ⟨by decide, by decide, rfl⟩⟩

end service
